import Mathlib

/-!
# DRM PRIME buffer sharing (`drivers/gpu/drm/drm_prime.c`)

A shallow embedding of the generic import/export/handle-mapping code of
`drm_prime.c`, and the properties of it that the specification states.

* A C pointer is the signed `long` it casts to, so that `ERR_PTR`, `PTR_ERR`,
  `IS_ERR` and `IS_ERR_OR_NULL` are the computations of `linux/err.h`.
* The memory the functions work on is a `Kernel` value, passed in and out.
* A function that stores through an out pointer (`int *prime_fd`,
  `uint32_t *handle`) returns `some v` for the value it stored and `none`
  when it stored nothing.
* Calls that leave `drm_prime.c` (driver callbacks, dma-buf and GEM helpers)
  are written to `Kernel.calls` in the order they are made; what they answer
  is read from an `Env`, as is the pointer `kmalloc` hands out.
-/

namespace DrmPrime

/-! ## Pointers and error values (`linux/err.h`, `errno.h`) -/

/-- A C pointer, read as the signed `long` it casts to. -/
abbrev Ptr := Int

/-- The null pointer. -/
def NULL : Ptr := 0

def MAX_ERRNO : Int := 4095

def ENOENT : Int := 2
def ENOMEM : Int := 12
def EINVAL : Int := 22
def ENOSYS : Int := 38

/-- The macro `ERR_PTR(error)` of `linux/err.h`: `(void *) error`. -/
def ERR_PTR (error : Int) : Ptr := error

/-- The macro `PTR_ERR(ptr)` of `linux/err.h`: `(long) ptr`. -/
def PTR_ERR (ptr : Ptr) : Int := ptr

/-- The macro `IS_ERR_VALUE(x)` of `linux/err.h`:
`(x) >= (unsigned long)-MAX_ERRNO`, on the signed reading of `x`. -/
def IS_ERR_VALUE (x : Int) : Bool := decide (-MAX_ERRNO ≤ x ∧ x < 0)

/-- The macro `IS_ERR(ptr)` of `linux/err.h`. -/
def IS_ERR (ptr : Ptr) : Bool := IS_ERR_VALUE ptr

/-- The macro `IS_ERR_OR_NULL(ptr)` of `linux/err.h`: `!ptr || IS_ERR_VALUE(ptr)`. -/
def IS_ERR_OR_NULL (ptr : Ptr) : Bool := ptr == NULL || IS_ERR_VALUE ptr

/-! ## Data model -/

/-- The fields of `struct drm_gem_object` that `drm_prime.c` reads or writes,
with the two counters its helpers move. -/
structure drm_gem_object where
  /-- The object reference count (`refcount`, a kref). -/
  refcount : Int
  /-- The number of handles on the object (`handle_count`). -/
  handle_count : Int
  /-- The field `struct dma_buf_attachment *import_attach`. -/
  import_attach : Ptr
  /-- The field `struct dma_buf *export_dma_buf`. -/
  export_dma_buf : Ptr
deriving DecidableEq, Repr

/-- The entry `struct drm_prime_member` of the handle-mapping table (its list
linkage is the position in the list). -/
structure drm_prime_member where
  dma_buf : Ptr
  handle : Nat
deriving DecidableEq, Repr

/-- The table `struct drm_prime_file_private`: the list hanging off `head`, first
entry first. -/
structure drm_prime_file_private where
  head : List drm_prime_member
deriving DecidableEq, Repr

/-- What `drm_prime.c` uses of `struct drm_file`: the handle table of the context
(`object_idr`, `NULL` where a handle is unknown) and the PRIME table. -/
structure drm_file where
  object_idr : Nat → Ptr
  prime : drm_prime_file_private

/-- A call that leaves `drm_prime.c`, with the arguments that matter. -/
inductive Call where
  | drm_gem_object_lookup (handle : Nat)
  | drm_gem_object_unreference_unlocked (obj : Ptr)
  | drm_gem_object_handle_unreference_unlocked (obj : Ptr)
  | drm_gem_handle_create (obj : Ptr)
  | gem_prime_export (obj : Ptr) (flags : Nat)
  | gem_prime_import (dma_buf : Ptr)
  | get_file (dma_buf : Ptr)
  | dma_buf_fd (dma_buf : Ptr) (flags : Nat)
  | dma_buf_get (fd : Int)
  | dma_buf_put (dma_buf : Ptr)
  | prime_handle_to_fd (handle : Nat) (flags : Nat)
  | prime_fd_to_handle (prime_fd : Int)
  | dma_buf_unmap_attachment (attach : Ptr) (sg : Ptr)
  | dma_buf_detach (dma_buf : Ptr) (attach : Ptr)
deriving DecidableEq, Repr

/-- The memory the PRIME functions work on. -/
structure Kernel where
  /-- The GEM objects, by address. -/
  gem : Ptr → drm_gem_object
  /-- The reference count of the file behind each dma-buf, by the address of the dma-buf. -/
  f_count : Ptr → Int
  /-- The client context (`file_priv`). -/
  file_priv : drm_file
  /-- The calls made out of `drm_prime.c` so far, oldest first. -/
  calls : List Call

/-- The callbacks `dev->driver->gem_prime_export` and `->gem_prime_import`, as
what they return. -/
structure drm_driver where
  /-- The pointer `gem_prime_export(dev, obj, flags)` returns. -/
  gem_prime_export : Ptr → Nat → Ptr
  /-- The pointer `gem_prime_import(dev, dma_buf)` returns, and the GEM object
  the driver has built at that address (read only if the pointer is valid). -/
  gem_prime_import : Ptr → Ptr × drm_gem_object

/-- What the collaborators of one call answer. -/
structure Env where
  driver : drm_driver
  /-- The pointer `dma_buf_get(fd)` returns. -/
  dma_buf_get : Int → Ptr
  /-- The descriptor (or negative error) `dma_buf_fd(dma_buf, flags)` returns. -/
  dma_buf_fd : Ptr → Nat → Int
  /-- The return value of `drm_gem_handle_create` for an object, and the handle
  it allocates when that value is 0. -/
  drm_gem_handle_create : Ptr → Int × Nat
  /-- The pointer `kmalloc` returns (`NULL` when the allocation fails). -/
  kmalloc : Ptr

/-- The outcome of a function with an out pointer. -/
structure Ret (α : Type) where
  /-- The return value. -/
  ret : Int
  /-- The value stored through the out pointer, when one was stored. -/
  out : Option α
  /-- The memory afterwards. -/
  k : Kernel

/-! ## Collaborators -/

/-- Record a call. -/
def Kernel.call (k : Kernel) (c : Call) : Kernel :=
  { k with calls := k.calls ++ [c] }

/-- Change one GEM object. -/
def Kernel.set_gem (k : Kernel) (obj : Ptr) (o : drm_gem_object) : Kernel :=
  { k with gem := Function.update k.gem obj o }

/-- Modelled from the spec: `drm_gem_object_lookup` (drm_gem.c) is not among the
sources. §4.1 step 1: "Resolve local handle to a Driver Object within the
client context"; unknown handles give `NULL`. A found object is returned with
one more reference, the one the source's comments on lines 36-40 and 84-86
account for. -/
def drm_gem_object_lookup (k : Kernel) (handle : Nat) : Ptr × Kernel :=
  let k := k.call (.drm_gem_object_lookup handle)
  let obj := k.file_priv.object_idr handle
  (obj,
    if obj = NULL then k
    else k.set_gem obj { k.gem obj with refcount := (k.gem obj).refcount + 1 })

/-- Modelled from the spec: `drm_gem_object_unreference_unlocked` (drmP.h) is not
among the sources. It drops one reference on the object (§9, "manual
increment/decrement"). -/
def drm_gem_object_unreference_unlocked (k : Kernel) (obj : Ptr) : Kernel :=
  let k := k.call (.drm_gem_object_unreference_unlocked obj)
  k.set_gem obj { k.gem obj with refcount := (k.gem obj).refcount - 1 }

/-- Modelled from the spec: `drm_gem_object_handle_unreference_unlocked` (drmP.h)
is not among the sources. It drops one handle count and one reference on the
object; the handle table is not its business. -/
def drm_gem_object_handle_unreference_unlocked (k : Kernel) (obj : Ptr) : Kernel :=
  let k := k.call (.drm_gem_object_handle_unreference_unlocked obj)
  k.set_gem obj { k.gem obj with
    handle_count := (k.gem obj).handle_count - 1
    refcount := (k.gem obj).refcount - 1 }

/-- Modelled from the spec: `drm_gem_handle_create` (drm_gem.c) is not among the
sources. §4.2 step 3: "allocate a new local handle for it within the context".
On success the handle resolves to the object from then on, the object has one
more handle count and reference, and the handle is stored through `handlep`;
on failure nothing changes. The result is the return value, `*handlep` and
the memory. -/
def drm_gem_handle_create (env : Env) (k : Kernel) (obj : Ptr) : Int × Nat × Kernel :=
  let k := k.call (.drm_gem_handle_create obj)
  let ret := (env.drm_gem_handle_create obj).1
  let handle := (env.drm_gem_handle_create obj).2
  (ret, handle,
    if ret = 0 then
      { k with
        gem := Function.update k.gem obj { k.gem obj with
          handle_count := (k.gem obj).handle_count + 1
          refcount := (k.gem obj).refcount + 1 }
        file_priv := { k.file_priv with
          object_idr := Function.update k.file_priv.object_idr handle obj } }
    else k)

/-- The callback `dev->driver->gem_prime_export(dev, obj, flags)` (§6
`export(driver_object, flags)`): the call is recorded, the driver answers. -/
def gem_prime_export (env : Env) (k : Kernel) (obj : Ptr) (flags : Nat) : Ptr × Kernel :=
  (env.driver.gem_prime_export obj flags, k.call (.gem_prime_export obj flags))

/-- The callback `dev->driver->gem_prime_import(dev, dma_buf)` (§6
`import(ShareableBufferObject)`): the call is recorded, the driver answers, and
a valid answer points at the GEM object the driver has built. -/
def gem_prime_import (env : Env) (k : Kernel) (dma_buf : Ptr) : Ptr × Kernel :=
  let k := k.call (.gem_prime_import dma_buf)
  let obj := (env.driver.gem_prime_import dma_buf).1
  (obj,
    if IS_ERR_OR_NULL obj then k
    else k.set_gem obj (env.driver.gem_prime_import dma_buf).2)

/-- Modelled from the spec: `get_file` (linux/fs.h) is not among the sources. The
access `dma_buf->file` reads through `dma_buf`: there is no outcome when that is
`NULL` or an error value. Otherwise the file gains one reference (§4.1 step 3,
"increment the transferable descriptor's reference count"). -/
def get_file (k : Kernel) (dma_buf : Ptr) : Option Kernel :=
  if IS_ERR_OR_NULL dma_buf then none
  else
    let k := k.call (.get_file dma_buf)
    some { k with f_count := Function.update k.f_count dma_buf (k.f_count dma_buf + 1) }

/-- Modelled from the spec: `dma_buf_fd` (dma-buf.c) is not among the sources. §6
`publish(ShareableBufferObject, flags) -> descriptor`: the descriptor takes
over a file reference the caller holds, so no count moves. -/
def dma_buf_fd (env : Env) (k : Kernel) (dma_buf : Ptr) (flags : Nat) : Int × Kernel :=
  (env.dma_buf_fd dma_buf flags, k.call (.dma_buf_fd dma_buf flags))

/-- Modelled from the spec: `dma_buf_get` (dma-buf.c) is not among the sources. §6
`resolve(descriptor) -> ShareableBufferObject | Error (acquires a reference)`. -/
def dma_buf_get (env : Env) (k : Kernel) (fd : Int) : Ptr × Kernel :=
  let k := k.call (.dma_buf_get fd)
  let dma_buf := env.dma_buf_get fd
  (dma_buf,
    if IS_ERR dma_buf then k
    else { k with f_count := Function.update k.f_count dma_buf (k.f_count dma_buf + 1) })

/-- Modelled from the spec: `dma_buf_put` (dma-buf.c) is not among the sources. §6
`release(ShareableBufferObject)` "(drops a reference)". -/
def dma_buf_put (k : Kernel) (dma_buf : Ptr) : Kernel :=
  let k := k.call (.dma_buf_put dma_buf)
  { k with f_count := Function.update k.f_count dma_buf (k.f_count dma_buf - 1) }

/-! ## The handle-mapping table (`drm_prime.c`, lines 225-281) -/

/-- The function `drm_prime_init_file_private`: `INIT_LIST_HEAD(&prime_fpriv->head)`. -/
def drm_prime_init_file_private (_prime_fpriv : drm_prime_file_private) :
    drm_prime_file_private :=
  { head := [] }

/-- The loop of `drm_prime_destroy_file_private`: every member is unlinked and freed. -/
def drm_prime_destroy_members : List drm_prime_member → List drm_prime_member
  | [] => []
  | _member :: safe => drm_prime_destroy_members safe

/-- The function `drm_prime_destroy_file_private`. -/
def drm_prime_destroy_file_private (prime_fpriv : drm_prime_file_private) :
    drm_prime_file_private :=
  { head := drm_prime_destroy_members prime_fpriv.head }

/-- The function `drm_prime_insert_fd_handle_mapping`, on the pointer `kmalloc`
returned: `-ENOMEM` when it is `NULL`, else the member is linked in right
after `head` (`list_add`). -/
def drm_prime_insert_fd_handle_mapping (member : Ptr)
    (prime_fpriv : drm_prime_file_private) (dma_buf : Ptr) (handle : Nat) :
    Int × drm_prime_file_private :=
  if member = NULL then (-ENOMEM, prime_fpriv)
  else (0, { head := { dma_buf := dma_buf, handle := handle } :: prime_fpriv.head })

/-- The loop of `drm_prime_lookup_fd_handle_mapping`: the handle of the first
member whose `dma_buf` is the pointer looked for. -/
def drm_prime_lookup_members : List drm_prime_member → Ptr → Option Nat
  | [], _ => none
  | member :: rest, dma_buf =>
    if member.dma_buf = dma_buf then some member.handle
    else drm_prime_lookup_members rest dma_buf

/-- The function `drm_prime_lookup_fd_handle_mapping`: the return value, and the
handle stored through `handle` when a member was found. -/
def drm_prime_lookup_fd_handle_mapping (prime_fpriv : drm_prime_file_private)
    (dma_buf : Ptr) : Int × Option Nat :=
  match drm_prime_lookup_members prime_fpriv.head dma_buf with
  | some handle => (0, some handle)
  | none => (-ENOENT, none)

/-- The loop of `drm_prime_remove_fd_handle_mapping`: every member whose `dma_buf`
is the pointer given is unlinked and freed, the others stay. -/
def drm_prime_remove_members : List drm_prime_member → Ptr → List drm_prime_member
  | [], _ => []
  | member :: safe, dma_buf =>
    if member.dma_buf = dma_buf then drm_prime_remove_members safe dma_buf
    else member :: drm_prime_remove_members safe dma_buf

/-- The function `drm_prime_remove_fd_handle_mapping`. -/
def drm_prime_remove_fd_handle_mapping (prime_fpriv : drm_prime_file_private)
    (dma_buf : Ptr) : drm_prime_file_private :=
  { head := drm_prime_remove_members prime_fpriv.head dma_buf }

/-- Put a PRIME table into the client context. -/
def Kernel.set_prime (k : Kernel) (prime : drm_prime_file_private) : Kernel :=
  { k with file_priv := { k.file_priv with prime := prime } }

/-! ## Export and import (`drm_prime.c`, lines 60-141) -/

/-- The function `drm_gem_prime_handle_to_fd`. The outcome is `none` when the code
reads through a pointer that is `NULL` or an error value; `out` is what was
stored in `*prime_fd`. -/
def drm_gem_prime_handle_to_fd (env : Env) (k : Kernel) (handle : Nat) (flags : Nat) :
    Option (Ret Int) :=
  let obj := (drm_gem_object_lookup k handle).1
  let k := (drm_gem_object_lookup k handle).2
  if obj = NULL then some ⟨-ENOENT, none, k⟩
  else if (k.gem obj).import_attach ≠ NULL then
    let k := drm_gem_object_unreference_unlocked k obj
    some ⟨-EINVAL, none, k⟩
  else if (k.gem obj).export_dma_buf ≠ NULL then
    match get_file k (k.gem obj).export_dma_buf with
    | none => none
    | some k =>
      let fd := (dma_buf_fd env k (k.gem obj).export_dma_buf flags).1
      let k := (dma_buf_fd env k (k.gem obj).export_dma_buf flags).2
      let k := drm_gem_object_unreference_unlocked k obj
      some ⟨0, some fd, k⟩
  else
    let buf := (gem_prime_export env k obj flags).1
    let k := (gem_prime_export env k obj flags).2
    let k := k.set_gem obj { k.gem obj with export_dma_buf := buf }
    if IS_ERR_OR_NULL (k.gem obj).export_dma_buf then
      let k := drm_gem_object_unreference_unlocked k obj
      some ⟨PTR_ERR (k.gem obj).export_dma_buf, none, k⟩
    else
      let fd := (dma_buf_fd env k (k.gem obj).export_dma_buf flags).1
      let k := (dma_buf_fd env k (k.gem obj).export_dma_buf flags).2
      some ⟨0, some fd, k⟩

/-- The function `drm_gem_prime_fd_to_handle`; `out` is what was stored in `*handle`. -/
def drm_gem_prime_fd_to_handle (env : Env) (k : Kernel) (prime_fd : Int) : Ret Nat :=
  let dma_buf := (dma_buf_get env k prime_fd).1
  let k := (dma_buf_get env k prime_fd).2
  if IS_ERR dma_buf then ⟨PTR_ERR dma_buf, none, k⟩
  else
    let found := drm_prime_lookup_fd_handle_mapping k.file_priv.prime dma_buf
    if found.1 = 0 then
      let k := dma_buf_put k dma_buf
      ⟨0, found.2, k⟩
    else
      -- never seen this one, need to import
      let obj := (gem_prime_import env k dma_buf).1
      let k := (gem_prime_import env k dma_buf).2
      if IS_ERR_OR_NULL obj then
        ⟨PTR_ERR obj, none, dma_buf_put k dma_buf⟩
      else
        let created := drm_gem_handle_create env k obj
        let k := drm_gem_object_unreference_unlocked created.2.2 obj
        if created.1 ≠ 0 then ⟨created.1, none, dma_buf_put k dma_buf⟩
        else
          let handle := created.2.1
          let inserted :=
            drm_prime_insert_fd_handle_mapping env.kmalloc k.file_priv.prime dma_buf handle
          let k := k.set_prime inserted.2
          if inserted.1 ≠ 0 then
            let k := drm_gem_object_handle_unreference_unlocked k obj
            ⟨inserted.1, some handle, dma_buf_put k dma_buf⟩
          else ⟨0, some handle, k⟩

/-! ## The ioctls (`drm_prime.c`, lines 144-176) -/

/-- The request `struct drm_prime_handle` of drm.h that `data` points at. -/
structure drm_prime_handle where
  handle : Nat
  flags : Nat
  fd : Int
deriving DecidableEq, Repr

/-- What the ioctls read through `dev`. -/
structure drm_device where
  /-- The answer of `drm_core_check_feature(dev, DRIVER_PRIME)`: whether the driver
  advertises PRIME. -/
  driver_prime : Bool
  /-- The hook `dev->driver->prime_handle_to_fd`, `none` for a null pointer: from the
  memory, the handle and the flags to its outcome, `out` being what it stored
  in `*prime_fd`. -/
  prime_handle_to_fd : Option (Kernel → Nat → Nat → Option (Ret Int))
  /-- The hook `dev->driver->prime_fd_to_handle`, `none` for a null pointer: from the
  memory and the descriptor to its outcome, `out` being what it stored in `*handle`. -/
  prime_fd_to_handle : Option (Kernel → Int → Ret Nat)

/-- The outcome of an ioctl: the return value, the request as it is afterwards and
the memory. -/
structure IoctlRet where
  ret : Int
  args : drm_prime_handle
  k : Kernel

/-- The function `drm_prime_handle_to_fd_ioctl`, for the value of the constant
`DRM_CLOEXEC` (drm.h, not among the sources). There is no outcome when the hook
has none. -/
def drm_prime_handle_to_fd_ioctl (DRM_CLOEXEC : Nat) (dev : drm_device) (k : Kernel)
    (args : drm_prime_handle) : Option IoctlRet :=
  if dev.driver_prime = false then some ⟨-EINVAL, args, k⟩
  else
    match dev.prime_handle_to_fd with
    | none => some ⟨-ENOSYS, args, k⟩
    | some hook =>
      -- we only want to pass DRM_CLOEXEC which is == O_CLOEXEC
      let flags := args.flags &&& DRM_CLOEXEC
      match hook (k.call (.prime_handle_to_fd args.handle flags)) args.handle flags with
      | none => none
      | some r =>
        some ⟨r.ret, match r.out with
          | some fd => { args with fd := fd }
          | none => args, r.k⟩

/-- The function `drm_prime_fd_to_handle_ioctl`. -/
def drm_prime_fd_to_handle_ioctl (dev : drm_device) (k : Kernel)
    (args : drm_prime_handle) : IoctlRet :=
  if dev.driver_prime = false then ⟨-EINVAL, args, k⟩
  else
    match dev.prime_fd_to_handle with
    | none => ⟨-ENOSYS, args, k⟩
    | some hook =>
      let r := hook (k.call (.prime_fd_to_handle args.fd)) args.fd
      ⟨r.ret, match r.out with
        | some handle => { args with handle := handle }
        | none => args, r.k⟩

/-! ## The destruction helper (`drm_prime.c`, lines 210-223) -/

/-- The function `drm_prime_gem_destroy`, for the field `dmabuf` of each
`struct dma_buf_attachment` (dma-buf.h, not among the sources), by the address
of the attachment. The unmapping is always asked for `DMA_BIDIRECTIONAL`. The
access `attach->dmabuf` reads through `attach`: when that is `NULL` or an error
value the function does not complete, and the outcome is `error` with the memory
as it is at that access, the calls made before it included. -/
def drm_prime_gem_destroy (dmabuf : Ptr → Ptr) (k : Kernel) (obj : Ptr) (sg : Ptr) :
    Except Kernel Kernel :=
  let attach := (k.gem obj).import_attach
  let k := if sg ≠ NULL then k.call (.dma_buf_unmap_attachment attach sg) else k
  if IS_ERR_OR_NULL attach then .error k
  else
    let dma_buf := dmabuf attach
    let k := k.call (.dma_buf_detach (dmabuf attach) attach)
    -- remove the reference
    .ok (dma_buf_put k dma_buf)

/-! ## Predicates the properties are stated with -/

/-- The number of entries of a table whose buffer is `dma_buf`. -/
def entries_for (prime_fpriv : drm_prime_file_private) (dma_buf : Ptr) : Nat :=
  (prime_fpriv.head.filter (fun member => decide (member.dma_buf = dma_buf))).length

/-- The uniqueness invariant of §3: no two entries of the table have the same buffer. -/
def prime_unique (prime_fpriv : drm_prime_file_private) : Prop :=
  (prime_fpriv.head.map drm_prime_member.dma_buf).Nodup

instance (prime_fpriv : drm_prime_file_private) : Decidable (prime_unique prime_fpriv) := by
  unfold prime_unique; infer_instance

/-- The contexts that `drm_prime_init_file_private` followed by any calls of
`drm_gem_prime_fd_to_handle`, `drm_gem_prime_handle_to_fd` and
`drm_prime_remove_fd_handle_mapping` lead to, whatever the collaborators answer. -/
inductive Reachable : Kernel → Prop
  | init (k : Kernel) :
      Reachable (k.set_prime (drm_prime_init_file_private k.file_priv.prime))
  | fd_to_handle {k : Kernel} (env : Env) (prime_fd : Int) :
      Reachable k → Reachable (drm_gem_prime_fd_to_handle env k prime_fd).k
  | handle_to_fd {k : Kernel} (env : Env) (handle flags : Nat) (r : Ret Int) :
      Reachable k → drm_gem_prime_handle_to_fd env k handle flags = some r → Reachable r.k
  | remove {k : Kernel} (dma_buf : Ptr) :
      Reachable k →
      Reachable (k.set_prime (drm_prime_remove_fd_handle_mapping k.file_priv.prime dma_buf))

/-- Modelled from the spec: the drivers' `gem_prime_import` callbacks are not among
the sources. §3: the export association of a Driver Object is "lazily created on
first export", so the Driver Object a callback constructs as an import, with its
attachment, has none yet. -/
def import_builds_no_export (driver : drm_driver) : Prop :=
  ∀ dma_buf, (driver.gem_prime_import dma_buf).2.import_attach ≠ NULL →
    (driver.gem_prime_import dma_buf).2.export_dma_buf = NULL

/-- The states that exports and imports lead to, in whatever client contexts, from
a state in which nothing is exported yet: between two calls the client context
may be any other one, the objects and the buffers being shared by all. -/
inductive ReachableAcross : Kernel → Prop
  | start (k : Kernel) :
      (∀ obj, (k.gem obj).export_dma_buf = NULL) → ReachableAcross k
  | context {k : Kernel} (file_priv : drm_file) :
      ReachableAcross k → ReachableAcross { k with file_priv := file_priv }
  | handle_to_fd {k : Kernel} (env : Env) (handle flags : Nat) (r : Ret Int) :
      ReachableAcross k → drm_gem_prime_handle_to_fd env k handle flags = some r →
      ReachableAcross r.k
  | fd_to_handle {k : Kernel} (env : Env) (prime_fd : Int) :
      import_builds_no_export env.driver → ReachableAcross k →
      ReachableAcross (drm_gem_prime_fd_to_handle env k prime_fd).k

/-- The object `obj` backs a buffer: its export association is a valid pointer. -/
def exports (k : Kernel) (obj : Ptr) : Prop :=
  IS_ERR_OR_NULL (k.gem obj).export_dma_buf = false

/-- The edge "imports from": `importer` has an attachment, and the buffer that the
attachment is on (its `dmabuf` field) is the export association of `exporter`. -/
def imports_from (dmabuf : Ptr → Ptr) (k : Kernel) (importer exporter : Ptr) : Prop :=
  (k.gem importer).import_attach ≠ NULL ∧ exports k exporter ∧
    dmabuf (k.gem importer).import_attach = (k.gem exporter).export_dma_buf

/-! ## Sample contexts -/

/-- A GEM object of the device itself: one handle, never exported. -/
def sample_native : drm_gem_object :=
  { refcount := 1, handle_count := 1, import_attach := NULL, export_dma_buf := NULL }

/-- A GEM object as a driver builds it on import, attached to a dma-buf. -/
def sample_imported : drm_gem_object :=
  { refcount := 1, handle_count := 0, import_attach := 12288, export_dma_buf := NULL }

/-- A context in which handle 1 is a native object at 4096, handle 2 an imported
object at 20480, no other handle is known and the table is empty. -/
def sample_kernel : Kernel :=
  { gem := fun p => if p = 20480 then { sample_imported with handle_count := 1 } else sample_native
    f_count := fun _ => 1
    file_priv :=
      { object_idr := fun h => if h = 1 then 4096 else if h = 2 then 20480 else NULL
        prime := { head := [] } }
    calls := [] }

/-- The sample context with the dma-buf at 8192 already imported as handle 5. -/
def sample_kernel_hit : Kernel :=
  sample_kernel.set_prime { head := [{ dma_buf := 8192, handle := 5 }] }

/-- Collaborators that all succeed: every descriptor resolves to the dma-buf at 8192,
the export callback answers the dma-buf at 8192, the import callback builds an
imported object at 16384, handle 5 is allocated and `kmalloc` has memory. -/
def sample_env : Env :=
  { driver :=
      { gem_prime_export := fun _ _ => 8192
        gem_prime_import := fun _ => (16384, sample_imported) }
    dma_buf_get := fun _ => 8192
    dma_buf_fd := fun _ _ => 3
    drm_gem_handle_create := fun _ => (0, 5)
    kmalloc := 24576 }

/-- The same collaborators, with an export callback that answers `NULL`. -/
def sample_env_null : Env :=
  { sample_env with
    driver := { sample_env.driver with gem_prime_export := fun _ _ => NULL } }

/-- The same collaborators, with an export callback that answers `ERR_PTR(-ENOMEM)`. -/
def sample_env_err : Env :=
  { sample_env with
    driver := { sample_env.driver with gem_prime_export := fun _ _ => ERR_PTR (-ENOMEM) } }

/-- The same collaborators, with an import callback that answers `NULL`. -/
def sample_env_import_null : Env :=
  { sample_env with
    driver := { sample_env.driver with gem_prime_import := fun _ => (NULL, sample_imported) } }

/-- The same collaborators, with an import callback that builds its object at 16384
without an import attachment. -/
def sample_env_unmarked : Env :=
  { sample_env with
    driver := { sample_env.driver with
      gem_prime_import := fun _ => (16384, { sample_imported with import_attach := NULL }) } }

/-- The same collaborators, with a `kmalloc` that has no memory. -/
def sample_env_nomem : Env :=
  { sample_env with kmalloc := NULL }

/-- The same collaborators, with a handle allocation that fails with `-ENOMEM`. -/
def sample_env_nohandle : Env :=
  { sample_env with drm_gem_handle_create := fun _ => (-ENOMEM, 0) }

/-- The value of `O_CLOEXEC`, which `DRM_CLOEXEC` is defined as, where the generic
`fcntl.h` holds: octal 02000000. -/
def sample_cloexec : Nat := 524288

/-- A device whose driver advertises PRIME and has the two functions of
`drm_prime.c` as its hooks, with the collaborators of `sample_env`. -/
def sample_device : drm_device :=
  { driver_prime := true
    prime_handle_to_fd := some (drm_gem_prime_handle_to_fd sample_env)
    prime_fd_to_handle := some (drm_gem_prime_fd_to_handle sample_env) }

/-- A request to export handle 1 with the close-on-exec bit and one more bit set. -/
def sample_request : drm_prime_handle :=
  { handle := 1, flags := 524289, fd := -1 }

/-- The field `dmabuf` of the sample attachment at 12288: the dma-buf at 8192. -/
def sample_dmabuf : Ptr → Ptr := fun attach => if attach = 12288 then 8192 else NULL

end DrmPrime

/-! # The PD firmware update driver (`drivers/mfd/cros_ec_pd_update.c`) -/

namespace CrosEcPd

def ENOMEM : Int := 12

/-- The fields of `struct cros_ec_pd_firmware_image` (cros_ec_pd_update.h) that the
table fills in. -/
structure cros_ec_pd_firmware_image where
  id_major : Nat
  id_minor : Nat
  filename : String
  hash : List Nat
deriving DecidableEq, Repr

/-- The table `firmware_images`, for the value of the constant
`PD_DEVICE_TYPE_ZINGER` (cros_ec_pd_update.h, not among the sources). -/
def firmware_images (PD_DEVICE_TYPE_ZINGER : Nat) : List cros_ec_pd_firmware_image :=
  [ { id_major := PD_DEVICE_TYPE_ZINGER
      id_minor := 1
      filename := "cros-pd/zinger_000002.bin"
      hash := [0x9e, 0x28, 0xfb, 0x69, 0x9c, 0xf9, 0xc3, 0x3c, 0x47, 0x26,
        0x10, 0x26, 0x48, 0x6a, 0xe1, 0xaf, 0x71, 0x44, 0x95, 0xc6] } ]

/-- The constant `firmware_image_count`: `ARRAY_SIZE(firmware_images)`. -/
def firmware_image_count (PD_DEVICE_TYPE_ZINGER : Nat) : Nat :=
  (firmware_images PD_DEVICE_TYPE_ZINGER).length

/-- The loop of `find_firmware_image` from index `i` on, over the entries from `i`
on: the index of the first entry whose device id is `dev_id`, else `PD_NO_IMAGE`.
The macro `MAJOR_MINOR_TO_DEV_ID` and the constant `PD_NO_IMAGE`
(cros_ec_pd_update.h) are not among the sources. -/
def find_firmware_image_from (MAJOR_MINOR_TO_DEV_ID : Nat → Nat → Nat) (PD_NO_IMAGE : Int)
    (dev_id : Nat) : List cros_ec_pd_firmware_image → Nat → Int
  | [], _ => PD_NO_IMAGE
  | image :: rest, i =>
    if MAJOR_MINOR_TO_DEV_ID image.id_major image.id_minor = dev_id then (i : Int)
    else find_firmware_image_from MAJOR_MINOR_TO_DEV_ID PD_NO_IMAGE dev_id rest (i + 1)

/-- The function `find_firmware_image`, over a table. -/
def find_firmware_image (MAJOR_MINOR_TO_DEV_ID : Nat → Nat → Nat) (PD_NO_IMAGE : Int)
    (images : List cros_ec_pd_firmware_image) (dev_id : Nat) : Int :=
  find_firmware_image_from MAJOR_MINOR_TO_DEV_ID PD_NO_IMAGE dev_id images 0

/-- Whether an entry of the table is for the device id. -/
def image_matches (MAJOR_MINOR_TO_DEV_ID : Nat → Nat → Nat) (dev_id : Nat)
    (image : cros_ec_pd_firmware_image) : Prop :=
  MAJOR_MINOR_TO_DEV_ID image.id_major image.id_minor = dev_id

/-- The values of `enum usb_pd_fw_update_cmds` (cros_ec_commands.h) that the update
sends. -/
inductive usb_pd_fw_update_cmds where
  | USB_PD_FW_REBOOT
  | USB_PD_FW_FLASH_ERASE
  | USB_PD_FW_FLASH_WRITE
  | USB_PD_FW_ERASE_SIG
deriving DecidableEq, Repr

/-- What goes to the EC in one `cros_ec_cmd_xfer`: the header
`struct ec_params_usb_pd_fw_update` and the `size` bytes of `pd_cmd_data` behind
it that `outsize` covers. -/
structure fw_update_msg where
  port : Nat
  cmd : usb_pd_fw_update_cmds
  size : Nat
  data : List Nat
deriving DecidableEq, Repr

/-- The answers of the EC: what `cros_ec_cmd_xfer` returns for a message, after the
messages sent before with the answers they got. -/
abbrev Xfer := List (fw_update_msg × Int) → fw_update_msg → Int

/-- The function `cros_ec_pd_send_fw_update_cmd`, on the payload buffer
`pd_cmd_data` of the message: the return value of `cros_ec_cmd_xfer`, and the
record of what was sent with this message and its answer added. -/
def cros_ec_pd_send_fw_update_cmd (xfer : Xfer) (sent : List (fw_update_msg × Int))
    (port : Nat) (pd_cmd_data : List Nat) (cmd : usb_pd_fw_update_cmds) (size : Nat) :
    Int × List (fw_update_msg × Int) :=
  let msg : fw_update_msg :=
    { port := port, cmd := cmd, size := size, data := pd_cmd_data.take size }
  (xfer sent msg, sent ++ [(msg, xfer sent msg)])

/-- The call `memcpy(dst, src, n)` on byte lists. -/
def memcpy (dst src : List Nat) (n : Nat) : List Nat :=
  src.take n ++ dst.drop n

/-- The loop "Write RW flash" of `cros_ec_pd_fw_update`, from `i` on, with `fuel`
bounding its rounds. The outcome is the error that left the loop by `goto error`
(`none` when the loop ran to its end), the payload buffer and what was sent. There
is no outcome when the fuel runs out, or when the `int` `size` or the `int` `i`
would leave the range of `int`. -/
def flash_write_loop (PD_FLASH_WRITE_STEP : Nat) (xfer : Xfer) (port : Nat) (fw : List Nat) :
    Nat → Nat → List Nat → List (fw_update_msg × Int) →
    Option (Option Int × List Nat × List (fw_update_msg × Int))
  | 0, _, _, _ => none
  | fuel + 1, i, pd_cmd_data, sent =>
    if i < fw.length then
      let size := min (fw.length - i) PD_FLASH_WRITE_STEP
      if 2 ^ 31 ≤ size then none
      else
        let pd_cmd_data := memcpy pd_cmd_data (fw.drop i) size
        let r := cros_ec_pd_send_fw_update_cmd xfer sent port pd_cmd_data
          .USB_PD_FW_FLASH_WRITE size
        if r.1 < 0 then some (some r.1, pd_cmd_data, r.2)
        else if 2 ^ 31 ≤ i + PD_FLASH_WRITE_STEP then none
        else flash_write_loop PD_FLASH_WRITE_STEP xfer port fw fuel
          (i + PD_FLASH_WRITE_STEP) pd_cmd_data r.2
    else some (none, pd_cmd_data, sent)

/-- The function `cros_ec_pd_fw_update`, for the value of `PD_FLASH_WRITE_STEP`
(cros_ec_commands.h, not among the sources), the pointer `kzalloc` returns and the
answers of the EC; the firmware is its bytes, `fw->size` their number. The outcome
is the return value and what was sent. The loop gets `fw->size + 1` rounds of fuel,
which is enough when `PD_FLASH_WRITE_STEP` is not 0. -/
def cros_ec_pd_fw_update (PD_FLASH_WRITE_STEP : Nat) (kzalloc : Int) (xfer : Xfer)
    (fw : List Nat) (port : Nat) : Option (Int × List (fw_update_msg × Int)) :=
  if kzalloc = 0 then some (-ENOMEM, [])
  else
    let pd_cmd_data := List.replicate PD_FLASH_WRITE_STEP 0
    -- Erase signature
    let r := cros_ec_pd_send_fw_update_cmd xfer [] port pd_cmd_data .USB_PD_FW_ERASE_SIG 0
    if r.1 < 0 then some r
    else
      -- Reboot PD
      let r := cros_ec_pd_send_fw_update_cmd xfer r.2 port pd_cmd_data .USB_PD_FW_REBOOT 0
      if r.1 < 0 then some r
      else
        -- Erase RW flash
        let r := cros_ec_pd_send_fw_update_cmd xfer r.2 port pd_cmd_data
          .USB_PD_FW_FLASH_ERASE 0
        if r.1 < 0 then some r
        else
          -- Write RW flash
          match flash_write_loop PD_FLASH_WRITE_STEP xfer port fw (fw.length + 1) 0
              pd_cmd_data r.2 with
          | none => none
          | some (some ret, _, sent) => some (ret, sent)
          | some (none, pd_cmd_data, sent) =>
            -- Reboot PD into new RW
            let r := cros_ec_pd_send_fw_update_cmd xfer sent port pd_cmd_data
              .USB_PD_FW_REBOOT 0
            if r.1 < 0 then some r
            else some (0, r.2)

/-- A device id macro of the usual shape, for the sample: major in the high byte,
minor in the low byte. -/
def sample_dev_id (major minor : Nat) : Nat := (major &&& 255) <<< 8 ||| (minor &&& 255)

/-- An EC that accepts every command. -/
def sample_xfer_ok : Xfer := fun _ _ => 0

/-- An EC that refuses the second flash write with -5. -/
def sample_xfer_fail : Xfer := fun sent _ => if sent.length = 4 then -5 else 0

end CrosEcPd

/-! # The sync helpers of the Midgard driver
(`drivers/gpu/arm/midgard/mali_kbase_sync_user.c`) -/

namespace KbaseSync

def EINVAL : Int := 22

/-- The null pointer. -/
def NULL : Int := 0

/-- What `kbase_sync_file_fdget` reads of the `struct file` that `fget` hands out. -/
structure file where
  /-- The handler `f_op->unlocked_ioctl`, `none` for a null pointer, as what it
  answers to `SYNC_IOC_FILE_INFO` on an `info` that is all zero: its return value and
  `info.num_fences` afterwards. -/
  unlocked_ioctl : Option (Int × Nat)
  /-- The field `private_data`. -/
  private_data : Int
deriving DecidableEq, Repr

/-- The function `kbase_sync_file_fdget`, for what `fget` answers (`none` for
`NULL`): the pointer returned, and the number of `fput(file)` calls made. -/
def kbase_sync_file_fdget (fget : Int → Option file) (fd : Int) : Int × Nat :=
  match fget fd with
  | none => (NULL, 0)
  | some f =>
    match f.unlocked_ioctl with
    | none => (NULL, 1)
    | some (ret, num_fences) =>
      if ret ≠ 0 ∧ num_fences = 0 then (NULL, 1)
      else (f.private_data, 0)

/-- The function `kbase_fence_validate`: the return value, and the number of `fput`
calls made on the file, its own `fput(sfile->file)` included. -/
def kbase_fence_validate (fget : Int → Option file) (fd : Int) : Int × Nat :=
  let sfile := kbase_sync_file_fdget fget fd
  if sfile.1 = NULL then (-EINVAL, sfile.2)
  else (0, sfile.2 + 1)

/-- Descriptor 3 is a file whose ioctl handler returns 0 to everything and reports
no fence; descriptor 4 is a file whose handler fails with -25 and reports one
fence; no other descriptor is open. -/
def sample_fget : Int → Option file := fun fd =>
  if fd = 3 then some { unlocked_ioctl := some (0, 0), private_data := 4096 }
  else if fd = 4 then some { unlocked_ioctl := some (-25, 1), private_data := 8192 }
  else none

end KbaseSync

/-! # The sample character device on the SDMA (`custom/custom_sdma.c`) -/

namespace CustomSdma

def SRAM_SIZE : Int := 0x40000

def EFAULT : Int := 14
def ERESTARTSYS : Int := 512

/-- A value of the type `loff_t`, a signed 64 bit integer. -/
def to_loff_t (x : Int) : Int := (x + 2 ^ 63) % 2 ^ 64 - 2 ^ 63

/-- A value of the type `size_t` of the 32 bit ARM this driver is for (i.MX). -/
def to_size_t (x : Int) : Int := x % 2 ^ 32

/-- A value of the type `ssize_t` of the 32 bit ARM this driver is for. -/
def to_ssize_t (x : Int) : Int := (x + 2 ^ 31) % 2 ^ 32 - 2 ^ 31

/-- The outcome of `custom_sdma_read`. -/
structure ReadRet where
  /-- The return value. -/
  retval : Int
  /-- The position `*f_pos` afterwards. -/
  f_pos : Int
  /-- The copy asked of `copy_to_user`, if one was: the offset from `sram_base` and
  the number of bytes. -/
  copied : Option (Int × Int)
  /-- Whether the semaphore was released by `up`. -/
  up : Bool
deriving DecidableEq, Repr

/-- The function `custom_sdma_read`, for what `down_interruptible` returns and what
`copy_to_user` returns (the number of bytes it could not copy) for an offset and
a count. -/
def custom_sdma_read (down_interruptible : Int) (copy_to_user : Int → Int → Nat)
    (count : Int) (f_pos : Int) : ReadRet :=
  if down_interruptible ≠ 0 then
    { retval := -ERESTARTSYS, f_pos := f_pos, copied := none, up := false }
  else if f_pos ≥ SRAM_SIZE then
    { retval := 0, f_pos := f_pos, copied := none, up := true }
  else
    let count :=
      if to_loff_t (f_pos + count) > SRAM_SIZE then to_size_t (SRAM_SIZE - f_pos)
      else count
    -- Copy SRAM contents.
    if copy_to_user f_pos count ≠ 0 then
      { retval := to_ssize_t (-EFAULT), f_pos := f_pos, copied := some (f_pos, count),
        up := true }
    else
      { retval := to_ssize_t count, f_pos := to_loff_t (f_pos + count),
        copied := some (f_pos, count), up := true }

end CustomSdma

namespace DrmPrime

/-! ## Facts about the table -/

theorem lookup_members_eq_none {l : List drm_prime_member} {b : Ptr} :
    drm_prime_lookup_members l b = none ↔ ∀ m ∈ l, m.dma_buf ≠ b := by
  induction l with
  | nil => simp [drm_prime_lookup_members]
  | cons m rest ih =>
    by_cases h : m.dma_buf = b
    · simp [drm_prime_lookup_members, h]
    · simp [drm_prime_lookup_members, h, ih]

theorem lookup_members_some {l : List drm_prime_member} {b : Ptr} {h : Nat}
    (hl : drm_prime_lookup_members l b = some h) :
    ∃ m ∈ l, m.dma_buf = b ∧ m.handle = h := by
  induction l with
  | nil => simp [drm_prime_lookup_members] at hl
  | cons m rest ih =>
    by_cases hm : m.dma_buf = b
    · simp [drm_prime_lookup_members, hm] at hl
      exact ⟨m, by simp, hm, hl⟩
    · simp [drm_prime_lookup_members, hm] at hl
      obtain ⟨m', hmem, hb, hh⟩ := ih hl
      exact ⟨m', by simp [hmem], hb, hh⟩

theorem lookup_members_of_mem {l : List drm_prime_member} {b : Ptr}
    (hl : ∃ m ∈ l, m.dma_buf = b) : ∃ h, drm_prime_lookup_members l b = some h := by
  cases hlk : drm_prime_lookup_members l b with
  | some h => exact ⟨h, rfl⟩
  | none =>
    obtain ⟨m, hm, hb⟩ := hl
    exact absurd hb (lookup_members_eq_none.mp hlk m hm)

theorem entries_for_eq_count (t : drm_prime_file_private) (b : Ptr) :
    entries_for t b = (t.head.map drm_prime_member.dma_buf).count b := by
  unfold entries_for
  induction t.head with
  | nil => rfl
  | cons m rest ih =>
    by_cases h : m.dma_buf = b
    · simp [List.filter_cons, h, ih]
    · simp [List.filter_cons, h, ih, List.count_cons]

theorem entries_for_le_one {t : drm_prime_file_private} (hu : prime_unique t) (b : Ptr) :
    entries_for t b ≤ 1 := by
  rw [entries_for_eq_count]
  exact List.nodup_iff_count_le_one.mp hu b

theorem entries_for_pos {t : drm_prime_file_private} {b : Ptr} {h : Nat}
    (hl : drm_prime_lookup_members t.head b = some h) : 0 < entries_for t b := by
  obtain ⟨m, hm, hb, _⟩ := lookup_members_some hl
  rw [entries_for_eq_count]
  exact List.count_pos_iff.mpr (List.mem_map.mpr ⟨m, hm, hb⟩)

theorem entries_for_zero {t : drm_prime_file_private} {b : Ptr}
    (hl : drm_prime_lookup_members t.head b = none) : entries_for t b = 0 := by
  rw [entries_for_eq_count]
  apply List.count_eq_zero.mpr
  intro hmem
  obtain ⟨m, hm, hb⟩ := List.mem_map.mp hmem
  exact lookup_members_eq_none.mp hl m hm hb

theorem remove_members_sublist (l : List drm_prime_member) (b : Ptr) :
    (drm_prime_remove_members l b).Sublist l := by
  induction l with
  | nil => simp [drm_prime_remove_members]
  | cons m rest ih =>
    by_cases h : m.dma_buf = b
    · simp only [drm_prime_remove_members, h, if_true]
      exact List.Sublist.cons m ih
    · simp only [drm_prime_remove_members, h, if_false]
      exact List.Sublist.cons₂ m ih

theorem remove_unique {t : drm_prime_file_private} (hu : prime_unique t) (b : Ptr) :
    prime_unique (drm_prime_remove_fd_handle_mapping t b) := by
  unfold prime_unique drm_prime_remove_fd_handle_mapping at *
  exact List.Nodup.sublist (List.Sublist.map _ (remove_members_sublist t.head b)) hu

/-! ## The paths of `drm_gem_prime_fd_to_handle` -/

theorem fd_to_handle_of_hit (env : Env) (k : Kernel) (prime_fd : Int) {H : Nat}
    (hok : IS_ERR (env.dma_buf_get prime_fd) = false)
    (hit : drm_prime_lookup_members k.file_priv.prime.head (env.dma_buf_get prime_fd) = some H) :
    drm_gem_prime_fd_to_handle env k prime_fd =
      ⟨0, some H, dma_buf_put (dma_buf_get env k prime_fd).2 (env.dma_buf_get prime_fd)⟩ := by
  simp [drm_gem_prime_fd_to_handle, dma_buf_get, hok, drm_prime_lookup_fd_handle_mapping,
    Kernel.call, hit]

theorem put_get_calls (env : Env) (k : Kernel) (prime_fd : Int) :
    (dma_buf_put (dma_buf_get env k prime_fd).2 (env.dma_buf_get prime_fd)).calls =
      k.calls ++ [.dma_buf_get prime_fd, .dma_buf_put (env.dma_buf_get prime_fd)] := by
  by_cases h : IS_ERR (env.dma_buf_get prime_fd) <;>
    simp [dma_buf_put, dma_buf_get, Kernel.call, h]

theorem put_get_file_priv (env : Env) (k : Kernel) (prime_fd : Int) :
    (dma_buf_put (dma_buf_get env k prime_fd).2 (env.dma_buf_get prime_fd)).file_priv =
      k.file_priv := by
  by_cases h : IS_ERR (env.dma_buf_get prime_fd) <;>
    simp [dma_buf_put, dma_buf_get, Kernel.call, h]

theorem put_get_gem (env : Env) (k : Kernel) (prime_fd : Int) :
    (dma_buf_put (dma_buf_get env k prime_fd).2 (env.dma_buf_get prime_fd)).gem = k.gem := by
  by_cases h : IS_ERR (env.dma_buf_get prime_fd) <;>
    simp [dma_buf_put, dma_buf_get, Kernel.call, h]

theorem put_get_f_count (env : Env) (k : Kernel) (prime_fd : Int)
    (hok : IS_ERR (env.dma_buf_get prime_fd) = false) :
    (dma_buf_put (dma_buf_get env k prime_fd).2 (env.dma_buf_get prime_fd)).f_count =
      k.f_count := by
  simp [dma_buf_put, dma_buf_get, Kernel.call, hok]

/-- The outcome of the path of `drm_gem_prime_fd_to_handle` on which everything succeeds. -/
theorem fresh_import_result (env : Env) (k : Kernel) (prime_fd : Int) (B obj : Ptr) (H : Nat)
    (hB : env.dma_buf_get prime_fd = B) (hok : IS_ERR B = false)
    (hmiss : ∀ m ∈ k.file_priv.prime.head, m.dma_buf ≠ B)
    (himp : (env.driver.gem_prime_import B).1 = obj) (hobj : IS_ERR_OR_NULL obj = false)
    (hcreate : env.drm_gem_handle_create obj = (0, H))
    (hmem : env.kmalloc ≠ NULL) :
    (drm_gem_prime_fd_to_handle env k prime_fd).ret = 0 ∧
    (drm_gem_prime_fd_to_handle env k prime_fd).out = some H ∧
    (drm_gem_prime_fd_to_handle env k prime_fd).k.calls =
      k.calls ++ [.dma_buf_get prime_fd, .gem_prime_import B, .drm_gem_handle_create obj,
        .drm_gem_object_unreference_unlocked obj] ∧
    (drm_gem_prime_fd_to_handle env k prime_fd).k.file_priv.prime.head =
      { dma_buf := B, handle := H } :: k.file_priv.prime.head ∧
    entries_for (drm_gem_prime_fd_to_handle env k prime_fd).k.file_priv.prime B = 1 ∧
    drm_prime_lookup_fd_handle_mapping
      (drm_gem_prime_fd_to_handle env k prime_fd).k.file_priv.prime B = (0, some H) := by
  subst hB himp
  have hnone := lookup_members_eq_none.mpr hmiss
  have hE : ENOENT ≠ 0 := by decide
  have hfd : drm_gem_prime_fd_to_handle env k prime_fd =
      ⟨0, some H, (drm_gem_prime_fd_to_handle env k prime_fd).k⟩ := by
    simp [drm_gem_prime_fd_to_handle, dma_buf_get, hok, drm_prime_lookup_fd_handle_mapping,
      Kernel.call, hnone, hE, gem_prime_import, hobj, drm_gem_handle_create, hcreate,
      drm_gem_object_unreference_unlocked, drm_prime_insert_fd_handle_mapping, hmem,
      Kernel.set_gem, Kernel.set_prime]
  have hhead : (drm_gem_prime_fd_to_handle env k prime_fd).k.file_priv.prime.head =
      { dma_buf := env.dma_buf_get prime_fd, handle := H } :: k.file_priv.prime.head := by
    simp [drm_gem_prime_fd_to_handle, dma_buf_get, hok, drm_prime_lookup_fd_handle_mapping,
      Kernel.call, hnone, hE, gem_prime_import, hobj, drm_gem_handle_create, hcreate,
      drm_gem_object_unreference_unlocked, drm_prime_insert_fd_handle_mapping, hmem,
      Kernel.set_gem, Kernel.set_prime]
  refine ⟨by rw [hfd], by rw [hfd], ?_, hhead, ?_, ?_⟩
  · simp [drm_gem_prime_fd_to_handle, dma_buf_get, hok, drm_prime_lookup_fd_handle_mapping,
      Kernel.call, hnone, hE, gem_prime_import, hobj, drm_gem_handle_create, hcreate,
      drm_gem_object_unreference_unlocked, drm_prime_insert_fd_handle_mapping, hmem,
      Kernel.set_gem, Kernel.set_prime]
  · have h0 := entries_for_zero hnone
    unfold entries_for at h0 ⊢
    rw [hhead]
    simp [List.filter_cons, h0]
  · simp [drm_prime_lookup_fd_handle_mapping, hhead, drm_prime_lookup_members]

/-- What a fresh import leaves behind for the object: the new handle resolves to it,
and it is the object the driver built with one more handle count. -/
theorem fresh_import_object (env : Env) (k : Kernel) (prime_fd : Int) (H : Nat)
    (hok : IS_ERR (env.dma_buf_get prime_fd) = false)
    (hmiss : ∀ m ∈ k.file_priv.prime.head, m.dma_buf ≠ env.dma_buf_get prime_fd)
    (hobj : IS_ERR_OR_NULL (env.driver.gem_prime_import (env.dma_buf_get prime_fd)).1 = false)
    (hcreate : env.drm_gem_handle_create
      (env.driver.gem_prime_import (env.dma_buf_get prime_fd)).1 = (0, H))
    (hmem : env.kmalloc ≠ NULL) :
    (drm_gem_prime_fd_to_handle env k prime_fd).k.file_priv.object_idr H =
      (env.driver.gem_prime_import (env.dma_buf_get prime_fd)).1 ∧
    ((drm_gem_prime_fd_to_handle env k prime_fd).k.gem
      (env.driver.gem_prime_import (env.dma_buf_get prime_fd)).1).import_attach =
      (env.driver.gem_prime_import (env.dma_buf_get prime_fd)).2.import_attach ∧
    (drm_gem_prime_fd_to_handle env k prime_fd).k.calls =
      k.calls ++ [.dma_buf_get prime_fd, .gem_prime_import (env.dma_buf_get prime_fd),
        .drm_gem_handle_create (env.driver.gem_prime_import (env.dma_buf_get prime_fd)).1,
        .drm_gem_object_unreference_unlocked
          (env.driver.gem_prime_import (env.dma_buf_get prime_fd)).1] := by
  have hnone := lookup_members_eq_none.mpr hmiss
  have hE : ENOENT ≠ 0 := by decide
  refine ⟨?_, ?_, ?_⟩ <;>
  simp [drm_gem_prime_fd_to_handle, dma_buf_get, hok, drm_prime_lookup_fd_handle_mapping,
    Kernel.call, hnone, hE, gem_prime_import, hobj, drm_gem_handle_create, hcreate,
    drm_gem_object_unreference_unlocked, drm_prime_insert_fd_handle_mapping, hmem,
    Kernel.set_gem, Kernel.set_prime]

/-- What is known after a call of `drm_gem_prime_fd_to_handle` that returned 0 and
stored a handle: the descriptor resolved, the table maps the buffer to that handle,
and the table is the old one or the old one, which had no entry for the buffer,
with that entry added. -/
theorem fd_to_handle_success (env : Env) (k : Kernel) (prime_fd : Int) {H : Nat}
    (hret : (drm_gem_prime_fd_to_handle env k prime_fd).ret = 0)
    (hout : (drm_gem_prime_fd_to_handle env k prime_fd).out = some H) :
    IS_ERR (env.dma_buf_get prime_fd) = false ∧
    ((drm_gem_prime_fd_to_handle env k prime_fd).k.file_priv.prime = k.file_priv.prime ∧
        drm_prime_lookup_members k.file_priv.prime.head (env.dma_buf_get prime_fd) = some H ∨
      (drm_gem_prime_fd_to_handle env k prime_fd).k.file_priv.prime.head =
          { dma_buf := env.dma_buf_get prime_fd, handle := H } :: k.file_priv.prime.head ∧
        drm_prime_lookup_members k.file_priv.prime.head (env.dma_buf_get prime_fd) = none) := by
  have hE : ENOENT ≠ 0 := by decide
  have hM : ENOMEM ≠ 0 := by decide
  by_cases hok : IS_ERR (env.dma_buf_get prime_fd) = true
  · simp [drm_gem_prime_fd_to_handle, dma_buf_get, hok] at hout
  · simp only [Bool.not_eq_true] at hok
    refine ⟨hok, ?_⟩
    cases hlk : drm_prime_lookup_members k.file_priv.prime.head (env.dma_buf_get prime_fd) with
    | some h =>
      left
      rw [fd_to_handle_of_hit env k prime_fd hok hlk] at hout ⊢
      simp only [Option.some.injEq] at hout
      rw [put_get_file_priv, hout]
      exact ⟨rfl, rfl⟩
    | none =>
      right
      by_cases hobj : IS_ERR_OR_NULL (env.driver.gem_prime_import (env.dma_buf_get prime_fd)).1 = true
      · simp [drm_gem_prime_fd_to_handle, dma_buf_get, hok, drm_prime_lookup_fd_handle_mapping,
          Kernel.call, hlk, hE, gem_prime_import, hobj] at hout
      · simp only [Bool.not_eq_true] at hobj
        by_cases hcr : (env.drm_gem_handle_create
            (env.driver.gem_prime_import (env.dma_buf_get prime_fd)).1).1 = 0
        · by_cases hmem : env.kmalloc = NULL
          · simp [drm_gem_prime_fd_to_handle, dma_buf_get, hok,
              drm_prime_lookup_fd_handle_mapping, Kernel.call, hlk, hE, gem_prime_import, hobj,
              drm_gem_handle_create, hcr, drm_gem_object_unreference_unlocked,
              drm_prime_insert_fd_handle_mapping, hmem, hM, Kernel.set_gem,
              Kernel.set_prime] at hret
          · simp [drm_gem_prime_fd_to_handle, dma_buf_get, hok,
              drm_prime_lookup_fd_handle_mapping, Kernel.call, hlk, hE, gem_prime_import, hobj,
              drm_gem_handle_create, hcr, drm_gem_object_unreference_unlocked,
              drm_prime_insert_fd_handle_mapping, hmem, Kernel.set_gem,
              Kernel.set_prime] at hout ⊢
            exact hout
        · simp [drm_gem_prime_fd_to_handle, dma_buf_get, hok, drm_prime_lookup_fd_handle_mapping,
            Kernel.call, hlk, hE, gem_prime_import, hobj, drm_gem_handle_create, hcr,
            drm_gem_object_unreference_unlocked, drm_prime_insert_fd_handle_mapping,
            Kernel.set_gem, Kernel.set_prime] at hout

/-- Whatever happens in `drm_gem_prime_fd_to_handle`, the table afterwards is the old
one, or the old one, which had no entry for the buffer, with one entry for it added. -/
theorem fd_to_handle_prime (env : Env) (k : Kernel) (prime_fd : Int) :
    (drm_gem_prime_fd_to_handle env k prime_fd).k.file_priv.prime = k.file_priv.prime ∨
    ∃ H, (drm_gem_prime_fd_to_handle env k prime_fd).k.file_priv.prime.head =
          { dma_buf := env.dma_buf_get prime_fd, handle := H } :: k.file_priv.prime.head ∧
        drm_prime_lookup_members k.file_priv.prime.head (env.dma_buf_get prime_fd) = none := by
  have hE : ENOENT ≠ 0 := by decide
  have hM : ENOMEM ≠ 0 := by decide
  by_cases hok : IS_ERR (env.dma_buf_get prime_fd) = true
  · left
    simp [drm_gem_prime_fd_to_handle, dma_buf_get, hok, Kernel.call]
  · simp only [Bool.not_eq_true] at hok
    cases hlk : drm_prime_lookup_members k.file_priv.prime.head (env.dma_buf_get prime_fd) with
    | some h =>
      left
      rw [fd_to_handle_of_hit env k prime_fd hok hlk, put_get_file_priv]
    | none =>
      by_cases hobj : IS_ERR_OR_NULL (env.driver.gem_prime_import (env.dma_buf_get prime_fd)).1 = true
      · left
        simp [drm_gem_prime_fd_to_handle, dma_buf_get, hok, drm_prime_lookup_fd_handle_mapping,
          Kernel.call, hlk, hE, gem_prime_import, hobj, dma_buf_put]
      · simp only [Bool.not_eq_true] at hobj
        by_cases hcr : (env.drm_gem_handle_create
            (env.driver.gem_prime_import (env.dma_buf_get prime_fd)).1).1 = 0
        · by_cases hmem : env.kmalloc = NULL
          · left
            simp [drm_gem_prime_fd_to_handle, dma_buf_get, hok,
              drm_prime_lookup_fd_handle_mapping, Kernel.call, hlk, hE, gem_prime_import, hobj,
              drm_gem_handle_create, hcr, drm_gem_object_unreference_unlocked,
              drm_prime_insert_fd_handle_mapping, hmem, hM, Kernel.set_gem,
              Kernel.set_prime, dma_buf_put, drm_gem_object_handle_unreference_unlocked]
          · right
            refine ⟨(env.drm_gem_handle_create
              (env.driver.gem_prime_import (env.dma_buf_get prime_fd)).1).2, ?_, rfl⟩
            simp [drm_gem_prime_fd_to_handle, dma_buf_get, hok,
              drm_prime_lookup_fd_handle_mapping, Kernel.call, hlk, hE, gem_prime_import, hobj,
              drm_gem_handle_create, hcr, drm_gem_object_unreference_unlocked,
              drm_prime_insert_fd_handle_mapping, hmem, Kernel.set_gem,
              Kernel.set_prime]
        · left
          simp [drm_gem_prime_fd_to_handle, dma_buf_get, hok, drm_prime_lookup_fd_handle_mapping,
            Kernel.call, hlk, hE, gem_prime_import, hobj, drm_gem_handle_create, hcr,
            drm_gem_object_unreference_unlocked, drm_prime_insert_fd_handle_mapping,
            Kernel.set_gem, Kernel.set_prime, dma_buf_put]

theorem fd_to_handle_unique (env : Env) (k : Kernel) (prime_fd : Int)
    (hu : prime_unique k.file_priv.prime) :
    prime_unique (drm_gem_prime_fd_to_handle env k prime_fd).k.file_priv.prime := by
  rcases fd_to_handle_prime env k prime_fd with hsame | ⟨H, hhead, hlk⟩
  · rw [hsame]; exact hu
  · unfold prime_unique at *
    rw [hhead, List.map_cons, List.nodup_cons]
    refine ⟨?_, hu⟩
    intro hmem
    obtain ⟨m, hm, hb⟩ := List.mem_map.mp hmem
    exact lookup_members_eq_none.mp hlk m hm hb

/-! ## The paths of `drm_gem_prime_handle_to_fd` -/

theorem valid_of_not_err_or_null {p : Ptr} (h : IS_ERR_OR_NULL p = false) :
    p ≠ NULL ∧ IS_ERR p = false := by
  simp only [IS_ERR_OR_NULL, Bool.or_eq_false_iff, beq_eq_false_iff_ne] at h
  exact ⟨h.1, h.2⟩

theorem update_gem_back (g : Ptr → drm_gem_object) (obj : Ptr) :
    Function.update
      (Function.update g obj { g obj with refcount := (g obj).refcount + 1 }) obj
      { g obj with refcount := (g obj).refcount + 1 - 1 } = g := by
  funext p
  by_cases hp : p = obj
  · subst hp; simp
  · simp [Function.update_noteq hp]

/-- An unknown handle: `-ENOENT`, nothing stored, only the lookup is called. -/
theorem handle_to_fd_unknown (env : Env) (k : Kernel) (handle flags : Nat)
    (hnone : k.file_priv.object_idr handle = NULL) :
    drm_gem_prime_handle_to_fd env k handle flags =
      some ⟨-ENOENT, none, k.call (.drm_gem_object_lookup handle)⟩ := by
  simp [drm_gem_prime_handle_to_fd, drm_gem_object_lookup, Kernel.call, hnone]

/-- An imported object: `-EINVAL`, nothing stored, the lookup and the unreference are
called and the objects are as before. -/
theorem handle_to_fd_imported (env : Env) (k : Kernel) (handle flags : Nat)
    (hobj : k.file_priv.object_idr handle ≠ NULL)
    (himp : (k.gem (k.file_priv.object_idr handle)).import_attach ≠ NULL) :
    drm_gem_prime_handle_to_fd env k handle flags =
      some ⟨-EINVAL, none,
        { k with calls := k.calls ++ [.drm_gem_object_lookup handle,
            .drm_gem_object_unreference_unlocked (k.file_priv.object_idr handle)] }⟩ := by
  simp [drm_gem_prime_handle_to_fd, drm_gem_object_lookup, Kernel.call, hobj, himp,
    drm_gem_object_unreference_unlocked, Kernel.set_gem, update_gem_back]

/-- An object exported before: 0, the descriptor `dma_buf_fd` answers for the memoized
buffer, one more reference on its file, the objects as before. -/
theorem handle_to_fd_again (env : Env) (k : Kernel) (handle flags : Nat)
    (hobj : k.file_priv.object_idr handle ≠ NULL)
    (himp : (k.gem (k.file_priv.object_idr handle)).import_attach = NULL)
    (hexp : (k.gem (k.file_priv.object_idr handle)).export_dma_buf ≠ NULL)
    (hok : IS_ERR (k.gem (k.file_priv.object_idr handle)).export_dma_buf = false) :
    drm_gem_prime_handle_to_fd env k handle flags =
      some ⟨0, some (env.dma_buf_fd (k.gem (k.file_priv.object_idr handle)).export_dma_buf flags),
        { k with
          calls := k.calls ++ [.drm_gem_object_lookup handle,
            .get_file (k.gem (k.file_priv.object_idr handle)).export_dma_buf,
            .dma_buf_fd (k.gem (k.file_priv.object_idr handle)).export_dma_buf flags,
            .drm_gem_object_unreference_unlocked (k.file_priv.object_idr handle)]
          f_count := Function.update k.f_count
            (k.gem (k.file_priv.object_idr handle)).export_dma_buf
            (k.f_count (k.gem (k.file_priv.object_idr handle)).export_dma_buf + 1) }⟩ := by
  have hok2 : IS_ERR_OR_NULL (k.gem (k.file_priv.object_idr handle)).export_dma_buf = false := by
    have h0 : IS_ERR_VALUE (k.gem (k.file_priv.object_idr handle)).export_dma_buf = false := hok
    simp [IS_ERR_OR_NULL, hexp, h0]
  simp [drm_gem_prime_handle_to_fd, drm_gem_object_lookup, Kernel.call, hobj, himp, hexp,
    get_file, hok2, dma_buf_fd, drm_gem_object_unreference_unlocked, Kernel.set_gem,
    update_gem_back]
  rw [← himp]

/-- A first export for which the callback answers a valid buffer: 0, the descriptor
`dma_buf_fd` answers for that buffer, the buffer memoized and the reference of the
lookup kept. -/
theorem handle_to_fd_first (env : Env) (k : Kernel) (handle flags : Nat)
    (hobj : k.file_priv.object_idr handle ≠ NULL)
    (himp : (k.gem (k.file_priv.object_idr handle)).import_attach = NULL)
    (hexp : (k.gem (k.file_priv.object_idr handle)).export_dma_buf = NULL)
    (hok : IS_ERR_OR_NULL
      (env.driver.gem_prime_export (k.file_priv.object_idr handle) flags) = false) :
    drm_gem_prime_handle_to_fd env k handle flags =
      some ⟨0, some (env.dma_buf_fd
          (env.driver.gem_prime_export (k.file_priv.object_idr handle) flags) flags),
        { k with
          calls := k.calls ++ [.drm_gem_object_lookup handle,
            .gem_prime_export (k.file_priv.object_idr handle) flags,
            .dma_buf_fd (env.driver.gem_prime_export (k.file_priv.object_idr handle) flags) flags]
          gem := Function.update k.gem (k.file_priv.object_idr handle)
            { k.gem (k.file_priv.object_idr handle) with
              refcount := (k.gem (k.file_priv.object_idr handle)).refcount + 1
              export_dma_buf :=
                env.driver.gem_prime_export (k.file_priv.object_idr handle) flags } }⟩ := by
  simp [drm_gem_prime_handle_to_fd, drm_gem_object_lookup, Kernel.call, hobj, himp, hexp,
    gem_prime_export, hok, dma_buf_fd, Kernel.set_gem]

/-- A first export for which the callback answers `NULL` or an error value: the
return value is `PTR_ERR` of the answer, nothing is stored, the answer stays in
`export_dma_buf` and the reference of the lookup is dropped. -/
theorem handle_to_fd_failed (env : Env) (k : Kernel) (handle flags : Nat)
    (hobj : k.file_priv.object_idr handle ≠ NULL)
    (himp : (k.gem (k.file_priv.object_idr handle)).import_attach = NULL)
    (hexp : (k.gem (k.file_priv.object_idr handle)).export_dma_buf = NULL)
    (hbad : IS_ERR_OR_NULL
      (env.driver.gem_prime_export (k.file_priv.object_idr handle) flags) = true) :
    drm_gem_prime_handle_to_fd env k handle flags =
      some ⟨PTR_ERR (env.driver.gem_prime_export (k.file_priv.object_idr handle) flags), none,
        { k with
          calls := k.calls ++ [.drm_gem_object_lookup handle,
            .gem_prime_export (k.file_priv.object_idr handle) flags,
            .drm_gem_object_unreference_unlocked (k.file_priv.object_idr handle)]
          gem := Function.update k.gem (k.file_priv.object_idr handle)
            { k.gem (k.file_priv.object_idr handle) with
              export_dma_buf :=
                env.driver.gem_prime_export (k.file_priv.object_idr handle) flags } }⟩ := by
  simp [drm_gem_prime_handle_to_fd, drm_gem_object_lookup, Kernel.call, hobj, himp, hexp,
    gem_prime_export, hbad, drm_gem_object_unreference_unlocked, Kernel.set_gem]

/-- An object whose `export_dma_buf` holds an error value: the code takes it for an
export association and reads through it, so there is no outcome. -/
theorem handle_to_fd_memoized_error (env : Env) (k : Kernel) (handle flags : Nat)
    (hobj : k.file_priv.object_idr handle ≠ NULL)
    (himp : (k.gem (k.file_priv.object_idr handle)).import_attach = NULL)
    (herr : IS_ERR (k.gem (k.file_priv.object_idr handle)).export_dma_buf = true) :
    drm_gem_prime_handle_to_fd env k handle flags = none := by
  have h0 : IS_ERR_VALUE (k.gem (k.file_priv.object_idr handle)).export_dma_buf = true := herr
  have hnn : (k.gem (k.file_priv.object_idr handle)).export_dma_buf ≠ NULL := by
    intro h
    rw [h] at h0
    exact absurd h0 (by decide)
  have hbad : IS_ERR_OR_NULL (k.gem (k.file_priv.object_idr handle)).export_dma_buf = true := by
    simp [IS_ERR_OR_NULL, h0]
  simp [drm_gem_prime_handle_to_fd, drm_gem_object_lookup, Kernel.call, hobj, himp, hnn,
    get_file, hbad, Kernel.set_gem]

/-- Every outcome of `drm_gem_prime_handle_to_fd` has the client context's table, and
its handle table, as they were. -/
theorem handle_to_fd_file_priv (env : Env) (k : Kernel) (handle flags : Nat) (r : Ret Int)
    (hr : drm_gem_prime_handle_to_fd env k handle flags = some r) :
    r.k.file_priv = k.file_priv := by
  by_cases hobj : k.file_priv.object_idr handle = NULL
  · rw [handle_to_fd_unknown env k handle flags hobj] at hr
    simp only [Option.some.injEq] at hr
    rw [← hr]; rfl
  · by_cases himp : (k.gem (k.file_priv.object_idr handle)).import_attach = NULL
    · by_cases hexp : (k.gem (k.file_priv.object_idr handle)).export_dma_buf = NULL
      · by_cases hbad : IS_ERR_OR_NULL
            (env.driver.gem_prime_export (k.file_priv.object_idr handle) flags) = true
        · rw [handle_to_fd_failed env k handle flags hobj himp hexp hbad] at hr
          simp only [Option.some.injEq] at hr
          rw [← hr]
        · simp only [Bool.not_eq_true] at hbad
          rw [handle_to_fd_first env k handle flags hobj himp hexp hbad] at hr
          simp only [Option.some.injEq] at hr
          rw [← hr]
      · by_cases hok : IS_ERR (k.gem (k.file_priv.object_idr handle)).export_dma_buf = true
        · have hok2 : IS_ERR_OR_NULL
              (k.gem (k.file_priv.object_idr handle)).export_dma_buf = true := by
            have h0 : IS_ERR_VALUE (k.gem (k.file_priv.object_idr handle)).export_dma_buf = true :=
              hok
            simp [IS_ERR_OR_NULL, h0]
          simp [drm_gem_prime_handle_to_fd, drm_gem_object_lookup, Kernel.call, hobj, himp,
            hexp, get_file, hok2, Kernel.set_gem] at hr
        · simp only [Bool.not_eq_true] at hok
          rw [handle_to_fd_again env k handle flags hobj himp hexp hok] at hr
          simp only [Option.some.injEq] at hr
          rw [← hr]
    · rw [handle_to_fd_imported env k handle flags hobj himp] at hr
      simp only [Option.some.injEq] at hr
      rw [← hr]

/-! ## Reachable contexts -/

theorem reachable_unique {k : Kernel} (h : Reachable k) : prime_unique k.file_priv.prime := by
  induction h with
  | init k => simp [prime_unique, Kernel.set_prime, drm_prime_init_file_private]
  | fd_to_handle env prime_fd _ ih => exact fd_to_handle_unique env _ prime_fd ih
  | handle_to_fd env handle flags r _ hr ih =>
    rw [handle_to_fd_file_priv env _ handle flags r hr]; exact ih
  | remove dma_buf _ ih => exact remove_unique ih dma_buf

/-! ## The properties of import and export -/

/-- C1 (idempotent import): in a context whose table has at most one entry per buffer
(the invariant of §3, which every reachable table has), when
`drm_gem_prime_fd_to_handle` has returned 0 and stored the handle `H1` for a descriptor
resolving to `B`, calling it again on what it left, with a descriptor resolving to the
same `B`, returns 0 and stores the same `H1`, and the table then has exactly one entry
whose buffer is `B`. -/
theorem C1_idempotent_import (env1 env2 : Env) (k : Kernel) (fd1 fd2 : Int) (B : Ptr) (H1 : Nat)
    (hu : prime_unique k.file_priv.prime)
    (hB1 : env1.dma_buf_get fd1 = B) (hB2 : env2.dma_buf_get fd2 = B)
    (hret : (drm_gem_prime_fd_to_handle env1 k fd1).ret = 0)
    (hout : (drm_gem_prime_fd_to_handle env1 k fd1).out = some H1) :
    (drm_gem_prime_fd_to_handle env2 (drm_gem_prime_fd_to_handle env1 k fd1).k fd2).ret = 0 ∧
    (drm_gem_prime_fd_to_handle env2 (drm_gem_prime_fd_to_handle env1 k fd1).k fd2).out =
      some H1 ∧
    entries_for
      (drm_gem_prime_fd_to_handle env2
        (drm_gem_prime_fd_to_handle env1 k fd1).k fd2).k.file_priv.prime B = 1 ∧
    entries_for (drm_gem_prime_fd_to_handle env1 k fd1).k.file_priv.prime B = 1 := by
  obtain ⟨hok, hcase⟩ := fd_to_handle_success env1 k fd1 hret hout
  rw [hB1] at hok hcase
  have hlk1 : drm_prime_lookup_members
      (drm_gem_prime_fd_to_handle env1 k fd1).k.file_priv.prime.head B = some H1 := by
    rcases hcase with ⟨hsame, hlk⟩ | ⟨hhead, _⟩
    · rw [hsame]; exact hlk
    · rw [hhead]; simp [drm_prime_lookup_members]
  have hone : entries_for (drm_gem_prime_fd_to_handle env1 k fd1).k.file_priv.prime B = 1 := by
    rcases hcase with ⟨hsame, hlk⟩ | ⟨hhead, hlk⟩
    · rw [hsame]
      have h1 := entries_for_le_one hu B
      have h2 := entries_for_pos hlk
      omega
    · have h0 := entries_for_zero hlk
      unfold entries_for at h0 ⊢
      rw [hhead]
      simp [List.filter_cons, h0]
  have hok2 : IS_ERR (env2.dma_buf_get fd2) = false := by rw [hB2]; exact hok
  have hlk2 : drm_prime_lookup_members
      (drm_gem_prime_fd_to_handle env1 k fd1).k.file_priv.prime.head (env2.dma_buf_get fd2) =
        some H1 := by rw [hB2]; exact hlk1
  rw [fd_to_handle_of_hit env2 _ fd2 hok2 hlk2]
  refine ⟨rfl, rfl, ?_, hone⟩
  rw [put_get_file_priv]
  exact hone

theorem C1_idempotent_import_witness :
    (drm_gem_prime_fd_to_handle sample_env
      (drm_gem_prime_fd_to_handle sample_env sample_kernel 3).k 4).out = some 5 ∧
    entries_for (drm_gem_prime_fd_to_handle sample_env
      (drm_gem_prime_fd_to_handle sample_env sample_kernel 3).k 4).k.file_priv.prime 8192 = 1 :=
  have h := C1_idempotent_import sample_env sample_env sample_kernel 3 4 8192 5
    (by decide) rfl rfl rfl rfl
  ⟨h.2.1, h.2.2.1⟩

/-- C2 (import hit): when the table already holds an entry for the buffer `B` that the
descriptor resolves to, `drm_gem_prime_fd_to_handle` returns 0 and stores the handle
of an entry for `B` (the one the lookup finds); it calls `dma_buf_get` and then
`dma_buf_put B` once and nothing else, so neither the import callback nor the handle
allocation; the table, the handle table, the objects and the file counts are as before. -/
theorem C2_import_hit (env : Env) (k : Kernel) (prime_fd : Int) (B : Ptr)
    (hB : env.dma_buf_get prime_fd = B) (hok : IS_ERR B = false)
    (hit : ∃ m ∈ k.file_priv.prime.head, m.dma_buf = B) :
    (drm_gem_prime_fd_to_handle env k prime_fd).ret = 0 ∧
    (∃ m ∈ k.file_priv.prime.head, m.dma_buf = B ∧
      (drm_gem_prime_fd_to_handle env k prime_fd).out = some m.handle) ∧
    (drm_gem_prime_fd_to_handle env k prime_fd).out =
      (drm_prime_lookup_fd_handle_mapping k.file_priv.prime B).2 ∧
    (drm_gem_prime_fd_to_handle env k prime_fd).k.calls =
      k.calls ++ [.dma_buf_get prime_fd, .dma_buf_put B] ∧
    (drm_gem_prime_fd_to_handle env k prime_fd).k.file_priv.prime = k.file_priv.prime ∧
    (drm_gem_prime_fd_to_handle env k prime_fd).k.file_priv.object_idr =
      k.file_priv.object_idr ∧
    (drm_gem_prime_fd_to_handle env k prime_fd).k.gem = k.gem ∧
    (drm_gem_prime_fd_to_handle env k prime_fd).k.f_count = k.f_count := by
  subst hB
  obtain ⟨H, hH⟩ := lookup_members_of_mem hit
  obtain ⟨m, hm, hmb, hmh⟩ := lookup_members_some hH
  rw [fd_to_handle_of_hit env k prime_fd hok hH]
  refine ⟨rfl, ⟨m, hm, hmb, by rw [hmh]⟩, ?_, put_get_calls env k prime_fd, ?_, ?_,
    put_get_gem env k prime_fd, put_get_f_count env k prime_fd hok⟩
  · simp [drm_prime_lookup_fd_handle_mapping, hH]
  · rw [put_get_file_priv]
  · rw [put_get_file_priv]

theorem C2_import_hit_witness :
    IS_ERR 8192 = false ∧
    (drm_gem_prime_fd_to_handle sample_env sample_kernel_hit 3).ret = 0 ∧
    (drm_gem_prime_fd_to_handle sample_env sample_kernel_hit 3).out = some 5 ∧
    (drm_gem_prime_fd_to_handle sample_env sample_kernel_hit 3).k.calls =
      [.dma_buf_get 3, .dma_buf_put 8192] :=
  have h := C2_import_hit sample_env sample_kernel_hit 3 8192 rfl (by decide)
    ⟨{ dma_buf := 8192, handle := 5 }, by simp [sample_kernel_hit, Kernel.set_prime], rfl⟩
  ⟨by decide, h.1, h.2.2.1.trans rfl, h.2.2.2.1⟩

/-- C3 (fresh import): when the table has no entry for the buffer `B` that the
descriptor resolves to, the import callback returns a valid object, the handle
allocation returns 0 with handle `H` and the entry allocation succeeds,
`drm_gem_prime_fd_to_handle` returns 0 and stores `H`, has called the import callback
once (the calls are `dma_buf_get`, `gem_prime_import B`, `drm_gem_handle_create`,
`drm_gem_object_unreference_unlocked`), and the table is the old one with the one
entry `(B, H)` added, in which looking `B` up gives `H`. -/
theorem C3_fresh_import (env : Env) (k : Kernel) (prime_fd : Int) (B obj : Ptr) (H : Nat)
    (hB : env.dma_buf_get prime_fd = B) (hok : IS_ERR B = false)
    (hmiss : ∀ m ∈ k.file_priv.prime.head, m.dma_buf ≠ B)
    (himp : (env.driver.gem_prime_import B).1 = obj) (hobj : IS_ERR_OR_NULL obj = false)
    (hcreate : env.drm_gem_handle_create obj = (0, H))
    (hmem : env.kmalloc ≠ NULL) :
    (drm_gem_prime_fd_to_handle env k prime_fd).ret = 0 ∧
    (drm_gem_prime_fd_to_handle env k prime_fd).out = some H ∧
    (drm_gem_prime_fd_to_handle env k prime_fd).k.calls =
      k.calls ++ [.dma_buf_get prime_fd, .gem_prime_import B, .drm_gem_handle_create obj,
        .drm_gem_object_unreference_unlocked obj] ∧
    (drm_gem_prime_fd_to_handle env k prime_fd).k.file_priv.prime.head =
      { dma_buf := B, handle := H } :: k.file_priv.prime.head ∧
    entries_for (drm_gem_prime_fd_to_handle env k prime_fd).k.file_priv.prime B = 1 ∧
    drm_prime_lookup_fd_handle_mapping
      (drm_gem_prime_fd_to_handle env k prime_fd).k.file_priv.prime B = (0, some H) :=
  fresh_import_result env k prime_fd B obj H hB hok hmiss himp hobj hcreate hmem

theorem C3_fresh_import_witness :
    (drm_gem_prime_fd_to_handle sample_env sample_kernel 3).ret = 0 ∧
    (drm_gem_prime_fd_to_handle sample_env sample_kernel 3).out = some 5 ∧
    (drm_gem_prime_fd_to_handle sample_env sample_kernel 3).k.file_priv.prime.head =
      [{ dma_buf := 8192, handle := 5 }] :=
  have h := C3_fresh_import sample_env sample_kernel 3 8192 16384 5 rfl (by decide)
    (by simp [sample_kernel]) rfl (by decide) rfl (by decide)
  ⟨h.1, h.2.1, h.2.2.2.1⟩

/-- C4 (uniqueness invariant): in every context reached from
`drm_prime_init_file_private` by calls of `drm_gem_prime_fd_to_handle`,
`drm_gem_prime_handle_to_fd` and `drm_prime_remove_fd_handle_mapping`, whatever
they return, the table has at most one entry for each buffer. -/
theorem C4_uniqueness (k : Kernel) (h : Reachable k) (B : Ptr) :
    entries_for k.file_priv.prime B ≤ 1 :=
  entries_for_le_one (reachable_unique h) B

theorem C4_uniqueness_witness :
    entries_for
      (drm_gem_prime_fd_to_handle sample_env
        (drm_gem_prime_fd_to_handle sample_env
          (sample_kernel_hit.set_prime
            (drm_prime_init_file_private sample_kernel_hit.file_priv.prime)) 3).k
        4).k.file_priv.prime 8192 ≤ 1 :=
  C4_uniqueness _
    (Reachable.fd_to_handle sample_env 4
      (Reachable.fd_to_handle sample_env 3 (Reachable.init sample_kernel_hit))) 8192

/-- C5 (idempotent export): for an object that is no import and has no export
association, when a first `drm_gem_prime_handle_to_fd` on its handle succeeds (returns
0 with a descriptor stored), a second one on what the first left succeeds too; the
export callback is called once, in the first call, and not in the second; the second
stores the descriptor `dma_buf_fd` answers for the buffer `B` the first call memoized,
takes one more reference on the file of `B` and no other, and leaves the export
association `B`. -/
theorem C5_idempotent_export (env1 env2 : Env) (k : Kernel) (handle flags1 flags2 : Nat)
    (obj B : Ptr) (r1 : Ret Int) (fd1 : Int)
    (hobj : k.file_priv.object_idr handle = obj) (hnn : obj ≠ NULL)
    (himp : (k.gem obj).import_attach = NULL)
    (hexp : (k.gem obj).export_dma_buf = NULL)
    (hB : env1.driver.gem_prime_export obj flags1 = B)
    (h1 : drm_gem_prime_handle_to_fd env1 k handle flags1 = some r1)
    (hret : r1.ret = 0) (hout : r1.out = some fd1) :
    r1.k.calls = k.calls ++ [.drm_gem_object_lookup handle, .gem_prime_export obj flags1,
        .dma_buf_fd B flags1] ∧
    (r1.k.gem obj).export_dma_buf = B ∧
    ∃ r2, drm_gem_prime_handle_to_fd env2 r1.k handle flags2 = some r2 ∧
      r2.ret = 0 ∧ r2.out = some (env2.dma_buf_fd B flags2) ∧
      r2.k.calls = r1.k.calls ++ [.drm_gem_object_lookup handle, .get_file B,
        .dma_buf_fd B flags2, .drm_gem_object_unreference_unlocked obj] ∧
      r2.k.f_count = Function.update r1.k.f_count B (r1.k.f_count B + 1) ∧
      r2.k.gem = r1.k.gem ∧
      (r2.k.gem obj).export_dma_buf = B := by
  subst hobj hB
  by_cases hbad : IS_ERR_OR_NULL
      (env1.driver.gem_prime_export (k.file_priv.object_idr handle) flags1) = true
  · rw [handle_to_fd_failed env1 k handle flags1 hnn himp hexp hbad] at h1
    simp only [Option.some.injEq] at h1
    rw [← h1] at hout
    simp at hout
  · simp only [Bool.not_eq_true] at hbad
    rw [handle_to_fd_first env1 k handle flags1 hnn himp hexp hbad] at h1
    simp only [Option.some.injEq] at h1
    obtain ⟨hne, hne2⟩ := valid_of_not_err_or_null hbad
    subst h1
    refine ⟨rfl, by simp, _, handle_to_fd_again env2 _ handle flags2 hnn ?_ ?_ ?_, rfl, ?_, ?_,
      ?_, rfl, ?_⟩
    · simp [himp]
    · simpa using hne
    · simpa using hne2
    · simp
    · simp
    · simp
    · simp

theorem C5_idempotent_export_witness :
    ∃ r1, drm_gem_prime_handle_to_fd sample_env sample_kernel 1 0 = some r1 ∧
    ∃ r2, drm_gem_prime_handle_to_fd sample_env r1.k 1 0 = some r2 ∧
      r2.ret = 0 ∧ r2.out = some 3 ∧
      r2.k.calls = r1.k.calls ++ [.drm_gem_object_lookup 1, .get_file 8192,
        .dma_buf_fd 8192 0, .drm_gem_object_unreference_unlocked 4096] :=
  have ⟨r2, h⟩ := (C5_idempotent_export sample_env sample_env sample_kernel 1 0 0 4096 8192
    ⟨0, some 3, _⟩ 3 rfl (by decide) rfl rfl rfl
    (handle_to_fd_first sample_env sample_kernel 1 0 (by decide) rfl rfl (by decide))
    rfl rfl).2.2
  ⟨_, handle_to_fd_first sample_env sample_kernel 1 0 (by decide) rfl rfl (by decide),
    r2, h.1, h.2.1, h.2.2.1, h.2.2.2.1⟩

/-- C6 (first export): for a known handle whose object is no import and has no export
association, when the export callback answers a valid buffer `B`,
`drm_gem_prime_handle_to_fd` calls the lookup, the callback once with the object and
the flags, and `dma_buf_fd` on `B` with the same flags, in this order and nothing
else; it returns 0 and stores the descriptor `dma_buf_fd` answered; `B` is the
object's export association afterwards; the reference the lookup took is still held
(one more than before, no unreference call). -/
theorem C6_first_export (env : Env) (k : Kernel) (handle flags : Nat) (obj B : Ptr)
    (hobj : k.file_priv.object_idr handle = obj) (hnn : obj ≠ NULL)
    (himp : (k.gem obj).import_attach = NULL)
    (hexp : (k.gem obj).export_dma_buf = NULL)
    (hB : env.driver.gem_prime_export obj flags = B) (hok : IS_ERR_OR_NULL B = false) :
    ∃ r, drm_gem_prime_handle_to_fd env k handle flags = some r ∧
      r.ret = 0 ∧ r.out = some (env.dma_buf_fd B flags) ∧
      r.k.calls = k.calls ++ [.drm_gem_object_lookup handle, .gem_prime_export obj flags,
        .dma_buf_fd B flags] ∧
      (r.k.gem obj).export_dma_buf = B ∧
      (r.k.gem obj).refcount = (k.gem obj).refcount + 1 ∧
      (r.k.gem obj).import_attach = NULL := by
  subst hobj hB
  refine ⟨_, handle_to_fd_first env k handle flags hnn himp hexp hok, rfl, rfl, rfl, ?_, ?_, ?_⟩
  · simp
  · simp
  · simp [himp]

theorem C6_first_export_witness :
    ∃ r, drm_gem_prime_handle_to_fd sample_env sample_kernel 1 0 = some r ∧
      r.ret = 0 ∧ r.out = some 3 ∧
      r.k.calls = [.drm_gem_object_lookup 1, .gem_prime_export 4096 0, .dma_buf_fd 8192 0] ∧
      (r.k.gem 4096).export_dma_buf = 8192 ∧
      (r.k.gem 4096).refcount = 2 :=
  have ⟨r, h⟩ := C6_first_export sample_env sample_kernel 1 0 4096 8192 rfl (by decide) rfl rfl
    rfl (by decide)
  ⟨r, h.1, h.2.1, h.2.2.1, h.2.2.2.1, h.2.2.2.2.1, h.2.2.2.2.2.1⟩

/-- C7 (export of an import is refused): for a handle whose object has an import
attachment, `drm_gem_prime_handle_to_fd` returns `-EINVAL` and stores nothing in
`*prime_fd`; it calls the lookup and the unreference and nothing else, so not the
export callback; the object, its export association and reference count included,
and all other memory are as before. -/
theorem C7_export_of_import_refused (env : Env) (k : Kernel) (handle flags : Nat) (obj : Ptr)
    (hobj : k.file_priv.object_idr handle = obj) (hnn : obj ≠ NULL)
    (himp : (k.gem obj).import_attach ≠ NULL) :
    ∃ r, drm_gem_prime_handle_to_fd env k handle flags = some r ∧
      r.ret = -EINVAL ∧ r.out = none ∧
      r.k.calls = k.calls ++ [.drm_gem_object_lookup handle,
        .drm_gem_object_unreference_unlocked obj] ∧
      (r.k.gem obj).export_dma_buf = (k.gem obj).export_dma_buf ∧
      (r.k.gem obj).refcount = (k.gem obj).refcount ∧
      r.k.gem = k.gem ∧ r.k.f_count = k.f_count ∧ r.k.file_priv = k.file_priv := by
  subst hobj
  exact ⟨_, handle_to_fd_imported env k handle flags hnn himp, rfl, rfl, rfl, rfl, rfl, rfl,
    rfl, rfl⟩

theorem C7_export_of_import_refused_witness :
    ∃ r, drm_gem_prime_handle_to_fd sample_env sample_kernel 2 0 = some r ∧
      r.ret = -22 ∧ r.out = none ∧
      r.k.calls = [.drm_gem_object_lookup 2, .drm_gem_object_unreference_unlocked 20480] :=
  have ⟨r, h⟩ := C7_export_of_import_refused sample_env sample_kernel 2 0 20480 rfl
    (by decide) (by decide)
  ⟨r, h.1, h.2.1, h.2.2.1, h.2.2.2.1⟩

/-- C8, the claim as stated fails: with a driver whose import callback builds its
object without an import attachment, the fresh import through
`drm_gem_prime_fd_to_handle` succeeds and stores handle 5, and the export of handle 5
that follows in the same context returns 0 and stores the descriptor 3. -/
theorem C8_unmarked_import_is_exported :
    (drm_gem_prime_fd_to_handle sample_env_unmarked sample_kernel 3).ret = 0 ∧
    (drm_gem_prime_fd_to_handle sample_env_unmarked sample_kernel 3).out = some 5 ∧
    ∃ r, drm_gem_prime_handle_to_fd sample_env_unmarked
        (drm_gem_prime_fd_to_handle sample_env_unmarked sample_kernel 3).k 5 0 = some r ∧
      r.ret = 0 ∧ r.out = some 3 :=
  ⟨rfl, rfl, _,
    handle_to_fd_first sample_env_unmarked
      (drm_gem_prime_fd_to_handle sample_env_unmarked sample_kernel 3).k 5 0
      (by decide) rfl rfl (by decide),
    rfl, rfl⟩

/-- C8, as amended: `drm_gem_prime_fd_to_handle` does not mark the object itself.
After a successful fresh import that stored the handle `H`, `H` resolves to the
object the driver's import callback answered, and the import attachment of that
object is the one the callback built it with. `drm_gem_prime_handle_to_fd` on `H`
in the same context is refused as an import (it returns `-EINVAL`, stores no
descriptor, and its only calls are the lookup and the unreference, so the export
callback is not called) if and only if that attachment is not `NULL`. -/
theorem C8_reexport_refused_iff_marked (env1 env2 : Env) (k : Kernel) (prime_fd : Int)
    (B obj : Ptr) (H flags : Nat)
    (hB : env1.dma_buf_get prime_fd = B) (hok : IS_ERR B = false)
    (hmiss : ∀ m ∈ k.file_priv.prime.head, m.dma_buf ≠ B)
    (himp : (env1.driver.gem_prime_import B).1 = obj) (hobj : IS_ERR_OR_NULL obj = false)
    (hcreate : env1.drm_gem_handle_create obj = (0, H))
    (hmem : env1.kmalloc ≠ NULL) :
    (drm_gem_prime_fd_to_handle env1 k prime_fd).ret = 0 ∧
    (drm_gem_prime_fd_to_handle env1 k prime_fd).out = some H ∧
    (drm_gem_prime_fd_to_handle env1 k prime_fd).k.file_priv.object_idr H = obj ∧
    ((drm_gem_prime_fd_to_handle env1 k prime_fd).k.gem obj).import_attach =
      (env1.driver.gem_prime_import B).2.import_attach ∧
    ((∃ r, drm_gem_prime_handle_to_fd env2 (drm_gem_prime_fd_to_handle env1 k prime_fd).k
          H flags = some r ∧
        r.ret = -EINVAL ∧ r.out = none ∧
        r.k.calls = (drm_gem_prime_fd_to_handle env1 k prime_fd).k.calls ++
          [.drm_gem_object_lookup H, .drm_gem_object_unreference_unlocked obj]) ↔
      (env1.driver.gem_prime_import B).2.import_attach ≠ NULL) := by
  have h3 := fresh_import_result env1 k prime_fd B obj H hB hok hmiss himp hobj hcreate hmem
  subst hB himp
  obtain ⟨hidr, hattach, _⟩ := fresh_import_object env1 k prime_fd H hok hmiss hobj hcreate hmem
  have hnn := (valid_of_not_err_or_null hobj).1
  have hnn2 : (drm_gem_prime_fd_to_handle env1 k prime_fd).k.file_priv.object_idr H ≠ NULL := by
    rw [hidr]; exact hnn
  refine ⟨h3.1, h3.2.1, hidr, hattach, ?_, ?_⟩
  · rintro ⟨r, hr, hret, hout, hcalls⟩ hnull
    have himp0 : ((drm_gem_prime_fd_to_handle env1 k prime_fd).k.gem
        ((drm_gem_prime_fd_to_handle env1 k prime_fd).k.file_priv.object_idr H)).import_attach =
        NULL := by
      rw [hidr, hattach]; exact hnull
    by_cases hexp : ((drm_gem_prime_fd_to_handle env1 k prime_fd).k.gem
        ((drm_gem_prime_fd_to_handle env1 k prime_fd).k.file_priv.object_idr H)).export_dma_buf =
        NULL
    · cases hcb : IS_ERR_OR_NULL (env2.driver.gem_prime_export
          ((drm_gem_prime_fd_to_handle env1 k prime_fd).k.file_priv.object_idr H) flags)
      · rw [handle_to_fd_first env2 _ H flags hnn2 himp0 hexp hcb] at hr
        simp only [Option.some.injEq] at hr
        rw [← hr] at hout
        simp at hout
      · rw [handle_to_fd_failed env2 _ H flags hnn2 himp0 hexp hcb] at hr
        simp only [Option.some.injEq] at hr
        rw [← hr] at hcalls
        simp at hcalls
    · cases herr : IS_ERR ((drm_gem_prime_fd_to_handle env1 k prime_fd).k.gem
          ((drm_gem_prime_fd_to_handle env1 k prime_fd).k.file_priv.object_idr H)).export_dma_buf
      · rw [handle_to_fd_again env2 _ H flags hnn2 himp0 hexp herr] at hr
        simp only [Option.some.injEq] at hr
        rw [← hr] at hout
        simp at hout
      · rw [handle_to_fd_memoized_error env2 _ H flags hnn2 himp0 herr] at hr
        simp at hr
  · intro hmarks
    refine ⟨_, handle_to_fd_imported env2 _ H flags hnn2 ?_, rfl, rfl, ?_⟩
    · rw [hidr, hattach]; exact hmarks
    · simp only [hidr]

theorem C8_reexport_refused_iff_marked_witness :
    (drm_gem_prime_fd_to_handle sample_env sample_kernel 3).out = some 5 ∧
    ∃ r, drm_gem_prime_handle_to_fd sample_env
        (drm_gem_prime_fd_to_handle sample_env sample_kernel 3).k 5 0 = some r ∧
      r.ret = -22 ∧ r.out = none :=
  have h := C8_reexport_refused_iff_marked sample_env sample_env sample_kernel 3 8192 16384 5 0
    rfl (by decide) (by simp [sample_kernel]) rfl (by decide) rfl (by decide)
  have h2 := h.2.2.2.2.mpr (by decide)
  ⟨h.2.1, h2.choose, h2.choose_spec.1, h2.choose_spec.2.1, h2.choose_spec.2.2.1⟩

/-- C9 (export of an unknown handle): for a handle the client context does not know,
`drm_gem_prime_handle_to_fd` returns `-ENOENT`, stores nothing in `*prime_fd`, and
leaves the memory as it was but for the record of the lookup call: no object, no
count and no table changes, and the export callback is not called. -/
theorem C9_export_unknown_handle (env : Env) (k : Kernel) (handle flags : Nat)
    (hunknown : k.file_priv.object_idr handle = NULL) :
    drm_gem_prime_handle_to_fd env k handle flags =
      some ⟨-ENOENT, none, { k with calls := k.calls ++ [.drm_gem_object_lookup handle] }⟩ :=
  handle_to_fd_unknown env k handle flags hunknown

theorem C9_export_unknown_handle_witness :
    drm_gem_prime_handle_to_fd sample_env sample_kernel 7 0 =
      some ⟨-2, none, { sample_kernel with calls := [.drm_gem_object_lookup 7] }⟩ :=
  C9_export_unknown_handle sample_env sample_kernel 7 0 rfl

/-- C10, at the failing input: the export callback answers `NULL` on a first export.
`drm_gem_prime_handle_to_fd` returns `PTR_ERR(NULL)`, which is 0, with no descriptor
stored and the reference of the lookup dropped. -/
theorem C10_null_export_returns_zero :
    ∃ r, drm_gem_prime_handle_to_fd sample_env_null sample_kernel 1 0 = some r ∧
      r.ret = 0 ∧ r.out = none ∧
      r.k.calls = [.drm_gem_object_lookup 1, .gem_prime_export 4096 0,
        .drm_gem_object_unreference_unlocked 4096] ∧
      (r.k.gem 4096).refcount = (sample_kernel.gem 4096).refcount :=
  ⟨_, handle_to_fd_failed sample_env_null sample_kernel 1 0 (by decide) rfl rfl (by decide),
    rfl, rfl, rfl, rfl⟩

/-! ## Failure paths -/

/-- The descriptor does not resolve: the error of `dma_buf_get` is returned and
nothing else is called. -/
theorem fd_to_handle_unresolved (env : Env) (k : Kernel) (prime_fd : Int)
    (herr : IS_ERR (env.dma_buf_get prime_fd) = true) :
    drm_gem_prime_fd_to_handle env k prime_fd =
      ⟨PTR_ERR (env.dma_buf_get prime_fd), none, k.call (.dma_buf_get prime_fd)⟩ := by
  simp [drm_gem_prime_fd_to_handle, dma_buf_get, herr]

/-- The import callback answers `NULL` or an error value: `PTR_ERR` of the answer is
returned, nothing is stored, `dma_buf_put` is called once, and table, handles,
objects and file counts are as before. -/
theorem fd_to_handle_import_failed (env : Env) (k : Kernel) (prime_fd : Int)
    (hok : IS_ERR (env.dma_buf_get prime_fd) = false)
    (hmiss : drm_prime_lookup_members k.file_priv.prime.head (env.dma_buf_get prime_fd) = none)
    (hbad : IS_ERR_OR_NULL (env.driver.gem_prime_import (env.dma_buf_get prime_fd)).1 = true) :
    (drm_gem_prime_fd_to_handle env k prime_fd).ret =
      PTR_ERR (env.driver.gem_prime_import (env.dma_buf_get prime_fd)).1 ∧
    (drm_gem_prime_fd_to_handle env k prime_fd).out = none ∧
    (drm_gem_prime_fd_to_handle env k prime_fd).k.calls =
      k.calls ++ [.dma_buf_get prime_fd, .gem_prime_import (env.dma_buf_get prime_fd),
        .dma_buf_put (env.dma_buf_get prime_fd)] ∧
    (drm_gem_prime_fd_to_handle env k prime_fd).k.f_count = k.f_count ∧
    (drm_gem_prime_fd_to_handle env k prime_fd).k.gem = k.gem ∧
    (drm_gem_prime_fd_to_handle env k prime_fd).k.file_priv = k.file_priv := by
  have hE : ENOENT ≠ 0 := by decide
  refine ⟨?_, ?_, ?_, ?_, ?_, ?_⟩ <;>
  simp [drm_gem_prime_fd_to_handle, dma_buf_get, hok, drm_prime_lookup_fd_handle_mapping,
    Kernel.call, hmiss, hE, gem_prime_import, hbad, dma_buf_put]

/-- The handle allocation fails: its error is returned, nothing is stored, the
reference of the creation is dropped, `dma_buf_put` is called once, and table,
handles and file counts are as before. -/
theorem fd_to_handle_create_failed (env : Env) (k : Kernel) (prime_fd : Int)
    (hok : IS_ERR (env.dma_buf_get prime_fd) = false)
    (hmiss : drm_prime_lookup_members k.file_priv.prime.head (env.dma_buf_get prime_fd) = none)
    (hobj : IS_ERR_OR_NULL (env.driver.gem_prime_import (env.dma_buf_get prime_fd)).1 = false)
    (hcr : (env.drm_gem_handle_create
      (env.driver.gem_prime_import (env.dma_buf_get prime_fd)).1).1 ≠ 0) :
    (drm_gem_prime_fd_to_handle env k prime_fd).ret =
      (env.drm_gem_handle_create (env.driver.gem_prime_import (env.dma_buf_get prime_fd)).1).1 ∧
    (drm_gem_prime_fd_to_handle env k prime_fd).out = none ∧
    (drm_gem_prime_fd_to_handle env k prime_fd).k.calls =
      k.calls ++ [.dma_buf_get prime_fd, .gem_prime_import (env.dma_buf_get prime_fd),
        .drm_gem_handle_create (env.driver.gem_prime_import (env.dma_buf_get prime_fd)).1,
        .drm_gem_object_unreference_unlocked
          (env.driver.gem_prime_import (env.dma_buf_get prime_fd)).1,
        .dma_buf_put (env.dma_buf_get prime_fd)] ∧
    (drm_gem_prime_fd_to_handle env k prime_fd).k.f_count = k.f_count ∧
    (drm_gem_prime_fd_to_handle env k prime_fd).k.file_priv = k.file_priv ∧
    (drm_gem_prime_fd_to_handle env k prime_fd).k.gem
        (env.driver.gem_prime_import (env.dma_buf_get prime_fd)).1 =
      { (env.driver.gem_prime_import (env.dma_buf_get prime_fd)).2 with
        refcount := (env.driver.gem_prime_import (env.dma_buf_get prime_fd)).2.refcount - 1 } := by
  have hE : ENOENT ≠ 0 := by decide
  refine ⟨?_, ?_, ?_, ?_, ?_, ?_⟩ <;>
  simp [drm_gem_prime_fd_to_handle, dma_buf_get, hok, drm_prime_lookup_fd_handle_mapping,
    Kernel.call, hmiss, hE, gem_prime_import, hobj, drm_gem_handle_create, hcr,
    drm_gem_object_unreference_unlocked, Kernel.set_gem, dma_buf_put]

/-- The entry allocation fails after handle `H` was allocated: `-ENOMEM` is
returned, the handle count and both references on the object are dropped,
`dma_buf_put` is called once, table and file counts are as before, and `H`
still resolves to the object in the handle table. -/
theorem fd_to_handle_insert_failed (env : Env) (k : Kernel) (prime_fd : Int) (H : Nat)
    (hok : IS_ERR (env.dma_buf_get prime_fd) = false)
    (hmiss : drm_prime_lookup_members k.file_priv.prime.head (env.dma_buf_get prime_fd) = none)
    (hobj : IS_ERR_OR_NULL (env.driver.gem_prime_import (env.dma_buf_get prime_fd)).1 = false)
    (hcr : env.drm_gem_handle_create
      (env.driver.gem_prime_import (env.dma_buf_get prime_fd)).1 = (0, H))
    (hmem : env.kmalloc = NULL) :
    (drm_gem_prime_fd_to_handle env k prime_fd).ret = -ENOMEM ∧
    (drm_gem_prime_fd_to_handle env k prime_fd).out = some H ∧
    (drm_gem_prime_fd_to_handle env k prime_fd).k.calls =
      k.calls ++ [.dma_buf_get prime_fd, .gem_prime_import (env.dma_buf_get prime_fd),
        .drm_gem_handle_create (env.driver.gem_prime_import (env.dma_buf_get prime_fd)).1,
        .drm_gem_object_unreference_unlocked
          (env.driver.gem_prime_import (env.dma_buf_get prime_fd)).1,
        .drm_gem_object_handle_unreference_unlocked
          (env.driver.gem_prime_import (env.dma_buf_get prime_fd)).1,
        .dma_buf_put (env.dma_buf_get prime_fd)] ∧
    (drm_gem_prime_fd_to_handle env k prime_fd).k.f_count = k.f_count ∧
    (drm_gem_prime_fd_to_handle env k prime_fd).k.file_priv.prime = k.file_priv.prime ∧
    (drm_gem_prime_fd_to_handle env k prime_fd).k.file_priv.object_idr H =
      (env.driver.gem_prime_import (env.dma_buf_get prime_fd)).1 ∧
    (drm_gem_prime_fd_to_handle env k prime_fd).k.gem
        (env.driver.gem_prime_import (env.dma_buf_get prime_fd)).1 =
      { (env.driver.gem_prime_import (env.dma_buf_get prime_fd)).2 with
        refcount := (env.driver.gem_prime_import (env.dma_buf_get prime_fd)).2.refcount - 1 } := by
  have hE : ENOENT ≠ 0 := by decide
  have hM : ENOMEM ≠ 0 := by decide
  refine ⟨?_, ?_, ?_, ?_, ?_, ?_, ?_⟩ <;>
  simp [drm_gem_prime_fd_to_handle, dma_buf_get, hok, drm_prime_lookup_fd_handle_mapping,
    Kernel.call, hmiss, hE, hM, gem_prime_import, hobj, drm_gem_handle_create, hcr,
    drm_gem_object_unreference_unlocked, drm_prime_insert_fd_handle_mapping, hmem,
    drm_gem_object_handle_unreference_unlocked, Kernel.set_gem, Kernel.set_prime, dma_buf_put]

/-- The file counts after a fresh import that succeeds: one more for the buffer. -/
theorem fd_to_handle_fresh_f_count (env : Env) (k : Kernel) (prime_fd : Int) (H : Nat)
    (hok : IS_ERR (env.dma_buf_get prime_fd) = false)
    (hmiss : drm_prime_lookup_members k.file_priv.prime.head (env.dma_buf_get prime_fd) = none)
    (hobj : IS_ERR_OR_NULL (env.driver.gem_prime_import (env.dma_buf_get prime_fd)).1 = false)
    (hcr : env.drm_gem_handle_create
      (env.driver.gem_prime_import (env.dma_buf_get prime_fd)).1 = (0, H))
    (hmem : env.kmalloc ≠ NULL) :
    (drm_gem_prime_fd_to_handle env k prime_fd).ret = 0 ∧
    (drm_gem_prime_fd_to_handle env k prime_fd).out = some H ∧
    (drm_gem_prime_fd_to_handle env k prime_fd).k.f_count =
      Function.update k.f_count (env.dma_buf_get prime_fd)
        (k.f_count (env.dma_buf_get prime_fd) + 1) := by
  have hE : ENOENT ≠ 0 := by decide
  refine ⟨?_, ?_, ?_⟩ <;>
  simp [drm_gem_prime_fd_to_handle, dma_buf_get, hok, drm_prime_lookup_fd_handle_mapping,
    Kernel.call, hmiss, hE, gem_prime_import, hobj, drm_gem_handle_create, hcr,
    drm_gem_object_unreference_unlocked, drm_prime_insert_fd_handle_mapping, hmem,
    Kernel.set_gem, Kernel.set_prime]

/-- The file counts after `drm_gem_prime_fd_to_handle`, on every path: one more for
the buffer when a fresh import succeeded, and as before otherwise. -/
theorem fd_to_handle_balance (env : Env) (k : Kernel) (prime_fd : Int) :
    (drm_gem_prime_fd_to_handle env k prime_fd).k.f_count =
      if drm_prime_lookup_members k.file_priv.prime.head (env.dma_buf_get prime_fd) = none ∧
          (drm_gem_prime_fd_to_handle env k prime_fd).ret = 0 ∧
          (drm_gem_prime_fd_to_handle env k prime_fd).out ≠ none
      then Function.update k.f_count (env.dma_buf_get prime_fd)
        (k.f_count (env.dma_buf_get prime_fd) + 1)
      else k.f_count := by
  have hM : ENOMEM ≠ 0 := by decide
  by_cases herr : IS_ERR (env.dma_buf_get prime_fd) = true
  · rw [fd_to_handle_unresolved env k prime_fd herr]
    simp [Kernel.call]
  · simp only [Bool.not_eq_true] at herr
    cases hlk : drm_prime_lookup_members k.file_priv.prime.head (env.dma_buf_get prime_fd) with
    | some h =>
      rw [fd_to_handle_of_hit env k prime_fd herr hlk, put_get_f_count env k prime_fd herr]
      simp
    | none =>
      by_cases hbad :
          IS_ERR_OR_NULL (env.driver.gem_prime_import (env.dma_buf_get prime_fd)).1 = true
      · obtain ⟨_, ho, _, hf, _, _⟩ := fd_to_handle_import_failed env k prime_fd herr hlk hbad
        rw [hf, ho]
        simp
      · simp only [Bool.not_eq_true] at hbad
        by_cases hcr : (env.drm_gem_handle_create
            (env.driver.gem_prime_import (env.dma_buf_get prime_fd)).1).1 = 0
        · have hcr2 : env.drm_gem_handle_create
              (env.driver.gem_prime_import (env.dma_buf_get prime_fd)).1 =
              (0, (env.drm_gem_handle_create
                (env.driver.gem_prime_import (env.dma_buf_get prime_fd)).1).2) :=
            Prod.ext hcr rfl
          by_cases hmem : env.kmalloc = NULL
          · obtain ⟨hr, _, _, hf, _, _, _⟩ :=
              fd_to_handle_insert_failed env k prime_fd _ herr hlk hbad hcr2 hmem
            rw [hf, hr]
            simp [hM]
          · obtain ⟨hr, ho, hf⟩ :=
              fd_to_handle_fresh_f_count env k prime_fd _ herr hlk hbad hcr2 hmem
            rw [hf, hr, ho]
            simp
        · obtain ⟨_, ho, _, hf, _, _⟩ :=
            fd_to_handle_create_failed env k prime_fd herr hlk hbad hcr
          rw [hf, ho]
          simp

/-- A call of `drm_gem_prime_fd_to_handle` that returns an error, or stores no
handle, leaves the table as it was. -/
theorem fd_to_handle_prime_of_failure (env : Env) (k : Kernel) (prime_fd : Int)
    (hfail : (drm_gem_prime_fd_to_handle env k prime_fd).ret ≠ 0 ∨
      (drm_gem_prime_fd_to_handle env k prime_fd).out = none) :
    (drm_gem_prime_fd_to_handle env k prime_fd).k.file_priv.prime = k.file_priv.prime := by
  by_cases herr : IS_ERR (env.dma_buf_get prime_fd) = true
  · rw [fd_to_handle_unresolved env k prime_fd herr]
    rfl
  · simp only [Bool.not_eq_true] at herr
    cases hlk : drm_prime_lookup_members k.file_priv.prime.head (env.dma_buf_get prime_fd) with
    | some h =>
      rw [fd_to_handle_of_hit env k prime_fd herr hlk, put_get_file_priv]
    | none =>
      by_cases hbad :
          IS_ERR_OR_NULL (env.driver.gem_prime_import (env.dma_buf_get prime_fd)).1 = true
      · rw [(fd_to_handle_import_failed env k prime_fd herr hlk hbad).2.2.2.2.2]
      · simp only [Bool.not_eq_true] at hbad
        by_cases hcr : (env.drm_gem_handle_create
            (env.driver.gem_prime_import (env.dma_buf_get prime_fd)).1).1 = 0
        · have hcr2 : env.drm_gem_handle_create
              (env.driver.gem_prime_import (env.dma_buf_get prime_fd)).1 =
              (0, (env.drm_gem_handle_create
                (env.driver.gem_prime_import (env.dma_buf_get prime_fd)).1).2) :=
            Prod.ext hcr rfl
          by_cases hmem : env.kmalloc = NULL
          · exact (fd_to_handle_insert_failed env k prime_fd _ herr hlk hbad hcr2
              hmem).2.2.2.2.1
          · obtain ⟨hr, ho, _⟩ :=
              fd_to_handle_fresh_f_count env k prime_fd _ herr hlk hbad hcr2 hmem
            rcases hfail with h | h
            · exact absurd hr h
            · rw [ho] at h
              exact absurd h (by simp)
        · rw [(fd_to_handle_create_failed env k prime_fd herr hlk hbad hcr).2.2.2.2.1]

/-! ## The properties of the failure paths -/

/-- C11, at the failing input: the export callback answers `ERR_PTR(-ENOMEM)` on a
first export. `drm_gem_prime_handle_to_fd` returns `-ENOMEM` and leaves the error
value in `export_dma_buf`, which is then not `NULL`; the next export of the same
handle, with a driver that would succeed, takes the error value for an export
association and reads through it: it has no outcome and the callback is not
called again. -/
theorem C11_failed_export_is_memoized :
    ∃ r, drm_gem_prime_handle_to_fd sample_env_err sample_kernel 1 0 = some r ∧
      r.ret = -ENOMEM ∧ r.out = none ∧
      (r.k.gem 4096).export_dma_buf = ERR_PTR (-ENOMEM) ∧
      (r.k.gem 4096).export_dma_buf ≠ NULL ∧
      r.k.file_priv.object_idr 1 = 4096 ∧
      drm_gem_prime_handle_to_fd sample_env r.k 1 0 = none :=
  ⟨_, handle_to_fd_failed sample_env_err sample_kernel 1 0 (by decide) rfl rfl (by decide),
    rfl, rfl, rfl, by decide, rfl,
    handle_to_fd_memoized_error sample_env _ 1 0 (by decide) rfl (by decide)⟩

/-- C12, at the failing input: the import callback answers `NULL` for a buffer that
is not in the table. `drm_gem_prime_fd_to_handle` releases the provisional reference
once (`dma_buf_put`), stores no handle, and returns `PTR_ERR(NULL)`, which is 0. -/
theorem C12_null_import_returns_zero :
    (drm_gem_prime_fd_to_handle sample_env_import_null sample_kernel 3).ret = 0 ∧
    (drm_gem_prime_fd_to_handle sample_env_import_null sample_kernel 3).out = none ∧
    (drm_gem_prime_fd_to_handle sample_env_import_null sample_kernel 3).k.calls =
      [.dma_buf_get 3, .gem_prime_import 8192, .dma_buf_put 8192] ∧
    (drm_gem_prime_fd_to_handle sample_env_import_null sample_kernel 3).k.f_count =
      sample_kernel.f_count :=
  have h := fd_to_handle_import_failed sample_env_import_null sample_kernel 3 (by decide) rfl
    (by decide)
  ⟨h.1, h.2.1, h.2.2.1, h.2.2.2.1⟩

/-- C13, at the failing input: the entry allocation (`kmalloc`) fails after the driver
built the object at 16384 in its import callback and handle 5 was allocated for it.
`drm_gem_prime_fd_to_handle` returns `-ENOMEM`, the object has no reference and no
handle count left, `dma_buf_put` was called once and the table is as before, but
handle 5 still resolves to the object in the context. -/
theorem C13_handle_survives_failed_insert :
    (drm_gem_prime_fd_to_handle sample_env_nomem sample_kernel 3).ret = -ENOMEM ∧
    (drm_gem_prime_fd_to_handle sample_env_nomem sample_kernel 3).out = some 5 ∧
    ((drm_gem_prime_fd_to_handle sample_env_nomem sample_kernel 3).k.gem 16384).refcount = 0 ∧
    ((drm_gem_prime_fd_to_handle sample_env_nomem sample_kernel 3).k.gem 16384).handle_count
      = 0 ∧
    (drm_gem_prime_fd_to_handle sample_env_nomem sample_kernel 3).k.file_priv.prime =
      sample_kernel.file_priv.prime ∧
    sample_kernel.file_priv.object_idr 5 = NULL ∧
    (drm_gem_prime_fd_to_handle sample_env_nomem sample_kernel 3).k.file_priv.object_idr 5 =
      16384 ∧
    (drm_gem_object_lookup (drm_gem_prime_fd_to_handle sample_env_nomem sample_kernel 3).k
      5).1 = 16384 :=
  have h := fd_to_handle_insert_failed sample_env_nomem sample_kernel 3 5 (by decide) rfl
    (by decide) rfl rfl
  ⟨h.1, h.2.1, congrArg drm_gem_object.refcount h.2.2.2.2.2.2,
    congrArg drm_gem_object.handle_count h.2.2.2.2.2.2, h.2.2.2.2.1, rfl,
    h.2.2.2.2.2.1, h.2.2.2.2.2.1⟩

/-- C14 (atomicity of the table on failure): every call of
`drm_gem_prime_handle_to_fd` that returns, an error or not, leaves the table of the
client context as it was; every call of `drm_gem_prime_fd_to_handle` that returns an
error, or returns without a handle stored, leaves the table as it was. -/
theorem C14_table_unchanged_on_failure (env : Env) (k : Kernel) (handle flags : Nat)
    (prime_fd : Int) :
    (∀ r, drm_gem_prime_handle_to_fd env k handle flags = some r →
      r.k.file_priv.prime = k.file_priv.prime) ∧
    ((drm_gem_prime_fd_to_handle env k prime_fd).ret ≠ 0 →
      (drm_gem_prime_fd_to_handle env k prime_fd).k.file_priv.prime = k.file_priv.prime) ∧
    ((drm_gem_prime_fd_to_handle env k prime_fd).out = none →
      (drm_gem_prime_fd_to_handle env k prime_fd).k.file_priv.prime = k.file_priv.prime) :=
  ⟨fun r hr => by rw [handle_to_fd_file_priv env k handle flags r hr],
    fun h => fd_to_handle_prime_of_failure env k prime_fd (Or.inl h),
    fun h => fd_to_handle_prime_of_failure env k prime_fd (Or.inr h)⟩

theorem C14_table_unchanged_on_failure_witness :
    (drm_gem_prime_fd_to_handle sample_env_nomem
      (sample_kernel.set_prime { head := [{ dma_buf := 4096, handle := 6 }] })
      3).k.file_priv.prime = { head := [{ dma_buf := 4096, handle := 6 }] } ∧
    (drm_gem_prime_fd_to_handle sample_env_nohandle sample_kernel 3).k.file_priv.prime =
      sample_kernel.file_priv.prime :=
  ⟨(C14_table_unchanged_on_failure sample_env_nomem
      (sample_kernel.set_prime { head := [{ dma_buf := 4096, handle := 6 }] }) 1 0 3).2.1
      (by decide),
    (C14_table_unchanged_on_failure sample_env_nohandle sample_kernel 1 0 3).2.1 (by decide)⟩

/-- C15 (import reference balance): the file counts move in
`drm_gem_prime_fd_to_handle` only by its `dma_buf_get` (one more) and its
`dma_buf_put` (one less). After the call the count of the resolved buffer is one
more than before when a fresh import succeeded (the buffer was not in the table,
0 is returned and a handle is stored), and every count is as before on every other
path. -/
theorem C15_import_reference_balance (env : Env) (k : Kernel) (prime_fd : Int) :
    (drm_gem_prime_fd_to_handle env k prime_fd).k.f_count =
      if drm_prime_lookup_members k.file_priv.prime.head (env.dma_buf_get prime_fd) = none ∧
          (drm_gem_prime_fd_to_handle env k prime_fd).ret = 0 ∧
          (drm_gem_prime_fd_to_handle env k prime_fd).out ≠ none
      then Function.update k.f_count (env.dma_buf_get prime_fd)
        (k.f_count (env.dma_buf_get prime_fd) + 1)
      else k.f_count :=
  fd_to_handle_balance env k prime_fd

theorem C15_import_reference_balance_witness :
    (drm_gem_prime_fd_to_handle sample_env sample_kernel 3).k.f_count 8192 =
      sample_kernel.f_count 8192 + 1 ∧
    (drm_gem_prime_fd_to_handle sample_env sample_kernel_hit 3).k.f_count 8192 =
      sample_kernel_hit.f_count 8192 ∧
    (drm_gem_prime_fd_to_handle sample_env_nomem sample_kernel 3).k.f_count 8192 =
      sample_kernel.f_count 8192 :=
  ⟨(congrFun (C15_import_reference_balance sample_env sample_kernel 3) 8192).trans rfl,
    (congrFun (C15_import_reference_balance sample_env sample_kernel_hit 3) 8192).trans rfl,
    (congrFun (C15_import_reference_balance sample_env_nomem sample_kernel 3) 8192).trans rfl⟩

/-! ## The ioctls -/

/-- With PRIME advertised and the hook present, `drm_prime_handle_to_fd_ioctl` is the
hook, called with the handle of the request and the flags of the request masked
with `DRM_CLOEXEC`: its return value is returned and what it stored goes to the
`fd` of the request. -/
theorem handle_to_fd_ioctl_hook (DRM_CLOEXEC : Nat) (dev : drm_device) (k : Kernel)
    (args : drm_prime_handle) (hook : Kernel → Nat → Nat → Option (Ret Int))
    (hfeat : dev.driver_prime = true) (hhook : dev.prime_handle_to_fd = some hook) :
    drm_prime_handle_to_fd_ioctl DRM_CLOEXEC dev k args =
      (hook (k.call (.prime_handle_to_fd args.handle (args.flags &&& DRM_CLOEXEC)))
        args.handle (args.flags &&& DRM_CLOEXEC)).map
        (fun r => ⟨r.ret, match r.out with
          | some fd => { args with fd := fd }
          | none => args, r.k⟩) := by
  simp only [drm_prime_handle_to_fd_ioctl, hfeat, hhook]
  cases hook (k.call (.prime_handle_to_fd args.handle (args.flags &&& DRM_CLOEXEC)))
    args.handle (args.flags &&& DRM_CLOEXEC) <;> simp

/-- With PRIME advertised and the hook present, `drm_prime_fd_to_handle_ioctl` is the
hook, called with the descriptor of the request. -/
theorem fd_to_handle_ioctl_hook (dev : drm_device) (k : Kernel)
    (args : drm_prime_handle) (hook : Kernel → Int → Ret Nat)
    (hfeat : dev.driver_prime = true) (hhook : dev.prime_fd_to_handle = some hook) :
    drm_prime_fd_to_handle_ioctl dev k args =
      ⟨(hook (k.call (.prime_fd_to_handle args.fd)) args.fd).ret,
        match (hook (k.call (.prime_fd_to_handle args.fd)) args.fd).out with
          | some handle => { args with handle := handle }
          | none => args,
        (hook (k.call (.prime_fd_to_handle args.fd)) args.fd).k⟩ := by
  simp only [drm_prime_fd_to_handle_ioctl, hfeat, hhook]
  simp

/-- C16, the claim as stated fails: a request whose flags have a bit outside
`DRM_CLOEXEC` is not rejected. The hook is called, with the other bit dropped from
the flags, and the ioctl returns its 0 and the descriptor it stored. -/
theorem C16_flags_not_rejected :
    sample_request.flags &&& sample_cloexec ≠ sample_request.flags ∧
    ∃ r, drm_prime_handle_to_fd_ioctl sample_cloexec sample_device sample_kernel
        sample_request = some r ∧
      r.ret = 0 ∧ r.ret ≠ -EINVAL ∧ r.args.fd = 3 ∧
      r.k.calls = [.prime_handle_to_fd 1 524288, .drm_gem_object_lookup 1,
        .gem_prime_export 4096 524288, .dma_buf_fd 8192 524288] := by
  refine ⟨by decide, ?_⟩
  rw [handle_to_fd_ioctl_hook sample_cloexec sample_device sample_kernel sample_request
    (drm_gem_prime_handle_to_fd sample_env) rfl rfl]
  rw [handle_to_fd_first sample_env _ _ _ (by decide) rfl rfl (by decide)]
  exact ⟨_, rfl, rfl, by decide, rfl, rfl⟩

/-- C16, as amended: whatever the flags of the request, with PRIME advertised and the
hook present `drm_prime_handle_to_fd_ioctl` rejects nothing on account of the flags:
it calls the hook with the flags masked with `DRM_CLOEXEC`, so without any other
bit, returns what the hook returns, and puts what the hook stored in the `fd` of the
request. -/
theorem C16_flags_masked (DRM_CLOEXEC : Nat) (dev : drm_device) (k : Kernel)
    (args : drm_prime_handle) (hook : Kernel → Nat → Nat → Option (Ret Int))
    (hfeat : dev.driver_prime = true) (hhook : dev.prime_handle_to_fd = some hook) :
    (args.flags &&& DRM_CLOEXEC) &&& DRM_CLOEXEC = args.flags &&& DRM_CLOEXEC ∧
    drm_prime_handle_to_fd_ioctl DRM_CLOEXEC dev k args =
      (hook (k.call (.prime_handle_to_fd args.handle (args.flags &&& DRM_CLOEXEC)))
        args.handle (args.flags &&& DRM_CLOEXEC)).map
        (fun r => ⟨r.ret, match r.out with
          | some fd => { args with fd := fd }
          | none => args, r.k⟩) :=
  ⟨by rw [Nat.and_assoc, Nat.and_self],
    handle_to_fd_ioctl_hook DRM_CLOEXEC dev k args hook hfeat hhook⟩

theorem C16_flags_masked_witness :
    drm_prime_handle_to_fd_ioctl sample_cloexec sample_device sample_kernel sample_request =
      (drm_gem_prime_handle_to_fd sample_env
        (sample_kernel.call (.prime_handle_to_fd 1 (524289 &&& 524288))) 1
        (524289 &&& 524288)).map
        (fun r => ⟨r.ret, match r.out with
          | some fd => { sample_request with fd := fd }
          | none => sample_request, r.k⟩) :=
  (C16_flags_masked sample_cloexec sample_device sample_kernel sample_request
    (drm_gem_prime_handle_to_fd sample_env) rfl rfl).2

/-- C17 (capability gating): both ioctls return `-EINVAL` when the driver does not
advertise PRIME, and `-ENOSYS` when it does and the hook is a null pointer, in both
cases with the request and the memory, so the record of calls too, as they were;
otherwise the return value is the one of the hook, called once on the request. -/
theorem C17_capability_gating (DRM_CLOEXEC : Nat) (dev : drm_device) (k : Kernel)
    (args : drm_prime_handle) :
    (dev.driver_prime = false →
      drm_prime_handle_to_fd_ioctl DRM_CLOEXEC dev k args = some ⟨-EINVAL, args, k⟩ ∧
      drm_prime_fd_to_handle_ioctl dev k args = ⟨-EINVAL, args, k⟩) ∧
    (dev.driver_prime = true → dev.prime_handle_to_fd = none →
      drm_prime_handle_to_fd_ioctl DRM_CLOEXEC dev k args = some ⟨-ENOSYS, args, k⟩) ∧
    (dev.driver_prime = true → dev.prime_fd_to_handle = none →
      drm_prime_fd_to_handle_ioctl dev k args = ⟨-ENOSYS, args, k⟩) ∧
    (∀ hook, dev.driver_prime = true → dev.prime_handle_to_fd = some hook →
      (drm_prime_handle_to_fd_ioctl DRM_CLOEXEC dev k args).map IoctlRet.ret =
        (hook (k.call (.prime_handle_to_fd args.handle (args.flags &&& DRM_CLOEXEC)))
          args.handle (args.flags &&& DRM_CLOEXEC)).map Ret.ret ∧
      (drm_prime_handle_to_fd_ioctl DRM_CLOEXEC dev k args).map IoctlRet.k =
        (hook (k.call (.prime_handle_to_fd args.handle (args.flags &&& DRM_CLOEXEC)))
          args.handle (args.flags &&& DRM_CLOEXEC)).map Ret.k) ∧
    (∀ hook, dev.driver_prime = true → dev.prime_fd_to_handle = some hook →
      (drm_prime_fd_to_handle_ioctl dev k args).ret =
        (hook (k.call (.prime_fd_to_handle args.fd)) args.fd).ret ∧
      (drm_prime_fd_to_handle_ioctl dev k args).k =
        (hook (k.call (.prime_fd_to_handle args.fd)) args.fd).k) := by
  refine ⟨?_, ?_, ?_, ?_, ?_⟩
  · intro h
    simp [drm_prime_handle_to_fd_ioctl, drm_prime_fd_to_handle_ioctl, h]
  · intro h hn
    simp [drm_prime_handle_to_fd_ioctl, h, hn]
  · intro h hn
    simp [drm_prime_fd_to_handle_ioctl, h, hn]
  · intro hook h hs
    rw [handle_to_fd_ioctl_hook DRM_CLOEXEC dev k args hook h hs]
    cases hook (k.call (.prime_handle_to_fd args.handle (args.flags &&& DRM_CLOEXEC)))
      args.handle (args.flags &&& DRM_CLOEXEC) <;> simp
  · intro hook h hs
    rw [fd_to_handle_ioctl_hook dev k args hook h hs]
    exact ⟨rfl, rfl⟩

theorem C17_capability_gating_witness :
    drm_prime_handle_to_fd_ioctl sample_cloexec { sample_device with driver_prime := false }
      sample_kernel sample_request = some ⟨-22, sample_request, sample_kernel⟩ ∧
    drm_prime_fd_to_handle_ioctl { sample_device with prime_fd_to_handle := none }
      sample_kernel sample_request = ⟨-38, sample_request, sample_kernel⟩ :=
  ⟨((C17_capability_gating sample_cloexec { sample_device with driver_prime := false }
      sample_kernel sample_request).1 rfl).1,
    (C17_capability_gating sample_cloexec { sample_device with prime_fd_to_handle := none }
      sample_kernel sample_request).2.2.1 rfl rfl⟩

/-! ## The properties of the table operations -/

theorem remove_members_eq_filter (l : List drm_prime_member) (b : Ptr) :
    drm_prime_remove_members l b = l.filter (fun m => !decide (m.dma_buf = b)) := by
  induction l with
  | nil => rfl
  | cons m rest ih =>
    by_cases h : m.dma_buf = b
    · simp [drm_prime_remove_members, h, ih]
    · simp [drm_prime_remove_members, h, ih]

theorem lookup_remove_same (l : List drm_prime_member) (b : Ptr) :
    drm_prime_lookup_members (drm_prime_remove_members l b) b = none := by
  apply lookup_members_eq_none.mpr
  intro m hm
  rw [remove_members_eq_filter] at hm
  simpa using (List.mem_filter.mp hm).2

theorem lookup_remove_other (l : List drm_prime_member) {b b' : Ptr} (hne : b' ≠ b) :
    drm_prime_lookup_members (drm_prime_remove_members l b) b' =
      drm_prime_lookup_members l b' := by
  induction l with
  | nil => rfl
  | cons m rest ih =>
    by_cases h : m.dma_buf = b
    · have hbb : b ≠ b' := fun e => hne e.symm
      simp [drm_prime_remove_members, drm_prime_lookup_members, h, hbb, ih]
    · by_cases h2 : m.dma_buf = b'
      · simp [drm_prime_remove_members, drm_prime_lookup_members, h2, hne]
      · simp [drm_prime_remove_members, drm_prime_lookup_members, h, h2, ih]

theorem remove_members_of_absent (l : List drm_prime_member) (b : Ptr)
    (habs : ∀ m ∈ l, m.dma_buf ≠ b) : drm_prime_remove_members l b = l := by
  rw [remove_members_eq_filter]
  apply List.filter_eq_self.mpr
  intro m hm
  simpa using habs m hm

/-- C18 (lookup): `drm_prime_lookup_fd_handle_mapping` returns 0 exactly when the
table has an entry whose buffer is `B`, and then stores the handle of such an entry
(the first one); when there is none it returns `-ENOENT` and stores nothing. The
function reads the table only: it yields no table. -/
theorem C18_lookup (prime_fpriv : drm_prime_file_private) (B : Ptr) :
    ((drm_prime_lookup_fd_handle_mapping prime_fpriv B).1 = 0 ↔
      ∃ m ∈ prime_fpriv.head, m.dma_buf = B) ∧
    ((∃ m ∈ prime_fpriv.head, m.dma_buf = B) →
      ∃ m ∈ prime_fpriv.head, m.dma_buf = B ∧
        drm_prime_lookup_fd_handle_mapping prime_fpriv B = (0, some m.handle)) ∧
    ((∀ m ∈ prime_fpriv.head, m.dma_buf ≠ B) →
      drm_prime_lookup_fd_handle_mapping prime_fpriv B = (-ENOENT, none)) := by
  have hE : ENOENT ≠ 0 := by decide
  have hsome : (∃ m ∈ prime_fpriv.head, m.dma_buf = B) →
      ∃ m ∈ prime_fpriv.head, m.dma_buf = B ∧
        drm_prime_lookup_fd_handle_mapping prime_fpriv B = (0, some m.handle) := by
    intro hex
    obtain ⟨H, hH⟩ := lookup_members_of_mem hex
    obtain ⟨m, hm, hb, hh⟩ := lookup_members_some hH
    exact ⟨m, hm, hb, by simp [drm_prime_lookup_fd_handle_mapping, hH, hh]⟩
  have hnone : (∀ m ∈ prime_fpriv.head, m.dma_buf ≠ B) →
      drm_prime_lookup_fd_handle_mapping prime_fpriv B = (-ENOENT, none) := by
    intro habs
    simp [drm_prime_lookup_fd_handle_mapping, lookup_members_eq_none.mpr habs]
  refine ⟨⟨?_, ?_⟩, hsome, hnone⟩
  · intro h0
    by_contra hex
    have habs : ∀ m ∈ prime_fpriv.head, m.dma_buf ≠ B :=
      fun m hm hb => hex ⟨m, hm, hb⟩
    rw [hnone habs] at h0
    simp [hE] at h0
  · intro hex
    obtain ⟨m, _, _, hm⟩ := hsome hex
    rw [hm]

theorem C18_lookup_witness :
    (drm_prime_lookup_fd_handle_mapping sample_kernel_hit.file_priv.prime 8192).1 = 0 ∧
    drm_prime_lookup_fd_handle_mapping sample_kernel_hit.file_priv.prime 4096 = (-2, none) :=
  ⟨(C18_lookup sample_kernel_hit.file_priv.prime 8192).1.mpr
      ⟨{ dma_buf := 8192, handle := 5 }, by decide, rfl⟩,
    (C18_lookup sample_kernel_hit.file_priv.prime 4096).2.2 (by decide)⟩

/-- C19 (insert): `drm_prime_insert_fd_handle_mapping` returns `-ENOMEM` exactly when
the allocation of the entry fails, and the table is then as before; otherwise it
returns 0 and the table is the new entry `(dma_buf, handle)` followed by the entries
it had, in their order, whatever they are. -/
theorem C19_insert (member : Ptr) (prime_fpriv : drm_prime_file_private) (dma_buf : Ptr)
    (handle : Nat) :
    ((drm_prime_insert_fd_handle_mapping member prime_fpriv dma_buf handle).1 = -ENOMEM ↔
      member = NULL) ∧
    (member = NULL →
      (drm_prime_insert_fd_handle_mapping member prime_fpriv dma_buf handle).2 =
        prime_fpriv) ∧
    (member ≠ NULL →
      (drm_prime_insert_fd_handle_mapping member prime_fpriv dma_buf handle).1 = 0 ∧
      (drm_prime_insert_fd_handle_mapping member prime_fpriv dma_buf handle).2.head =
        { dma_buf := dma_buf, handle := handle } :: prime_fpriv.head) := by
  have hM : ENOMEM ≠ 0 := by decide
  by_cases h : member = NULL
  · simp [drm_prime_insert_fd_handle_mapping, h]
  · simp [drm_prime_insert_fd_handle_mapping, h, hM, eq_comm]

theorem C19_insert_witness :
    (drm_prime_insert_fd_handle_mapping 24576 sample_kernel_hit.file_priv.prime 8192 7).1 = 0 ∧
    (drm_prime_insert_fd_handle_mapping 24576 sample_kernel_hit.file_priv.prime 8192 7).2.head =
      [{ dma_buf := 8192, handle := 7 }, { dma_buf := 8192, handle := 5 }] ∧
    (drm_prime_insert_fd_handle_mapping NULL sample_kernel_hit.file_priv.prime 8192 7).2 =
      sample_kernel_hit.file_priv.prime :=
  have h := (C19_insert 24576 sample_kernel_hit.file_priv.prime 8192 7).2.2 (by decide)
  ⟨h.1, h.2, (C19_insert NULL sample_kernel_hit.file_priv.prime 8192 7).2.1 rfl⟩

/-- C20 (remove): `drm_prime_remove_fd_handle_mapping` yields the table without the
entries whose buffer is `B`, the others kept in their order; looking `B` up in it
gives `-ENOENT`, looking any other buffer up gives what it gave before; a table
with no entry for `B` is left as it is. -/
theorem C20_remove (prime_fpriv : drm_prime_file_private) (B : Ptr) :
    (drm_prime_remove_fd_handle_mapping prime_fpriv B).head =
      prime_fpriv.head.filter (fun m => !decide (m.dma_buf = B)) ∧
    drm_prime_lookup_fd_handle_mapping (drm_prime_remove_fd_handle_mapping prime_fpriv B) B =
      (-ENOENT, none) ∧
    (∀ B', B' ≠ B →
      drm_prime_lookup_fd_handle_mapping (drm_prime_remove_fd_handle_mapping prime_fpriv B) B' =
        drm_prime_lookup_fd_handle_mapping prime_fpriv B') ∧
    ((∀ m ∈ prime_fpriv.head, m.dma_buf ≠ B) →
      drm_prime_remove_fd_handle_mapping prime_fpriv B = prime_fpriv) := by
  refine ⟨remove_members_eq_filter prime_fpriv.head B, ?_, ?_, ?_⟩
  · simp [drm_prime_lookup_fd_handle_mapping, drm_prime_remove_fd_handle_mapping,
      lookup_remove_same]
  · intro B' hne
    simp [drm_prime_lookup_fd_handle_mapping, drm_prime_remove_fd_handle_mapping,
      lookup_remove_other prime_fpriv.head hne]
  · intro habs
    simp [drm_prime_remove_fd_handle_mapping, remove_members_of_absent prime_fpriv.head B habs]

theorem C20_remove_witness :
    drm_prime_remove_fd_handle_mapping
      { head := [{ dma_buf := 8192, handle := 5 }, { dma_buf := 4096, handle := 6 },
        { dma_buf := 8192, handle := 7 }] } 8192 =
      { head := [{ dma_buf := 4096, handle := 6 }] } ∧
    drm_prime_remove_fd_handle_mapping sample_kernel_hit.file_priv.prime 4096 =
      sample_kernel_hit.file_priv.prime :=
  ⟨congrArg drm_prime_file_private.mk ((C20_remove
      { head := [{ dma_buf := 8192, handle := 5 }, { dma_buf := 4096, handle := 6 },
        { dma_buf := 8192, handle := 7 }] } 8192).1.trans rfl),
    (C20_remove sample_kernel_hit.file_priv.prime 4096).2.2.2 (by decide)⟩

/-! ## The table lifecycle, and export against the table -/

theorem destroy_members_nil (l : List drm_prime_member) : drm_prime_destroy_members l = [] := by
  induction l with
  | nil => rfl
  | cons m rest ih => simpa [drm_prime_destroy_members] using ih

/-- A call of `drm_gem_prime_fd_to_handle` whose descriptor resolves to a buffer that
is not in the table starts with `dma_buf_get` and the import callback on the buffer. -/
theorem fd_to_handle_calls_import (env : Env) (k : Kernel) (prime_fd : Int)
    (hok : IS_ERR (env.dma_buf_get prime_fd) = false)
    (hmiss : drm_prime_lookup_members k.file_priv.prime.head (env.dma_buf_get prime_fd) = none) :
    ∃ rest, (drm_gem_prime_fd_to_handle env k prime_fd).k.calls =
      k.calls ++ [.dma_buf_get prime_fd, .gem_prime_import (env.dma_buf_get prime_fd)] ++ rest := by
  by_cases hbad :
      IS_ERR_OR_NULL (env.driver.gem_prime_import (env.dma_buf_get prime_fd)).1 = true
  · refine ⟨[.dma_buf_put (env.dma_buf_get prime_fd)], ?_⟩
    rw [(fd_to_handle_import_failed env k prime_fd hok hmiss hbad).2.2.1]
    simp
  · simp only [Bool.not_eq_true] at hbad
    by_cases hcr : (env.drm_gem_handle_create
        (env.driver.gem_prime_import (env.dma_buf_get prime_fd)).1).1 = 0
    · have hcr2 : env.drm_gem_handle_create
          (env.driver.gem_prime_import (env.dma_buf_get prime_fd)).1 =
          (0, (env.drm_gem_handle_create
            (env.driver.gem_prime_import (env.dma_buf_get prime_fd)).1).2) :=
        Prod.ext hcr rfl
      by_cases hmem : env.kmalloc = NULL
      · refine ⟨[.drm_gem_handle_create (env.driver.gem_prime_import (env.dma_buf_get prime_fd)).1,
          .drm_gem_object_unreference_unlocked
            (env.driver.gem_prime_import (env.dma_buf_get prime_fd)).1,
          .drm_gem_object_handle_unreference_unlocked
            (env.driver.gem_prime_import (env.dma_buf_get prime_fd)).1,
          .dma_buf_put (env.dma_buf_get prime_fd)], ?_⟩
        rw [(fd_to_handle_insert_failed env k prime_fd _ hok hmiss hbad hcr2 hmem).2.2.1]
        simp
      · refine ⟨[.drm_gem_handle_create (env.driver.gem_prime_import (env.dma_buf_get prime_fd)).1,
          .drm_gem_object_unreference_unlocked
            (env.driver.gem_prime_import (env.dma_buf_get prime_fd)).1], ?_⟩
        rw [(fresh_import_object env k prime_fd _ hok (lookup_members_eq_none.mp hmiss) hbad
          hcr2 hmem).2.2]
        simp
    · refine ⟨[.drm_gem_handle_create (env.driver.gem_prime_import (env.dma_buf_get prime_fd)).1,
        .drm_gem_object_unreference_unlocked
          (env.driver.gem_prime_import (env.dma_buf_get prime_fd)).1,
        .dma_buf_put (env.dma_buf_get prime_fd)], ?_⟩
      rw [(fd_to_handle_create_failed env k prime_fd hok hmiss hbad hcr).2.2.1]
      simp

/-- C21 (table lifecycle): `drm_prime_init_file_private` yields an empty table and
`drm_prime_destroy_file_private` yields an empty table from every table; in both,
`drm_prime_lookup_fd_handle_mapping` returns `-ENOENT`, with nothing stored, for
every buffer. -/
theorem C21_table_lifecycle (prime_fpriv : drm_prime_file_private) (B : Ptr) :
    (drm_prime_init_file_private prime_fpriv).head = [] ∧
    (drm_prime_destroy_file_private prime_fpriv).head = [] ∧
    drm_prime_lookup_fd_handle_mapping (drm_prime_init_file_private prime_fpriv) B =
      (-ENOENT, none) ∧
    drm_prime_lookup_fd_handle_mapping (drm_prime_destroy_file_private prime_fpriv) B =
      (-ENOENT, none) := by
  refine ⟨rfl, destroy_members_nil prime_fpriv.head, rfl, ?_⟩
  simp [drm_prime_lookup_fd_handle_mapping, drm_prime_destroy_file_private,
    destroy_members_nil, drm_prime_lookup_members]

/-- C26 (insert, then lookup): when `drm_prime_insert_fd_handle_mapping` of `(B, H)`
returns 0, whatever the table held before, an earlier entry for `B` included,
`drm_prime_lookup_fd_handle_mapping` of `B` in the table it yields returns 0 and
stores `H`. -/
theorem C26_insert_then_lookup (member : Ptr) (prime_fpriv : drm_prime_file_private)
    (B : Ptr) (H : Nat)
    (hok : (drm_prime_insert_fd_handle_mapping member prime_fpriv B H).1 = 0) :
    drm_prime_lookup_fd_handle_mapping
      (drm_prime_insert_fd_handle_mapping member prime_fpriv B H).2 B = (0, some H) := by
  have hM : ENOMEM ≠ 0 := by decide
  by_cases h : member = NULL
  · simp [drm_prime_insert_fd_handle_mapping, h, hM] at hok
  · simp [drm_prime_insert_fd_handle_mapping, h, drm_prime_lookup_fd_handle_mapping,
      drm_prime_lookup_members]

theorem C26_insert_then_lookup_witness :
    drm_prime_lookup_fd_handle_mapping sample_kernel_hit.file_priv.prime 8192 = (0, some 5) ∧
    drm_prime_lookup_fd_handle_mapping
      (drm_prime_insert_fd_handle_mapping 24576 sample_kernel_hit.file_priv.prime 8192 7).2
      8192 = (0, some 7) :=
  ⟨rfl, C26_insert_then_lookup 24576 sample_kernel_hit.file_priv.prime 8192 7 rfl⟩

/-- C27 (export never records a mapping): every call of `drm_gem_prime_handle_to_fd`
that returns leaves the table of the client context as it was; so when the table has
no entry for a buffer `B`, such as the buffer this context has just exported and
never imported, a `drm_gem_prime_fd_to_handle` in the same context with a descriptor
resolving to `B` finds no entry after the export either, and calls the import
callback of the driver on `B`. -/
theorem C27_export_records_no_mapping (env1 env2 : Env) (k : Kernel) (handle flags : Nat)
    (r1 : Ret Int) (prime_fd : Int) (B : Ptr)
    (h1 : drm_gem_prime_handle_to_fd env1 k handle flags = some r1) :
    r1.k.file_priv.prime = k.file_priv.prime ∧
    ((∀ m ∈ k.file_priv.prime.head, m.dma_buf ≠ B) →
      env2.dma_buf_get prime_fd = B → IS_ERR B = false →
      drm_prime_lookup_fd_handle_mapping r1.k.file_priv.prime B = (-ENOENT, none) ∧
      ∃ rest, (drm_gem_prime_fd_to_handle env2 r1.k prime_fd).k.calls =
        r1.k.calls ++ [.dma_buf_get prime_fd, .gem_prime_import B] ++ rest) := by
  have hsame : r1.k.file_priv.prime = k.file_priv.prime := by
    rw [handle_to_fd_file_priv env1 k handle flags r1 h1]
  refine ⟨hsame, ?_⟩
  intro hmiss hB hok
  subst hB
  have hnone : drm_prime_lookup_members r1.k.file_priv.prime.head (env2.dma_buf_get prime_fd)
      = none := by
    rw [hsame]; exact lookup_members_eq_none.mpr hmiss
  exact ⟨by simp [drm_prime_lookup_fd_handle_mapping, hnone],
    fd_to_handle_calls_import env2 r1.k prime_fd hok hnone⟩

theorem C27_export_records_no_mapping_witness :
    ∃ r1, drm_gem_prime_handle_to_fd sample_env sample_kernel 1 0 = some r1 ∧
      (r1.k.gem 4096).export_dma_buf = 8192 ∧
      r1.k.file_priv.prime = sample_kernel.file_priv.prime ∧
      ∃ rest, (drm_gem_prime_fd_to_handle sample_env r1.k 3).k.calls =
        r1.k.calls ++ [.dma_buf_get 3, .gem_prime_import 8192] ++ rest :=
  have h1 := handle_to_fd_first sample_env sample_kernel 1 0 (by decide) rfl rfl (by decide)
  have h := C27_export_records_no_mapping sample_env sample_env sample_kernel 1 0 _ 3 8192 h1
  ⟨_, h1, rfl, h.1, (h.2 (by simp [sample_kernel]) rfl (by decide)).2⟩

/-! ## The destruction helper -/

/-- With no attachment the function does not complete: `attach->dmabuf` is read
through `NULL`, after the unmapping was asked for with the null attachment when a
scatter table was passed. -/
theorem gem_destroy_absent (dmabuf : Ptr → Ptr) (k : Kernel) (obj sg : Ptr)
    (habs : (k.gem obj).import_attach = NULL) :
    drm_prime_gem_destroy dmabuf k obj sg =
      .error (if sg ≠ NULL then k.call (.dma_buf_unmap_attachment NULL sg) else k) := by
  have h : IS_ERR_OR_NULL NULL = true := by decide
  simp [drm_prime_gem_destroy, habs, h]

/-- C22, the claim as stated fails: on the native object at 4096, whose import
attachment is `NULL`, `drm_prime_gem_destroy` does not complete, with a scatter
table or without; and with the scatter table at 28672 it has called
`dma_buf_unmap_attachment` before, with the null attachment. -/
theorem C22_destroy_absent_does_not_complete :
    (sample_kernel.gem 4096).import_attach = NULL ∧
    drm_prime_gem_destroy sample_dmabuf sample_kernel 4096 NULL = .error sample_kernel ∧
    drm_prime_gem_destroy sample_dmabuf sample_kernel 4096 28672 =
      .error { sample_kernel with calls := [.dma_buf_unmap_attachment NULL 28672] } :=
  ⟨rfl, gem_destroy_absent sample_dmabuf sample_kernel 4096 NULL rfl,
    gem_destroy_absent sample_dmabuf sample_kernel 4096 28672 rfl⟩

/-- C22, as amended: `drm_prime_gem_destroy` has no guard for an absent attachment.
For every object whose import attachment is `NULL` it reads `attach->dmabuf` through
the null pointer and does not complete, whatever scatter table is passed. Before
that read it has called `dma_buf_unmap_attachment` with the null attachment and the
table, once, exactly when the table is not `NULL`; it has made no other call, so no
detach and no `dma_buf_put`, and no object, count or table has changed. -/
theorem C22_destroy_needs_attachment (dmabuf : Ptr → Ptr) (k : Kernel) (obj sg : Ptr)
    (habs : (k.gem obj).import_attach = NULL) :
    ∃ k2, drm_prime_gem_destroy dmabuf k obj sg = .error k2 ∧
      k2.calls = k.calls ++
        (if sg ≠ NULL then [.dma_buf_unmap_attachment NULL sg] else []) ∧
      k2.f_count = k.f_count ∧ k2.gem = k.gem ∧ k2.file_priv = k.file_priv := by
  refine ⟨_, gem_destroy_absent dmabuf k obj sg habs, ?_, ?_, ?_, ?_⟩ <;>
    by_cases hsg : sg = NULL <;> simp [Kernel.call, hsg]

theorem C22_destroy_needs_attachment_witness :
    ∃ k2, drm_prime_gem_destroy sample_dmabuf sample_kernel 4096 28672 = .error k2 ∧
      k2.calls = [.dma_buf_unmap_attachment NULL 28672] :=
  have ⟨k2, h⟩ := C22_destroy_needs_attachment sample_dmabuf sample_kernel 4096 28672 rfl
  ⟨k2, h.1, h.2.1⟩

/-- C23 (destruction of an import): for an object with a valid attachment `attach`
on the buffer `B`, `drm_prime_gem_destroy` completes; its calls are, in this order,
`dma_buf_unmap_attachment(attach, sg)` exactly when `sg` is not `NULL`, then
`dma_buf_detach(B, attach)` once, then `dma_buf_put(B)` once, `B` being what the
attachment recorded before the detach; the file of `B` has one reference less and
the objects are as before. -/
theorem C23_destroy_import (dmabuf : Ptr → Ptr) (k : Kernel) (obj sg attach B : Ptr)
    (hattach : (k.gem obj).import_attach = attach) (hvalid : IS_ERR_OR_NULL attach = false)
    (hB : dmabuf attach = B) :
    ∃ k2, drm_prime_gem_destroy dmabuf k obj sg = .ok k2 ∧
      k2.calls = k.calls ++
        (if sg ≠ NULL then [.dma_buf_unmap_attachment attach sg] else []) ++
        [.dma_buf_detach B attach, .dma_buf_put B] ∧
      k2.f_count = Function.update k.f_count B (k.f_count B - 1) ∧
      k2.gem = k.gem ∧ k2.file_priv = k.file_priv := by
  subst hattach hB
  by_cases hsg : sg = NULL
  · subst hsg
    refine ⟨_, by simp only [drm_prime_gem_destroy, hvalid]; rfl, ?_, ?_, ?_, ?_⟩ <;>
      simp [dma_buf_put, Kernel.call]
  · refine ⟨_, by simp only [drm_prime_gem_destroy, hvalid]; rfl, ?_, ?_, ?_, ?_⟩ <;>
      simp [dma_buf_put, Kernel.call, hsg]

theorem C23_destroy_import_witness :
    ∃ k2, drm_prime_gem_destroy sample_dmabuf sample_kernel 20480 28672 = .ok k2 ∧
      k2.calls = [.dma_buf_unmap_attachment 12288 28672, .dma_buf_detach 8192 12288,
        .dma_buf_put 8192] :=
  have ⟨k2, h⟩ := C23_destroy_import sample_dmabuf sample_kernel 20480 28672 12288 8192 rfl
    (by decide) rfl
  ⟨k2, h.1, h.2.1⟩

/-! ## References across contexts -/

/-- What `drm_gem_prime_handle_to_fd` does to the two associations of an object:
the import attachment is never written, and the export association is written
only for an object without import attachment. -/
theorem handle_to_fd_associations (env : Env) (k : Kernel) (handle flags : Nat) (r : Ret Int)
    (hr : drm_gem_prime_handle_to_fd env k handle flags = some r) (o : Ptr) :
    (r.k.gem o).import_attach = (k.gem o).import_attach ∧
    ((r.k.gem o).export_dma_buf = (k.gem o).export_dma_buf ∨
      (k.gem o).import_attach = NULL) := by
  by_cases hobj : k.file_priv.object_idr handle = NULL
  · rw [handle_to_fd_unknown env k handle flags hobj] at hr
    simp only [Option.some.injEq] at hr
    rw [← hr]
    exact ⟨rfl, Or.inl rfl⟩
  · by_cases himp : (k.gem (k.file_priv.object_idr handle)).import_attach = NULL
    · by_cases hexp : (k.gem (k.file_priv.object_idr handle)).export_dma_buf = NULL
      · by_cases hbad : IS_ERR_OR_NULL
            (env.driver.gem_prime_export (k.file_priv.object_idr handle) flags) = true
        · rw [handle_to_fd_failed env k handle flags hobj himp hexp hbad] at hr
          simp only [Option.some.injEq] at hr
          rw [← hr]
          by_cases ho : o = k.file_priv.object_idr handle
          · subst ho
            exact ⟨by simp, Or.inr himp⟩
          · exact ⟨by simp [Function.update_noteq ho], Or.inl (by simp [Function.update_noteq ho])⟩
        · simp only [Bool.not_eq_true] at hbad
          rw [handle_to_fd_first env k handle flags hobj himp hexp hbad] at hr
          simp only [Option.some.injEq] at hr
          rw [← hr]
          by_cases ho : o = k.file_priv.object_idr handle
          · subst ho
            exact ⟨by simp, Or.inr himp⟩
          · exact ⟨by simp [Function.update_noteq ho], Or.inl (by simp [Function.update_noteq ho])⟩
      · by_cases hok : IS_ERR (k.gem (k.file_priv.object_idr handle)).export_dma_buf = true
        · rw [handle_to_fd_memoized_error env k handle flags hobj himp hok] at hr
          simp at hr
        · simp only [Bool.not_eq_true] at hok
          rw [handle_to_fd_again env k handle flags hobj himp hexp hok] at hr
          simp only [Option.some.injEq] at hr
          rw [← hr]
          exact ⟨rfl, Or.inl rfl⟩
    · rw [handle_to_fd_imported env k handle flags hobj himp] at hr
      simp only [Option.some.injEq] at hr
      rw [← hr]
      exact ⟨rfl, Or.inl rfl⟩

/-- What `drm_gem_prime_fd_to_handle` does to the two associations of an object: they
are as before, or they are those of the object the import callback built. -/
theorem fd_to_handle_associations (env : Env) (k : Kernel) (prime_fd : Int) (o : Ptr) :
    ((drm_gem_prime_fd_to_handle env k prime_fd).k.gem o).import_attach =
        (k.gem o).import_attach ∧
      ((drm_gem_prime_fd_to_handle env k prime_fd).k.gem o).export_dma_buf =
        (k.gem o).export_dma_buf ∨
    ((drm_gem_prime_fd_to_handle env k prime_fd).k.gem o).import_attach =
        (env.driver.gem_prime_import (env.dma_buf_get prime_fd)).2.import_attach ∧
      ((drm_gem_prime_fd_to_handle env k prime_fd).k.gem o).export_dma_buf =
        (env.driver.gem_prime_import (env.dma_buf_get prime_fd)).2.export_dma_buf := by
  have hE : ENOENT ≠ 0 := by decide
  have hM : ENOMEM ≠ 0 := by decide
  by_cases herr : IS_ERR (env.dma_buf_get prime_fd) = true
  · left
    rw [fd_to_handle_unresolved env k prime_fd herr]
    exact ⟨rfl, rfl⟩
  · simp only [Bool.not_eq_true] at herr
    cases hlk : drm_prime_lookup_members k.file_priv.prime.head (env.dma_buf_get prime_fd) with
    | some h =>
      left
      rw [fd_to_handle_of_hit env k prime_fd herr hlk, put_get_gem]
      exact ⟨rfl, rfl⟩
    | none =>
      by_cases hbad :
          IS_ERR_OR_NULL (env.driver.gem_prime_import (env.dma_buf_get prime_fd)).1 = true
      · left
        rw [(fd_to_handle_import_failed env k prime_fd herr hlk hbad).2.2.2.2.1]
        exact ⟨rfl, rfl⟩
      · simp only [Bool.not_eq_true] at hbad
        by_cases ho : o = (env.driver.gem_prime_import (env.dma_buf_get prime_fd)).1
        · right
          subst ho
          by_cases hcr : (env.drm_gem_handle_create
              (env.driver.gem_prime_import (env.dma_buf_get prime_fd)).1).1 = 0
          · by_cases hmem : env.kmalloc = NULL
            · constructor <;>
              simp [drm_gem_prime_fd_to_handle, dma_buf_get, herr,
                drm_prime_lookup_fd_handle_mapping, Kernel.call, hlk, hE, hM, gem_prime_import,
                hbad, drm_gem_handle_create, hcr, drm_gem_object_unreference_unlocked,
                drm_prime_insert_fd_handle_mapping, hmem,
                drm_gem_object_handle_unreference_unlocked, Kernel.set_gem, Kernel.set_prime,
                dma_buf_put]
            · constructor <;>
              simp [drm_gem_prime_fd_to_handle, dma_buf_get, herr,
                drm_prime_lookup_fd_handle_mapping, Kernel.call, hlk, hE, gem_prime_import,
                hbad, drm_gem_handle_create, hcr, drm_gem_object_unreference_unlocked,
                drm_prime_insert_fd_handle_mapping, hmem, Kernel.set_gem, Kernel.set_prime]
          · constructor <;>
            simp [drm_gem_prime_fd_to_handle, dma_buf_get, herr,
              drm_prime_lookup_fd_handle_mapping, Kernel.call, hlk, hE, gem_prime_import, hbad,
              drm_gem_handle_create, hcr, drm_gem_object_unreference_unlocked, Kernel.set_gem,
              dma_buf_put]
        · left
          by_cases hcr : (env.drm_gem_handle_create
              (env.driver.gem_prime_import (env.dma_buf_get prime_fd)).1).1 = 0
          · by_cases hmem : env.kmalloc = NULL
            · constructor <;>
              simp [drm_gem_prime_fd_to_handle, dma_buf_get, herr,
                drm_prime_lookup_fd_handle_mapping, Kernel.call, hlk, hE, hM, gem_prime_import,
                hbad, drm_gem_handle_create, hcr, drm_gem_object_unreference_unlocked,
                drm_prime_insert_fd_handle_mapping, hmem,
                drm_gem_object_handle_unreference_unlocked, Kernel.set_gem, Kernel.set_prime,
                dma_buf_put, Function.update_noteq ho]
            · constructor <;>
              simp [drm_gem_prime_fd_to_handle, dma_buf_get, herr,
                drm_prime_lookup_fd_handle_mapping, Kernel.call, hlk, hE, gem_prime_import,
                hbad, drm_gem_handle_create, hcr, drm_gem_object_unreference_unlocked,
                drm_prime_insert_fd_handle_mapping, hmem, Kernel.set_gem, Kernel.set_prime,
                Function.update_noteq ho]
          · constructor <;>
            simp [drm_gem_prime_fd_to_handle, dma_buf_get, herr,
              drm_prime_lookup_fd_handle_mapping, Kernel.call, hlk, hE, gem_prime_import, hbad,
              drm_gem_handle_create, hcr, drm_gem_object_unreference_unlocked, Kernel.set_gem,
              dma_buf_put, Function.update_noteq ho]

/-- In every state that exports and imports lead to, an object that backs a buffer
has no import attachment. -/
theorem reachable_across_exporters {k : Kernel} (h : ReachableAcross k) (obj : Ptr)
    (hexp : exports k obj) : (k.gem obj).import_attach = NULL := by
  induction h generalizing obj with
  | start k h0 =>
    unfold exports at hexp
    rw [h0 obj] at hexp
    exact absurd hexp (by decide)
  | context file_priv _ ih => exact ih obj hexp
  | handle_to_fd env handle flags r _ hr ih =>
    obtain ⟨hi, he⟩ := handle_to_fd_associations env _ handle flags r hr obj
    rw [hi]
    rcases he with he | he
    · unfold exports at hexp ih
      rw [he] at hexp
      exact ih obj hexp
    · exact he
  | fd_to_handle env prime_fd hdrv _ ih =>
    rcases fd_to_handle_associations env _ prime_fd obj with ⟨hi, he⟩ | ⟨hi, he⟩
    · rw [hi]
      unfold exports at hexp ih
      rw [he] at hexp
      exact ih obj hexp
    · rw [hi]
      by_contra hne
      have h0 := hdrv _ hne
      unfold exports at hexp
      rw [he, h0] at hexp
      exact absurd hexp (by decide)

/-- C24 (acyclic references): in every state that exports and imports lead to, in
whatever client contexts, from a state in which nothing is exported yet, with
drivers whose import callback builds importing objects without export association,
every object that backs a buffer (the buffer was made for it on the export path)
has no import attachment; so an object that another one imports from imports from
none itself: following "imports from" stops at the exporting object and never comes
back to an object. -/
theorem C24_acyclic_references (k : Kernel) (h : ReachableAcross k) :
    (∀ obj, exports k obj → (k.gem obj).import_attach = NULL) ∧
    (∀ dmabuf o1 o2 o3, imports_from dmabuf k o1 o2 → ¬ imports_from dmabuf k o2 o3) := by
  refine ⟨fun obj hexp => reachable_across_exporters h obj hexp, ?_⟩
  intro dmabuf o1 o2 o3 h12 h23
  exact h23.1 (reachable_across_exporters h o2 h12.2.1)

theorem C24_acyclic_references_witness :
    ∃ r1, drm_gem_prime_handle_to_fd sample_env sample_kernel 1 0 = some r1 ∧
      exports (drm_gem_prime_fd_to_handle sample_env
        { r1.k with file_priv := sample_kernel.file_priv } 3).k 4096 ∧
      imports_from sample_dmabuf (drm_gem_prime_fd_to_handle sample_env
        { r1.k with file_priv := sample_kernel.file_priv } 3).k 16384 4096 ∧
      ¬ imports_from sample_dmabuf (drm_gem_prime_fd_to_handle sample_env
        { r1.k with file_priv := sample_kernel.file_priv } 3).k 4096 16384 :=
  have h1 := handle_to_fd_first sample_env sample_kernel 1 0 (by decide) rfl rfl (by decide)
  have hstart : ∀ obj, (sample_kernel.gem obj).export_dma_buf = NULL := by
    intro obj
    simp only [sample_kernel]
    split <;> rfl
  have hreach := ReachableAcross.fd_to_handle sample_env 3 (fun _ _ => rfl)
    (ReachableAcross.context sample_kernel.file_priv
      (ReachableAcross.handle_to_fd sample_env 1 0 _ (ReachableAcross.start sample_kernel hstart)
        h1))
  have h12 : imports_from sample_dmabuf (drm_gem_prime_fd_to_handle sample_env
      { (Ret.mk 0 (some (sample_env.dma_buf_fd
          (sample_env.driver.gem_prime_export (sample_kernel.file_priv.object_idr 1) 0) 0))
        { sample_kernel with
          calls := sample_kernel.calls ++ [.drm_gem_object_lookup 1,
            .gem_prime_export (sample_kernel.file_priv.object_idr 1) 0,
            .dma_buf_fd (sample_env.driver.gem_prime_export
              (sample_kernel.file_priv.object_idr 1) 0) 0]
          gem := Function.update sample_kernel.gem (sample_kernel.file_priv.object_idr 1)
            { sample_kernel.gem (sample_kernel.file_priv.object_idr 1) with
              refcount := (sample_kernel.gem (sample_kernel.file_priv.object_idr 1)).refcount + 1
              export_dma_buf :=
                sample_env.driver.gem_prime_export (sample_kernel.file_priv.object_idr 1) 0 }
              }).k with file_priv := sample_kernel.file_priv } 3).k 16384 4096 := by
    refine ⟨by decide, by unfold exports; decide, by decide⟩
  ⟨_, h1, h12.2.1, h12, (C24_acyclic_references _ hreach).2 sample_dmabuf 16384 4096 16384 h12⟩

end DrmPrime

/-! # The firmware table search -/

namespace CrosEcPd

theorem find_from_no_match (M : Nat → Nat → Nat) (P : Int) (dev_id : Nat)
    (l : List cros_ec_pd_firmware_image) (i : Nat)
    (h : ∀ image ∈ l, ¬ image_matches M dev_id image) :
    find_firmware_image_from M P dev_id l i = P := by
  induction l generalizing i with
  | nil => rfl
  | cons image rest ih =>
    have h0 : ¬ M image.id_major image.id_minor = dev_id := h image (by simp)
    simp only [find_firmware_image_from, h0, if_false]
    exact ih (i + 1) (fun im him => h im (by simp [him]))

theorem find_from_first_match (M : Nat → Nat → Nat) (P : Int) (dev_id : Nat)
    (l : List cros_ec_pd_firmware_image) (i j : Nat) (image : cros_ec_pd_firmware_image)
    (hj : l[j]? = some image) (hm : image_matches M dev_id image)
    (hfirst : ∀ j2 < j, ∀ im, l[j2]? = some im → ¬ image_matches M dev_id im) :
    find_firmware_image_from M P dev_id l i = ((i + j : Nat) : Int) := by
  induction l generalizing i j with
  | nil => simp at hj
  | cons head rest ih =>
    cases j with
    | zero =>
      simp only [List.getElem?_cons_zero, Option.some.injEq] at hj
      subst hj
      have h0 : M head.id_major head.id_minor = dev_id := hm
      simp [find_firmware_image_from, h0]
    | succ j =>
      have h0 : ¬ M head.id_major head.id_minor = dev_id := hfirst 0 (by omega) head (by simp)
      simp only [find_firmware_image_from, h0, if_false]
      rw [ih (i + 1) j (by simpa using hj)
        (fun j2 hj2 im him => hfirst (j2 + 1) (by omega) im (by simpa using him))]
      congr 1
      omega

theorem exists_first_match (M : Nat → Nat → Nat) (dev_id : Nat)
    (l : List cros_ec_pd_firmware_image)
    (h : ∃ image ∈ l, image_matches M dev_id image) :
    ∃ (j : Nat) (image : cros_ec_pd_firmware_image), l[j]? = some image ∧
      image_matches M dev_id image ∧
      ∀ j2 < j, ∀ im, l[j2]? = some im → ¬ image_matches M dev_id im := by
  induction l with
  | nil => simp at h
  | cons head rest ih =>
    by_cases h0 : image_matches M dev_id head
    · exact ⟨0, head, by simp, h0, fun j2 hj2 => absurd hj2 (by omega)⟩
    · obtain ⟨image, hmem, hm⟩ := h
      have hrest : ∃ image ∈ rest, image_matches M dev_id image := by
        rcases List.mem_cons.mp hmem with heq | hin
        · subst heq; exact absurd hm h0
        · exact ⟨image, hin, hm⟩
      obtain ⟨j, im, hj, hmj, hfirst⟩ := ih hrest
      refine ⟨j + 1, im, by simpa using hj, hmj, ?_⟩
      intro j2 hj2 im2 him2
      cases j2 with
      | zero =>
        simp only [List.getElem?_cons_zero, Option.some.injEq] at him2
        subst him2
        exact h0
      | succ j2 => exact hfirst j2 (by omega) im2 (by simpa using him2)

/-- C25 (firmware table search): for whatever table, device id macro and device id,
with a `PD_NO_IMAGE` that is negative, so not an index: when an entry of the table
is for the device id, `find_firmware_image` returns the index of the first such
entry, which is below the number of entries; and it returns `PD_NO_IMAGE` exactly
when no entry is for the device id. -/
theorem C25_find_firmware_image (MAJOR_MINOR_TO_DEV_ID : Nat → Nat → Nat) (PD_NO_IMAGE : Int)
    (images : List cros_ec_pd_firmware_image) (dev_id : Nat) (hneg : PD_NO_IMAGE < 0) :
    ((∃ image ∈ images, image_matches MAJOR_MINOR_TO_DEV_ID dev_id image) →
      ∃ (i : Nat) (image : cros_ec_pd_firmware_image), images[i]? = some image ∧
        image_matches MAJOR_MINOR_TO_DEV_ID dev_id image ∧
        (∀ j < i, ∀ im, images[j]? = some im →
          ¬ image_matches MAJOR_MINOR_TO_DEV_ID dev_id im) ∧
        i < images.length ∧
        find_firmware_image MAJOR_MINOR_TO_DEV_ID PD_NO_IMAGE images dev_id = (i : Int)) ∧
    (find_firmware_image MAJOR_MINOR_TO_DEV_ID PD_NO_IMAGE images dev_id = PD_NO_IMAGE ↔
      ∀ image ∈ images, ¬ image_matches MAJOR_MINOR_TO_DEV_ID dev_id image) := by
  have hfound : (∃ image ∈ images, image_matches MAJOR_MINOR_TO_DEV_ID dev_id image) →
      ∃ (i : Nat) (image : cros_ec_pd_firmware_image), images[i]? = some image ∧
        image_matches MAJOR_MINOR_TO_DEV_ID dev_id image ∧
        (∀ j < i, ∀ im, images[j]? = some im →
          ¬ image_matches MAJOR_MINOR_TO_DEV_ID dev_id im) ∧
        i < images.length ∧
        find_firmware_image MAJOR_MINOR_TO_DEV_ID PD_NO_IMAGE images dev_id = (i : Int) := by
    intro hex
    obtain ⟨j, image, hj, hm, hfirst⟩ := exists_first_match MAJOR_MINOR_TO_DEV_ID dev_id images hex
    refine ⟨j, image, hj, hm, hfirst, ?_, ?_⟩
    · by_contra hlen
      rw [List.getElem?_eq_none (by omega)] at hj
      simp at hj
    · unfold find_firmware_image
      rw [find_from_first_match MAJOR_MINOR_TO_DEV_ID PD_NO_IMAGE dev_id images 0 j image hj hm
        hfirst]
      simp
  refine ⟨hfound, ⟨?_, ?_⟩⟩
  · intro hret image hmem hm
    obtain ⟨i, _, _, _, _, _, hfi⟩ := hfound ⟨image, hmem, hm⟩
    rw [hret] at hfi
    omega
  · intro hnone
    exact find_from_no_match MAJOR_MINOR_TO_DEV_ID PD_NO_IMAGE dev_id images 0 hnone

theorem C25_find_firmware_image_witness :
    firmware_image_count 1 = 1 ∧
    find_firmware_image sample_dev_id (-1) (firmware_images 1) 257 = 0 ∧
    find_firmware_image sample_dev_id (-1) (firmware_images 1) 258 = -1 :=
  ⟨rfl,
    by
      obtain ⟨i, image, _, _, _, hlt, hfi⟩ :=
        (C25_find_firmware_image sample_dev_id (-1) (firmware_images 1) 257 (by decide)).1
          ⟨(firmware_images 1).get ⟨0, by decide⟩, List.get_mem _ _ _,
            by unfold image_matches; decide⟩
      have hi : i = 0 := by
        have : (firmware_images 1).length = 1 := rfl
        omega
      rw [hfi, hi]
      rfl,
    (C25_find_firmware_image sample_dev_id (-1) (firmware_images 1) 258 (by decide)).2.mpr
      (by
        intro image hmem
        simp only [firmware_images, List.mem_singleton] at hmem
        subst hmem
        unfold image_matches
        decide)⟩

end CrosEcPd

/-! # The sync file check -/

namespace KbaseSync

/-- What decides `kbase_sync_file_fdget` for a file with an ioctl handler: the file
is refused only when the ioctl failed and reported no fence as well. -/
theorem fdget_accepts (fget : Int → Option file) (fd : Int) (f : file) (ret : Int)
    (num_fences : Nat) (hf : fget fd = some f) (hi : f.unlocked_ioctl = some (ret, num_fences)) :
    kbase_sync_file_fdget fget fd =
      if ret ≠ 0 ∧ num_fences = 0 then (NULL, 1) else (f.private_data, 0) := by
  simp only [kbase_sync_file_fdget, hf, hi]

/-- C28, at two failing inputs. Descriptor 3 is a file whose ioctl returns 0 and
reports no fence, descriptor 4 one whose ioctl fails and reports a fence:
`kbase_sync_file_fdget` returns the `private_data` of both, not `NULL`, without an
`fput`, and `kbase_fence_validate` returns 0 for both. -/
theorem C28_fdget_accepts_on_one_condition :
    kbase_sync_file_fdget sample_fget 3 = (4096, 0) ∧
    kbase_fence_validate sample_fget 3 = (0, 1) ∧
    kbase_sync_file_fdget sample_fget 4 = (8192, 0) ∧
    kbase_fence_validate sample_fget 4 = (0, 1) := by
  decide

end KbaseSync

/-! # The bounded read of the SRAM -/

namespace CustomSdma

/-- C30 (bounded SRAM read): for a position `p` with `0 <= p` (a `loff_t`) and a
count `c` (a `size_t`), with the semaphore acquired: when `p >= SRAM_SIZE`,
`custom_sdma_read` returns 0, copies nothing and leaves the position; otherwise it
asks `copy_to_user` for `min(c, SRAM_SIZE - p)` bytes from offset `p`, which end at
`SRAM_SIZE` at most, and when that succeeds returns this number and advances the
position by it, and when that fails returns `-EFAULT` with the position as it was.
The semaphore is released on all three paths. -/
theorem C30_bounded_read (copy_to_user : Int → Int → Nat) (c p : Int)
    (hp0 : 0 ≤ p) (hp : p < 2 ^ 63) (hc0 : 0 ≤ c) (hc : c < 2 ^ 32) :
    (SRAM_SIZE ≤ p →
      custom_sdma_read 0 copy_to_user c p =
        { retval := 0, f_pos := p, copied := none, up := true }) ∧
    (p < SRAM_SIZE → copy_to_user p (min c (SRAM_SIZE - p)) = 0 →
      custom_sdma_read 0 copy_to_user c p =
        { retval := min c (SRAM_SIZE - p), f_pos := p + min c (SRAM_SIZE - p),
          copied := some (p, min c (SRAM_SIZE - p)), up := true }) ∧
    (p < SRAM_SIZE → copy_to_user p (min c (SRAM_SIZE - p)) ≠ 0 →
      custom_sdma_read 0 copy_to_user c p =
        { retval := -EFAULT, f_pos := p, copied := some (p, min c (SRAM_SIZE - p)),
          up := true }) ∧
    (p < SRAM_SIZE → 0 ≤ min c (SRAM_SIZE - p) ∧ p + min c (SRAM_SIZE - p) ≤ SRAM_SIZE) := by
  have hS : SRAM_SIZE = 262144 := rfl
  have hcount : p < SRAM_SIZE →
      (if to_loff_t (p + c) > SRAM_SIZE then to_size_t (SRAM_SIZE - p) else c) =
        min c (SRAM_SIZE - p) := by
    intro hlt
    have h1 : to_loff_t (p + c) = p + c := by
      unfold to_loff_t
      omega
    have h2 : to_size_t (SRAM_SIZE - p) = SRAM_SIZE - p := by
      unfold to_size_t
      omega
    rw [h1, h2]
    split <;> omega
  refine ⟨?_, ?_, ?_, ?_⟩
  · intro hge
    simp [custom_sdma_read, hge]
  · intro hlt hok
    have hnge : ¬ p ≥ SRAM_SIZE := by omega
    have h3 : to_ssize_t (min c (SRAM_SIZE - p)) = min c (SRAM_SIZE - p) := by
      unfold to_ssize_t
      omega
    have h4 : to_loff_t (p + min c (SRAM_SIZE - p)) = p + min c (SRAM_SIZE - p) := by
      unfold to_loff_t
      omega
    simp only [custom_sdma_read, hnge, hcount hlt, hok, h3, h4]
    simp
  · intro hlt hfail
    have hnge : ¬ p ≥ SRAM_SIZE := by omega
    have h3 : to_ssize_t (-EFAULT) = -EFAULT := by decide
    simp only [custom_sdma_read, hnge, hcount hlt, h3]
    simp [hfail]
  · intro hlt
    omega

theorem C30_bounded_read_witness :
    custom_sdma_read 0 (fun _ _ => 0) 4096 262000 =
      { retval := 144, f_pos := 262144, copied := some (262000, 144), up := true } ∧
    custom_sdma_read 0 (fun _ _ => 0) 4096 262144 =
      { retval := 0, f_pos := 262144, copied := none, up := true } :=
  have h := C30_bounded_read (fun _ _ => 0) 4096 262000 (by decide) (by decide) (by decide)
    (by decide)
  have h2 := C30_bounded_read (fun _ _ => 0) 4096 262144 (by decide) (by decide) (by decide)
    (by decide)
  ⟨(h.2.1 (by decide) rfl).trans (by decide), h2.1 (by decide)⟩

end CustomSdma

/-! # The firmware update -/

namespace CrosEcPd

theorem ceil_step (n i step : Nat) (hstep : 0 < step) (hi : i < n) :
    (n - (i + step) + step - 1) / step + 1 = (n - i + step - 1) / step := by
  have hr : (n - i + step - 1) / step = (n - i - 1) / step + 1 := by
    rw [← Nat.add_div_right _ hstep]
    congr 1
    omega
  rw [hr]
  congr 1
  by_cases hle : n - i < step
  · rw [Nat.div_eq_of_lt (by omega), Nat.div_eq_of_lt (by omega)]
  · congr 1
    omega

/-- The bytes that a flash write carries: the next `step` bytes of the firmware, or
those that are left. -/
theorem write_payload (buf fw : List Nat) (i step : Nat) :
    (memcpy buf (fw.drop i) (min (fw.length - i) step)).take (min (fw.length - i) step) =
      (fw.drop i).take step := by
  have hlen : ((fw.drop i).take (min (fw.length - i) step)).length =
      min (fw.length - i) step := by
    rw [List.length_take, List.length_drop]
    omega
  unfold memcpy
  rw [List.take_left' hlen]
  by_cases hle : fw.length - i ≤ step
  · rw [Nat.min_eq_left hle, List.take_of_length_le (by simp),
      List.take_of_length_le (by simpa using hle)]
  · rw [Nat.min_eq_right (by omega)]

/-- The loop, with an EC that accepts every command and sizes in the range of
`int`: it runs to its end, and what it sends are flash writes that carry the firmware in
chunks. -/
theorem flash_write_loop_ok (step : Nat) (xfer : Xfer) (port : Nat) (fw : List Nat)
    (hstep : 0 < step) (hacc : ∀ sent msg, 0 ≤ xfer sent msg)
    (hsize : fw.length + step ≤ 2 ^ 31) :
    ∀ (fuel i : Nat) (buf : List Nat) (sent : List (fw_update_msg × Int)),
      fw.length - i < fuel →
      ∃ writes buf2,
        flash_write_loop step xfer port fw fuel i buf sent = some (none, buf2, sent ++ writes) ∧
        writes.length = (fw.length - i + step - 1) / step ∧
        (∀ w ∈ writes, w.1.cmd = .USB_PD_FW_FLASH_WRITE ∧ w.1.port = port ∧
          w.1.size ≤ step ∧ w.1.data.length = w.1.size ∧ 0 ≤ w.2) ∧
        (∀ w ∈ writes.dropLast, w.1.size = step) ∧
        (writes.map (fun w => w.1.data)).flatten = fw.drop i := by
  intro fuel
  induction fuel with
  | zero => intro i buf sent hf; omega
  | succ fuel ih =>
    intro i buf sent hf
    by_cases hi : i < fw.length
    · have h1 : ¬ (2 ^ 31 ≤ min (fw.length - i) step) := by omega
      have h2 : ¬ (2 ^ 31 ≤ i + step) := by omega
      have h3 : ¬ (xfer sent
          { port := port, cmd := .USB_PD_FW_FLASH_WRITE, size := min (fw.length - i) step,
            data := (memcpy buf (fw.drop i) (min (fw.length - i) step)).take
              (min (fw.length - i) step) } < 0) := by
        have := hacc sent
          { port := port, cmd := .USB_PD_FW_FLASH_WRITE, size := min (fw.length - i) step,
            data := (memcpy buf (fw.drop i) (min (fw.length - i) step)).take
              (min (fw.length - i) step) }
        omega
      obtain ⟨writes, buf2, heq, hlen, hall, hdl, hjoin⟩ :=
        ih (i + step) (memcpy buf (fw.drop i) (min (fw.length - i) step))
          (cros_ec_pd_send_fw_update_cmd xfer sent port
            (memcpy buf (fw.drop i) (min (fw.length - i) step))
            .USB_PD_FW_FLASH_WRITE (min (fw.length - i) step)).2 (by omega)
      refine ⟨(cros_ec_pd_send_fw_update_cmd xfer sent port
            (memcpy buf (fw.drop i) (min (fw.length - i) step))
            .USB_PD_FW_FLASH_WRITE (min (fw.length - i) step)).2.getLast?.toList ++ writes,
        buf2, ?_, ?_, ?_, ?_, ?_⟩
      · simp only [flash_write_loop, hi, if_true, h1, if_false, h2]
        simp only [cros_ec_pd_send_fw_update_cmd, h3, if_false] at heq ⊢
        rw [heq]
        simp
      · simp only [cros_ec_pd_send_fw_update_cmd, List.getLast?_concat, Option.toList,
          List.length_append, List.length_singleton, hlen]
        rw [← ceil_step fw.length i step hstep hi]
        omega
      · intro w hw
        simp only [cros_ec_pd_send_fw_update_cmd, List.getLast?_concat, Option.toList,
          List.singleton_append, List.mem_cons] at hw
        rcases hw with hw | hw
        · subst hw
          refine ⟨rfl, rfl, Nat.min_le_right _ _, ?_, ?_⟩
          · simp only [write_payload, List.length_take, List.length_drop]
            omega
          · exact hacc _ _
        · exact hall w hw
      · intro w hw
        simp only [cros_ec_pd_send_fw_update_cmd, List.getLast?_concat, Option.toList,
          List.singleton_append] at hw
        by_cases hnil : writes = []
        · subst hnil
          simp at hw
        · rw [List.dropLast_cons_of_ne_nil hnil, List.mem_cons] at hw
          rcases hw with hw | hw
          · subst hw
            have hpos : 0 < (fw.length - (i + step) + step - 1) / step := by
              rw [← hlen]
              exact List.length_pos.mpr hnil
            have hgt : step ≤ fw.length - (i + step) + step - 1 := by
              by_contra hlt
              rw [Nat.div_eq_of_lt (by omega)] at hpos
              omega
            show min (fw.length - i) step = step
            omega
          · exact hdl w hw
      · simp only [cros_ec_pd_send_fw_update_cmd, List.getLast?_concat, Option.toList,
          List.singleton_append, List.map_cons, List.flatten_cons, hjoin, write_payload]
        rw [← List.drop_drop, List.take_append_drop]
    · refine ⟨[], buf, ?_, ?_, ?_, ?_, ?_⟩
      · simp [flash_write_loop, hi]
      · have h0 : fw.length - i + step - 1 < step := by omega
        simp [Nat.div_eq_of_lt h0]
      · intro w hw; simp at hw
      · intro w hw; simp at hw
      · simp [List.drop_eq_nil_of_le (by omega : fw.length ≤ i)]

/-- The loop, with whatever EC, entered after commands that were all accepted: every
command sent but the last was accepted; when the loop is left by `goto error` the
error is the negative answer to the last command sent; when it runs to its end
every command was accepted. -/
theorem flash_write_loop_answers (step : Nat) (xfer : Xfer) (port : Nat) (fw : List Nat) :
    ∀ (fuel i : Nat) (buf : List Nat) (sent : List (fw_update_msg × Int)) (r : Option Int)
      (buf2 : List Nat) (sent2 : List (fw_update_msg × Int)),
      (∀ e ∈ sent, 0 ≤ e.2) →
      flash_write_loop step xfer port fw fuel i buf sent = some (r, buf2, sent2) →
      (∀ e ∈ sent2.dropLast, 0 ≤ e.2) ∧
      (∀ err, r = some err → err < 0 ∧ ∃ m, sent2.getLast? = some (m, err)) ∧
      (r = none → ∀ e ∈ sent2, 0 ≤ e.2) := by
  intro fuel
  induction fuel with
  | zero =>
    intro i buf sent r buf2 sent2 _ h
    simp [flash_write_loop] at h
  | succ fuel ih =>
    intro i buf sent r buf2 sent2 hsent h
    by_cases hi : i < fw.length
    · by_cases h1 : 2 ^ 31 ≤ min (fw.length - i) step
      · simp only [flash_write_loop, hi, if_true, h1] at h
        simp at h
      · by_cases h3 : xfer sent
            { port := port, cmd := .USB_PD_FW_FLASH_WRITE, size := min (fw.length - i) step,
              data := (memcpy buf (fw.drop i) (min (fw.length - i) step)).take
                (min (fw.length - i) step) } < 0
        · simp only [flash_write_loop, hi, if_true, h1, if_false,
            cros_ec_pd_send_fw_update_cmd, h3, Option.some.injEq, Prod.mk.injEq] at h
          obtain ⟨hr, _, hs⟩ := h
          subst hr hs
          refine ⟨by simpa using hsent, ?_, by intro hn; simp at hn⟩
          intro err herr
          simp only [Option.some.injEq] at herr
          subst herr
          exact ⟨h3, _, List.getLast?_concat _⟩
        · by_cases h2 : 2 ^ 31 ≤ i + step
          · simp only [flash_write_loop, hi, if_true, h1, if_false,
              cros_ec_pd_send_fw_update_cmd, h3, h2] at h
            simp at h
          · simp only [flash_write_loop, hi, if_true, h1, if_false,
              cros_ec_pd_send_fw_update_cmd, h3, h2] at h
            refine ih _ _ _ r buf2 sent2 ?_ h
            intro e he
            rcases List.mem_append.mp he with he | he
            · exact hsent e he
            · simp only [List.mem_singleton] at he
              subst he
              show 0 ≤ xfer sent _
              omega
    · simp only [flash_write_loop, hi, if_false, Option.some.injEq, Prod.mk.injEq] at h
      obtain ⟨hr, _, hs⟩ := h
      subst hr hs
      exact ⟨fun e he => hsent e (List.dropLast_subset _ he),
        by intro err herr; simp at herr, fun _ => hsent⟩

/-- The update, with memory for the message, an EC that accepts every command and
sizes in the range of `int`: 0 is returned after the three commands that prepare,
the flash writes that carry the firmware in chunks and the final reboot. -/
theorem fw_update_ok (step : Nat) (kzalloc : Int) (xfer : Xfer) (fw : List Nat) (port : Nat)
    (hmem : kzalloc ≠ 0) (hstep : 0 < step) (hsize : fw.length + step ≤ 2 ^ 31)
    (hacc : ∀ sent msg, 0 ≤ xfer sent msg) :
    ∃ (writes sent : List (fw_update_msg × Int)),
      cros_ec_pd_fw_update step kzalloc xfer fw port = some (0, sent) ∧
      sent.map Prod.fst =
        [{ port := port, cmd := .USB_PD_FW_ERASE_SIG, size := 0, data := [] },
          { port := port, cmd := .USB_PD_FW_REBOOT, size := 0, data := [] },
          { port := port, cmd := .USB_PD_FW_FLASH_ERASE, size := 0, data := [] }] ++
        writes.map Prod.fst ++
        [{ port := port, cmd := .USB_PD_FW_REBOOT, size := 0, data := [] }] ∧
      writes.length = (fw.length + step - 1) / step ∧
      (∀ w ∈ writes, w.1.cmd = .USB_PD_FW_FLASH_WRITE ∧ w.1.port = port ∧
        w.1.size ≤ step ∧ w.1.data.length = w.1.size ∧ 0 ≤ w.2) ∧
      (∀ w ∈ writes.dropLast, w.1.size = step) ∧
      (writes.map (fun w => w.1.data)).flatten = fw := by
  have hnn : ∀ sent msg, ¬ (xfer sent msg < 0) := fun sent msg => by
    have := hacc sent msg
    omega
  obtain ⟨writes, buf2, heq, hlen, hall, hdl, hjoin⟩ :=
    flash_write_loop_ok step xfer port fw hstep hacc hsize (fw.length + 1) 0
      (List.replicate step 0)
      (cros_ec_pd_send_fw_update_cmd xfer
        (cros_ec_pd_send_fw_update_cmd xfer
          (cros_ec_pd_send_fw_update_cmd xfer [] port (List.replicate step 0)
            .USB_PD_FW_ERASE_SIG 0).2 port (List.replicate step 0) .USB_PD_FW_REBOOT 0).2
        port (List.replicate step 0) .USB_PD_FW_FLASH_ERASE 0).2 (by omega)
  refine ⟨writes,
    (cros_ec_pd_send_fw_update_cmd xfer
      ((cros_ec_pd_send_fw_update_cmd xfer
        (cros_ec_pd_send_fw_update_cmd xfer
          (cros_ec_pd_send_fw_update_cmd xfer [] port (List.replicate step 0)
            .USB_PD_FW_ERASE_SIG 0).2 port (List.replicate step 0) .USB_PD_FW_REBOOT 0).2
        port (List.replicate step 0) .USB_PD_FW_FLASH_ERASE 0).2 ++ writes)
      port buf2 .USB_PD_FW_REBOOT 0).2,
    ?_, ?_, by simpa using hlen, hall, hdl, by simpa using hjoin⟩
  · simp only [cros_ec_pd_fw_update, hmem, if_false]
    simp only [cros_ec_pd_send_fw_update_cmd, hnn, if_false] at heq ⊢
    rw [heq]
  · simp [cros_ec_pd_send_fw_update_cmd]

/-- The update, with whatever EC: every command sent but the last was accepted, so
nothing is sent after a command that fails; the negative answer to the last
command is what is returned; and when every command was accepted, with memory for
the message, 0 is returned. -/
theorem fw_update_answers (step : Nat) (kzalloc : Int) (xfer : Xfer) (fw : List Nat)
    (port : Nat) (ret : Int) (sent : List (fw_update_msg × Int))
    (h : cros_ec_pd_fw_update step kzalloc xfer fw port = some (ret, sent)) :
    (∀ e ∈ sent.dropLast, 0 ≤ e.2) ∧
    (∀ m a, sent.getLast? = some (m, a) → a < 0 → ret = a) ∧
    ((∀ e ∈ sent, 0 ≤ e.2) → kzalloc ≠ 0 → ret = 0) := by
  by_cases hkz : kzalloc = 0
  · simp only [cros_ec_pd_fw_update, hkz, if_true, Option.some.injEq, Prod.mk.injEq] at h
    obtain ⟨_, hs⟩ := h
    subst hs
    exact ⟨by simp, by simp, fun _ hne => absurd hkz hne⟩
  · simp only [cros_ec_pd_fw_update, hkz, if_false] at h
    split at h
    · rename_i h1
      simp only [cros_ec_pd_send_fw_update_cmd, Option.some.injEq, Prod.mk.injEq] at h h1
      obtain ⟨hr, hs⟩ := h
      subst hr hs
      refine ⟨by simp, ?_, ?_⟩
      · intro m a hl _
        simp only [List.nil_append, List.getLast?_singleton, Option.some.injEq,
          Prod.mk.injEq] at hl
        exact hl.2
      · intro hall _
        have := hall _ (List.mem_append_right _ (List.mem_singleton_self _))
        simp only at this
        omega
    · rename_i h1
      split at h
      · rename_i h2
        simp only [cros_ec_pd_send_fw_update_cmd, Option.some.injEq, Prod.mk.injEq,
          List.nil_append] at h h1 h2
        obtain ⟨hr, hs⟩ := h
        subst hr hs
        refine ⟨?_, ?_, ?_⟩
        · intro e he
          simp only [List.dropLast_concat, List.nil_append, List.mem_singleton] at he
          subst he
          simp only
          omega
        · intro m a hl _
          simp only [List.getLast?_concat, Option.some.injEq, Prod.mk.injEq] at hl
          exact hl.2
        · intro hall _
          have := hall _ (List.mem_append_right _ (List.mem_singleton_self _))
          simp only at this
          omega
      · rename_i h2
        split at h
        · rename_i h3
          simp only [cros_ec_pd_send_fw_update_cmd, Option.some.injEq, Prod.mk.injEq,
            List.nil_append, List.singleton_append] at h h1 h2 h3
          obtain ⟨hr, hs⟩ := h
          subst hr hs
          refine ⟨?_, ?_, ?_⟩
          · intro e he
            simp only [List.dropLast_concat, List.nil_append, List.singleton_append,
              List.mem_cons, List.mem_singleton, List.not_mem_nil, or_false] at he
            rcases he with he | he
            · subst he
              simp only
              omega
            · subst he
              simp only
              omega
          · intro m a hl _
            simp only [List.getLast?_concat, Option.some.injEq, Prod.mk.injEq] at hl
            exact hl.2
          · intro hall _
            have := hall _ (List.mem_append_right _ (List.mem_singleton_self _))
            simp only at this
            omega
        · rename_i h3
          split at h
          · simp at h
          · rename_i err buf2 sent2 hloop
            simp only [Option.some.injEq, Prod.mk.injEq] at h
            obtain ⟨hr, hs⟩ := h
            subst hr hs
            refine (fun hans => ?_)
              (flash_write_loop_answers step xfer port fw _ _ _ _ _ _ _ ?_ hloop)
            · obtain ⟨hdl, herr, _⟩ := hans
              obtain ⟨hneg, m0, hlast⟩ := herr _ rfl
              refine ⟨hdl, ?_, ?_⟩
              · intro m a hl _
                rw [hlast] at hl
                simp only [Option.some.injEq, Prod.mk.injEq] at hl
                exact hl.2
              · intro hall _
                have := hall _ (List.mem_of_getLast?_eq_some hlast)
                simp only at this
                omega
            · intro e he
              simp only [cros_ec_pd_send_fw_update_cmd, List.nil_append, List.singleton_append,
                List.cons_append, List.mem_cons, List.mem_singleton, List.not_mem_nil,
                or_false] at he h1 h2 h3
              rcases he with he | he | he
              · subst he
                simp only
                omega
              · subst he
                simp only
                omega
              · subst he
                simp only
                omega
          · rename_i buf2 sent2 hloop
            refine (fun hans => ?_)
              (flash_write_loop_answers step xfer port fw _ _ _ _ _ _ _ ?_ hloop)
            · obtain ⟨_, _, hnone⟩ := hans
              split at h
              · rename_i h5
                simp only [cros_ec_pd_send_fw_update_cmd, Option.some.injEq, Prod.mk.injEq]
                  at h h5
                obtain ⟨hr, hs⟩ := h
                subst hr hs
                refine ⟨by simpa using hnone rfl, ?_, ?_⟩
                · intro m a hl _
                  simp only [List.getLast?_concat, Option.some.injEq, Prod.mk.injEq] at hl
                  exact hl.2
                · intro hall _
                  have := hall _ (List.mem_append_right _ (List.mem_singleton_self _))
                  simp only at this
                  omega
              · rename_i h5
                simp only [cros_ec_pd_send_fw_update_cmd, Option.some.injEq, Prod.mk.injEq]
                  at h h5
                obtain ⟨hr, hs⟩ := h
                subst hr hs
                refine ⟨by simpa using hnone rfl, ?_, fun _ _ => rfl⟩
                intro m a hl hneg
                simp only [List.getLast?_concat, Option.some.injEq, Prod.mk.injEq] at hl
                rw [← hl.2] at hneg
                exact absurd hneg h5
            · intro e he
              simp only [cros_ec_pd_send_fw_update_cmd, List.nil_append, List.singleton_append,
                List.cons_append, List.mem_cons, List.mem_singleton, List.not_mem_nil,
                or_false] at he h1 h2 h3
              rcases he with he | he | he
              · subst he
                simp only
                omega
              · subst he
                simp only
                omega
              · subst he
                simp only
                omega

/-- The loop, with whatever EC and sizes in the range of `int`: it has an outcome
when the fuel is more than the bytes left. -/
theorem flash_write_loop_returns (step : Nat) (xfer : Xfer) (port : Nat) (fw : List Nat)
    (hstep : 0 < step) (hsize : fw.length + step ≤ 2 ^ 31) :
    ∀ (fuel i : Nat) (buf : List Nat) (sent : List (fw_update_msg × Int)),
      fw.length - i < fuel →
      flash_write_loop step xfer port fw fuel i buf sent ≠ none := by
  intro fuel
  induction fuel with
  | zero => intro i buf sent hf; omega
  | succ fuel ih =>
    intro i buf sent hf
    by_cases hi : i < fw.length
    · have h1 : ¬ (2 ^ 31 ≤ min (fw.length - i) step) := by omega
      have h2 : ¬ (2 ^ 31 ≤ i + step) := by omega
      simp only [flash_write_loop, hi, if_true, h1, if_false, h2]
      split
      · simp
      · exact ih _ _ _ (by omega)
    · simp [flash_write_loop, hi]

/-- The update, with whatever EC and sizes in the range of `int`: it returns. -/
theorem fw_update_returns (step : Nat) (kzalloc : Int) (xfer : Xfer) (fw : List Nat)
    (port : Nat) (hstep : 0 < step) (hsize : fw.length + step ≤ 2 ^ 31) :
    ∃ ret sent, cros_ec_pd_fw_update step kzalloc xfer fw port = some (ret, sent) := by
  simp only [cros_ec_pd_fw_update]
  split
  · exact ⟨_, _, rfl⟩
  · split
    · exact ⟨_, _, rfl⟩
    · split
      · exact ⟨_, _, rfl⟩
      · split
        · exact ⟨_, _, rfl⟩
        · split
          · rename_i hnone
            exact absurd hnone
              (flash_write_loop_returns step xfer port fw hstep hsize _ _ _ _ (by omega))
          · exact ⟨_, _, rfl⟩
          · split
            · exact ⟨_, _, rfl⟩
            · exact ⟨_, _, rfl⟩

/-- A run that fails: the EC refuses the fifth command, the second flash write of a
firmware of 10 bytes written by 4; the update stops there and returns the error. -/
theorem fw_update_sample_fail :
    cros_ec_pd_fw_update 4 4096 sample_xfer_fail [1, 2, 3, 4, 5, 6, 7, 8, 9, 10] 2 =
      some (-5,
        [({ port := 2, cmd := .USB_PD_FW_ERASE_SIG, size := 0, data := [] }, 0),
          ({ port := 2, cmd := .USB_PD_FW_REBOOT, size := 0, data := [] }, 0),
          ({ port := 2, cmd := .USB_PD_FW_FLASH_ERASE, size := 0, data := [] }, 0),
          ({ port := 2, cmd := .USB_PD_FW_FLASH_WRITE, size := 4, data := [1, 2, 3, 4] }, 0),
          ({ port := 2, cmd := .USB_PD_FW_FLASH_WRITE, size := 4, data := [5, 6, 7, 8] },
            -5)]) := by
  rfl

/-- C29, as stated, does not hold: the EC accepts every command, and yet, when
`kzalloc` has no memory for the message, the update sends nothing and returns
`-ENOMEM`, not 0. -/
theorem C29_no_memory_sends_nothing :
    (∀ sent msg, 0 ≤ sample_xfer_ok sent msg) ∧
    cros_ec_pd_fw_update 4 0 sample_xfer_ok [1, 2, 3, 4, 5, 6, 7, 8, 9, 10] 2 =
      some (-ENOMEM, []) ∧
    -ENOMEM ≠ 0 :=
  ⟨fun _ _ => le_refl _, rfl, by decide⟩

/-- C29 (amended): when `kzalloc` gives memory for the message, `PD_FLASH_WRITE_STEP`
is not 0 and the firmware size `n` plus `PD_FLASH_WRITE_STEP` is in the range of
`int`, `cros_ec_pd_fw_update` returns, whatever the EC answers; every command it
sent but the last was accepted, so no command follows one that fails; a negative
answer to the last command is the value returned, and 0 is returned when every
command was accepted. With an EC that accepts every command it sends, in order,
ERASE_SIG, REBOOT, FLASH_ERASE, then exactly ceil(n / PD_FLASH_WRITE_STEP)
FLASH_WRITE commands, each with at most `PD_FLASH_WRITE_STEP` bytes and all but
the last with exactly that many, whose payloads in order make up the firmware,
then a final REBOOT, and returns 0. -/
theorem C29_firmware_write_chunking (PD_FLASH_WRITE_STEP : Nat) (kzalloc : Int) (xfer : Xfer)
    (fw : List Nat) (port : Nat)
    (hmem : kzalloc ≠ 0) (hstep : 0 < PD_FLASH_WRITE_STEP)
    (hsize : fw.length + PD_FLASH_WRITE_STEP ≤ 2 ^ 31) :
    (∃ ret sent,
      cros_ec_pd_fw_update PD_FLASH_WRITE_STEP kzalloc xfer fw port = some (ret, sent) ∧
      (∀ e ∈ sent.dropLast, 0 ≤ e.2) ∧
      (∀ m a, sent.getLast? = some (m, a) → a < 0 → ret = a) ∧
      ((∀ e ∈ sent, 0 ≤ e.2) → ret = 0)) ∧
    ((∀ sent msg, 0 ≤ xfer sent msg) →
      ∃ (writes sent : List (fw_update_msg × Int)),
        cros_ec_pd_fw_update PD_FLASH_WRITE_STEP kzalloc xfer fw port = some (0, sent) ∧
        sent.map Prod.fst =
          [{ port := port, cmd := .USB_PD_FW_ERASE_SIG, size := 0, data := [] },
            { port := port, cmd := .USB_PD_FW_REBOOT, size := 0, data := [] },
            { port := port, cmd := .USB_PD_FW_FLASH_ERASE, size := 0, data := [] }] ++
          writes.map Prod.fst ++
          [{ port := port, cmd := .USB_PD_FW_REBOOT, size := 0, data := [] }] ∧
        writes.length = (fw.length + PD_FLASH_WRITE_STEP - 1) / PD_FLASH_WRITE_STEP ∧
        (∀ w ∈ writes, w.1.cmd = .USB_PD_FW_FLASH_WRITE ∧ w.1.port = port ∧
          w.1.size ≤ PD_FLASH_WRITE_STEP ∧ w.1.data.length = w.1.size) ∧
        (∀ w ∈ writes.dropLast, w.1.size = PD_FLASH_WRITE_STEP) ∧
        (writes.map (fun w => w.1.data)).flatten = fw) := by
  refine ⟨?_, fun hacc => ?_⟩
  · obtain ⟨ret, sent, h⟩ :=
      fw_update_returns PD_FLASH_WRITE_STEP kzalloc xfer fw port hstep hsize
    obtain ⟨h1, h2, h3⟩ := fw_update_answers PD_FLASH_WRITE_STEP kzalloc xfer fw port ret sent h
    exact ⟨ret, sent, h, h1, h2, fun hall => h3 hall hmem⟩
  · obtain ⟨writes, sent, h, hmap, hlen, hall, hdl, hjoin⟩ :=
      fw_update_ok PD_FLASH_WRITE_STEP kzalloc xfer fw port hmem hstep hsize hacc
    exact ⟨writes, sent, h, hmap, hlen,
      fun w hw => ⟨(hall w hw).1, (hall w hw).2.1, (hall w hw).2.2.1, (hall w hw).2.2.2.1⟩,
      hdl, hjoin⟩

theorem C29_firmware_write_chunking_witness :
    (4096 : Int) ≠ 0 ∧ 0 < 4 ∧ [1, 2, 3, 4, 5, 6, 7, 8, 9, 10].length + 4 ≤ 2 ^ 31 ∧
    (∀ sent msg, 0 ≤ sample_xfer_ok sent msg) ∧
    ∃ (writes sent : List (fw_update_msg × Int)),
      cros_ec_pd_fw_update 4 4096 sample_xfer_ok [1, 2, 3, 4, 5, 6, 7, 8, 9, 10] 2 =
        some (0, sent) ∧
      sent.map Prod.fst =
        [{ port := 2, cmd := .USB_PD_FW_ERASE_SIG, size := 0, data := [] },
          { port := 2, cmd := .USB_PD_FW_REBOOT, size := 0, data := [] },
          { port := 2, cmd := .USB_PD_FW_FLASH_ERASE, size := 0, data := [] }] ++
        writes.map Prod.fst ++
        [{ port := 2, cmd := .USB_PD_FW_REBOOT, size := 0, data := [] }] ∧
      writes.length = ([1, 2, 3, 4, 5, 6, 7, 8, 9, 10].length + 4 - 1) / 4 ∧
      (∀ w ∈ writes, w.1.cmd = .USB_PD_FW_FLASH_WRITE ∧ w.1.port = 2 ∧
        w.1.size ≤ 4 ∧ w.1.data.length = w.1.size) ∧
      (∀ w ∈ writes.dropLast, w.1.size = 4) ∧
      (writes.map (fun w => w.1.data)).flatten = [1, 2, 3, 4, 5, 6, 7, 8, 9, 10] :=
  ⟨by decide, by decide, by decide, fun _ _ => le_refl _,
    (C29_firmware_write_chunking 4 4096 sample_xfer_ok [1, 2, 3, 4, 5, 6, 7, 8, 9, 10] 2
      (by decide) (by decide) (by decide)).2 (fun _ _ => le_refl _)⟩

end CrosEcPd
